import Mathlib

/-! # Clock tables of the sdm845 camera, display and GPU clock controllers

A shallow embedding of the static clock descriptions in
`drivers/clk/qcom/camcc-sdm845.c`, `dispcc-sdm845.c` and `gpucc-sdm845.c`:
the PLLs, post-dividers, root clock generators (RCGs) and branches, their
parent maps, frequency tables and corner ceilings, the sdm670 fixups that
overwrite some of them, and the probe sequences.

Every C structure keeps its name and its fields.  A pointer to a table is
modelled by the table itself, a pointer to another clock (`&x.clkr.hw`) by the
name of that clock in the controller's `Hw` type, and `.hw.init` is the field
`hw_init`.  Arrays are lists, and a `{ }` terminator is kept as the all-zero
entry it is in C.
-/

/-- The kernel's `BIT(n)`. -/
def BIT (n : Nat) : Nat := 1 <<< n

/-- The kernel's `ARRAY_SIZE(a)`. -/
def ARRAY_SIZE {α : Type} (a : List α) : Nat := a.length

/-- A VCO band of a PLL (`struct pll_vco`): `{ min_freq, max_freq, val }`. -/
structure pll_vco where
  min_freq : Nat := 0
  max_freq : Nat := 0
  val : Nat := 0
deriving DecidableEq, Repr

/-- An entry of a divider table (`struct clk_div_table`): `{ val, div }`. -/
structure clk_div_table where
  val : Nat := 0
  div : Nat := 0
deriving DecidableEq, Repr

/-- An entry of a parent map (`struct parent_map`): `{ src, cfg }`, the source
identifier and the mux code that selects it. -/
structure parent_map where
  src : Nat := 0
  cfg : Nat := 0
deriving DecidableEq, Repr

/-- An entry of a frequency table (`struct freq_tbl`). -/
structure freq_tbl where
  freq : Nat := 0
  src : Nat := 0
  pre_div : Nat := 0
  m : Nat := 0
  n : Nat := 0
deriving DecidableEq, Repr

/-- Modelled from the spec: the macro `F(f, s, h, m, n)` of clk-rcg.h is not
under src/.  It builds the entry `{ f, s, 2 * h - 1, m, n }`.  The third
argument here is `2 * h`, twice the divider written in the C source (so `1.5`
is `3` and `1` is `2`), which keeps half-integer dividers in `Nat`. -/
def F (f s h2 m n : Nat) : freq_tbl :=
  { freq := f, src := s, pre_div := h2 - 1, m := m, n := n }

/-- The clock operation tables the nodes point to (`.ops = &...`). -/
inductive clk_ops where
  | clk_alpha_pll_fabia_ops
  | clk_alpha_pll_postdiv_fabia_ops
  | clk_fixed_factor_ops
  | clk_rcg2_ops
  | clk_rcg2_shared_ops
  | clk_byte2_ops
  | clk_dp_ops
  | clk_pixel_ops
  | clk_regmap_div_ops
  | clk_branch2_ops
deriving DecidableEq, Repr

/-- Flags of `struct clk_init_data` used by the three controllers. -/
inductive clk_flag where
  | CLK_SET_RATE_PARENT
deriving DecidableEq, Repr

/-- Flags of `struct clk_rcg2` used by the three controllers. -/
inductive rcg_flag where
  | FORCE_ENABLE_RCG
deriving DecidableEq, Repr

/-- The `halt_check` modes of a branch used by the three controllers. -/
inductive branch_halt where
  | BRANCH_HALT
  | BRANCH_HALT_VOTED
deriving DecidableEq, Repr

/-- The register layout a PLL points to (`clk_alpha_pll_regs[...]`). -/
inductive alpha_pll_type where
  | CLK_ALPHA_PLL_TYPE_FABIA
deriving DecidableEq, Repr

/-- The regulator classes declared with `DEFINE_VDD_REGULATORS`. -/
inductive vdd_class where
  | vdd_cx
  | vdd_mx
  | vdd_gfx
deriving DecidableEq, Repr

/-- Modelled from the spec: `enum vdd_levels` of vdd-level-sdm845.h is not under
src/.  The corners are numbered in the order the spec gives,
MIN < LOWER < LOW < LOW_L1 < NOMINAL < HIGH; only this order matters below. -/
def VDD_MIN : Nat := 0

/-- Corner LOWER, see `VDD_MIN`. -/
def VDD_LOWER : Nat := 1

/-- Corner LOW, see `VDD_MIN`. -/
def VDD_LOW : Nat := 2

/-- Corner LOW_L1, see `VDD_MIN`. -/
def VDD_LOW_L1 : Nat := 3

/-- Corner NOMINAL, see `VDD_MIN`. -/
def VDD_NOMINAL : Nat := 4

/-- Corner HIGH, see `VDD_MIN`. -/
def VDD_HIGH : Nat := 5

/-- Number of corners, the size of a `rate_max` array; see `VDD_MIN`. -/
def VDD_NUM : Nat := 6

/-- Modelled from the spec: `enum vdd_gx_levels` of vdd-level-sdm845.h is not
under src/.  The corners of the GPU graphics rail, in the order
MIN < LOWER < LOW < LOW_L1 < NOMINAL < NOMINAL_L1 < HIGH < HIGH_L1. -/
def VDD_GX_MIN : Nat := 0

/-- Graphics-rail corner LOWER, see `VDD_GX_MIN`. -/
def VDD_GX_LOWER : Nat := 1

/-- Graphics-rail corner LOW, see `VDD_GX_MIN`. -/
def VDD_GX_LOW : Nat := 2

/-- Graphics-rail corner LOW_L1, see `VDD_GX_MIN`. -/
def VDD_GX_LOW_L1 : Nat := 3

/-- Graphics-rail corner NOMINAL, see `VDD_GX_MIN`. -/
def VDD_GX_NOMINAL : Nat := 4

/-- Graphics-rail corner NOMINAL_L1, see `VDD_GX_MIN`. -/
def VDD_GX_NOMINAL_L1 : Nat := 5

/-- Graphics-rail corner HIGH, see `VDD_GX_MIN`. -/
def VDD_GX_HIGH : Nat := 6

/-- Graphics-rail corner HIGH_L1, see `VDD_GX_MIN`. -/
def VDD_GX_HIGH_L1 : Nat := 7

/-- Number of graphics-rail corners, see `VDD_GX_MIN`. -/
def VDD_GX_NUM : Nat := 8

/-- The compound literal `(unsigned long[num]) { [i] = v, ... }`: an array of
`num` zeros with the designated entries written in order. -/
def rate_max_init (num : Nat) (inits : List (Nat × Nat)) : List Nat :=
  inits.foldl (fun a p => a.set p.1 p.2) (List.replicate num 0)

/-- A possible parent of a clock (`struct clk_parent_data`): a clock of this
controller (`.hw`), or a clock named by the firmware (`.fw_name`, `.name`). -/
structure clk_parent_data (H : Type) where
  hw : Option H := none
  fw_name : Option String := none
  name : Option String := none
deriving DecidableEq, Repr

/-- The registration data of a clock (`struct clk_init_data`). -/
structure clk_init_data (H : Type) where
  name : String
  parent_data : List (clk_parent_data H) := []
  parent_hws : List H := []
  num_parents : Nat := 0
  flags : List clk_flag := []
  ops : clk_ops
deriving DecidableEq, Repr

/-- The corner ceilings of a clock (`struct clk_vdd_data`): `rate_max[c]` is
the highest rate allowed at corner `c`, zero when undefined. -/
structure clk_vdd_data where
  vdd_class : Option vdd_class := none
  num_rate_max : Nat := 0
  rate_max : List Nat := []
deriving DecidableEq, Repr

/-- The part common to all register-mapped clocks (`struct clk_regmap`). -/
structure clk_regmap (H : Type) where
  enable_reg : Nat := 0
  enable_mask : Nat := 0
  hw_init : clk_init_data H
  vdd_data : clk_vdd_data := {}
deriving DecidableEq, Repr

/-- A PLL (`struct clk_alpha_pll`). -/
structure clk_alpha_pll (H : Type) where
  offset : Nat
  vco_table : List pll_vco
  num_vco : Nat
  regs : alpha_pll_type
  clkr : clk_regmap H
deriving DecidableEq, Repr

/-- A PLL post-divider (`struct clk_alpha_pll_postdiv`). -/
structure clk_alpha_pll_postdiv (H : Type) where
  offset : Nat
  post_div_shift : Nat
  post_div_table : List clk_div_table
  num_post_div : Nat
  width : Nat
  regs : alpha_pll_type
  clkr : clk_regmap H
deriving DecidableEq, Repr

/-- A fixed multiplier/divider (`struct clk_fixed_factor`). -/
structure clk_fixed_factor (H : Type) where
  mult : Nat
  div : Nat
  hw_init : clk_init_data H
deriving DecidableEq, Repr

/-- A root clock generator (`struct clk_rcg2`).  `freq_tbl` is `none` where the
C initialiser leaves the pointer NULL. -/
structure clk_rcg2 (H : Type) where
  cmd_rcgr : Nat
  mnd_width : Nat
  hid_width : Nat
  parent_map : List parent_map
  freq_tbl : Option (List freq_tbl) := none
  enable_safe_config : Bool := false
  flags : List rcg_flag := []
  clkr : clk_regmap H
deriving DecidableEq, Repr

/-- A register-mapped divider (`struct clk_regmap_div`). -/
structure clk_regmap_div (H : Type) where
  reg : Nat
  shift : Nat
  width : Nat
  clkr : clk_regmap H
deriving DecidableEq, Repr

/-- A branch, a clock gate (`struct clk_branch`). -/
structure clk_branch (H : Type) where
  halt_reg : Nat
  halt_check : branch_halt
  clkr : clk_regmap H
deriving DecidableEq, Repr

/-- Power states of a power domain used by the three controllers. -/
inductive gdsc_pwrsts where
  | PWRSTS_OFF_ON
deriving DecidableEq, Repr

/-- Flags of `struct gdsc` used by the three controllers. -/
inductive gdsc_flag where
  | VOTABLE
  | CLAMP_IO
  | AON_RESET
  | POLL_CFG_GDSCR
  | HW_CTRL
deriving DecidableEq, Repr

/-- The `power_on` callbacks the power domains name. -/
inductive gdsc_power_on where
  | gdsc_gx_do_nothing_enable
deriving DecidableEq, Repr

/-- The fields of `struct generic_pm_domain` the files initialise. -/
structure generic_pm_domain where
  name : String
  power_on : Option gdsc_power_on := none
deriving DecidableEq, Repr

/-- A power domain (`struct gdsc`); `parent` names the parent domain. -/
structure gdsc (G : Type) where
  gdscr : Nat
  gds_hw_ctrl : Nat := 0
  clamp_io_ctrl : Nat := 0
  pd : generic_pm_domain
  pwrsts : gdsc_pwrsts
  flags : List gdsc_flag := []
  parent : Option G := none
deriving DecidableEq, Repr

/-- A block reset (`struct qcom_reset_map`): its register offset. -/
structure qcom_reset_map where
  reg : Nat := 0
deriving DecidableEq, Repr

/-- The register window of a controller (`struct regmap_config`). -/
structure regmap_config where
  reg_bits : Nat
  reg_stride : Nat
  val_bits : Nat
  max_register : Nat
  fast_io : Bool
deriving DecidableEq, Repr

/-- The description a probe hands to `qcom_cc_really_probe`
(`struct qcom_cc_desc`).  The arrays `clks`, `resets` and `gdscs` are indexed
in C by constants of the dt-bindings headers, which are not under src/; they
are kept here in source order, and `ARRAY_SIZE` is their number of entries.
`gdscs` is `none` when the pointer is NULL. -/
structure qcom_cc_desc (H G : Type) where
  config : regmap_config
  clks : List H
  num_clks : Nat
  resets : List qcom_reset_map
  num_resets : Nat
  gdscs : Option (List G)
  num_gdscs : Nat
  clk_regulators : List vdd_class
  num_clk_regulators : Nat
deriving DecidableEq, Repr

/-- The PLL settings handed to `clk_fabia_pll_configure`
(`struct alpha_pll_config`); the probes set only `l` and `alpha`. -/
structure alpha_pll_config where
  l : Nat := 0
  alpha : Nat := 0
deriving DecidableEq, Repr

/-- The assignment `c.freq_tbl = t;` on an RCG. -/
def rcg2_assign_freq_tbl {H : Type} (c : clk_rcg2 H) (t : List freq_tbl) : clk_rcg2 H :=
  { c with freq_tbl := some t }

/-- The assignment `c.clkr.vdd_data.rate_max[lvl] = v;` on an RCG.  An index
outside the array, which C leaves undefined, writes nothing. -/
def rcg2_assign_rate_max {H : Type} (c : clk_rcg2 H) (lvl v : Nat) : clk_rcg2 H :=
  { c with clkr := { c.clkr with vdd_data :=
      { c.clkr.vdd_data with rate_max := c.clkr.vdd_data.rate_max.set lvl v } } }

/-- The entries of a frequency table up to its zero terminator, as the kernel
walks it (`for (; f->freq; f++)`). -/
def freq_tbl_entries (t : List freq_tbl) : List freq_tbl :=
  t.takeWhile (fun f => f.freq != 0)

/-- The rates listed by a frequency table, terminator excluded. -/
def freq_tbl_rates (t : List freq_tbl) : List Nat :=
  (freq_tbl_entries t).map (fun f => f.freq)

/-- The frequency table an RCG points to, empty when the pointer is NULL. -/
def active_freq_tbl {H : Type} (c : clk_rcg2 H) : List freq_tbl :=
  c.freq_tbl.getD []

/-- Strictly ascending order of a list of rates. -/
def strictly_ascending (l : List Nat) : Prop :=
  l.Pairwise (fun a b => a < b)

instance (l : List Nat) : Decidable (strictly_ascending l) := by
  unfold strictly_ascending; infer_instance

/-- The RCG `b` differs from the RCG `a` at most in the frequency-table pointer and in the
values of the `rate_max` entries: every other field, and the size of
`rate_max`, is the same. -/
def same_but_tables {H : Type} (a b : clk_rcg2 H) : Prop :=
  { b with
    freq_tbl := a.freq_tbl
    clkr := { b.clkr with
      vdd_data := { b.clkr.vdd_data with rate_max := a.clkr.vdd_data.rate_max } } } = a
  ∧ b.clkr.vdd_data.rate_max.length = a.clkr.vdd_data.rate_max.length

/-- Every rate of the list has a ceiling entry at or above it. -/
def rates_have_ceiling (rates rate_max : List Nat) : Prop :=
  ∀ f ∈ rates, ∃ c ∈ rate_max, f ≤ c

instance (rates rate_max : List Nat) : Decidable (rates_have_ceiling rates rate_max) := by
  unfold rates_have_ceiling; infer_instance

/-- The ceilings of `rate_max`, read in corner order with the undefined (zero)
entries skipped, never decrease. -/
def ceilings_nondecreasing (rate_max : List Nat) : Prop :=
  (rate_max.filter (fun c => c != 0)).Pairwise (fun a b => a ≤ b)

instance (rate_max : List Nat) : Decidable (ceilings_nondecreasing rate_max) := by
  unfold ceilings_nondecreasing; infer_instance

/-- The possible parents of a clock: the entries of `parent_data`, and the
clocks of the controller listed in `parent_hws`. -/
def possible_parents {H : Type} (i : clk_init_data H) : List (clk_parent_data H) :=
  i.parent_data ++ i.parent_hws.map (fun h => { hw := some h })

/-- The possible-parent relation among the clocks of a controller: `p` is a
possible parent of `c`. -/
def is_parent_of {H : Type} (init : H → clk_init_data H) (c p : H) : Prop :=
  ∃ e ∈ possible_parents (init c), e.hw = some p

/-- Every upward chain from `c` ends at a source outside the controller: `c`
has parents, each of them is either a clock named to the firmware or a clock of
the controller from which, again, every upward chain ends outside. -/
inductive chains_end_outside {H : Type} (init : H → clk_init_data H) : H → Prop where
  | step (c : H)
      (has_parent : possible_parents (init c) ≠ [])
      (outside : ∀ e ∈ possible_parents (init c), e.hw = none → e.fw_name.isSome = true)
      (inside : ∀ p, is_parent_of init c p → chains_end_outside init p) :
      chains_end_outside init c

/-- The check behind the parent-graph theorems, for one clock `c` and a level
assignment: a parent inside the controller lies on a strictly lower level and
has parents itself, a parent outside is named. -/
def parents_descend {H : Type} (init : H → clk_init_data H) (level : H → Nat) (c : H) : Bool :=
  (possible_parents (init c)).all fun e =>
    match e.hw with
    | some p => decide (level p < level c) && !(possible_parents (init p)).isEmpty
    | none => e.fw_name.isSome

/-- The identity of a parent entry: the clock of the controller it points to,
or the firmware name it gives. -/
def parent_key {H : Type} (e : clk_parent_data H) : Option H × Option String :=
  (e.hw, e.fw_name)

/-- No two entries of the parent map share a mux code. -/
def mux_codes_distinct {H : Type} (c : clk_rcg2 H) : Prop :=
  (c.parent_map.map (fun e => e.cfg)).Nodup

/-- No two entries of the parent list name the same parent clock. -/
def parents_distinct {H : Type} (c : clk_rcg2 H) : Prop :=
  (c.clkr.hw_init.parent_data.map parent_key).Nodup

/-- Entry `i` of the parent map pairs with entry `i` of the parent list: the
two have the same number of entries. -/
def parents_paired {H : Type} (c : clk_rcg2 H) : Prop :=
  c.parent_map.length = c.clkr.hw_init.parent_data.length

instance {H : Type} (c : clk_rcg2 H) : Decidable (mux_codes_distinct c) := by
  unfold mux_codes_distinct; infer_instance

instance {H : Type} [DecidableEq H] (c : clk_rcg2 H) : Decidable (parents_distinct c) := by
  unfold parents_distinct; infer_instance

instance {H : Type} (c : clk_rcg2 H) : Decidable (parents_paired c) := by
  unfold parents_paired; infer_instance

/-- The bands of a VCO table are listed in ascending rate order. -/
def vco_bands_ascending (t : List pll_vco) : Prop :=
  t.Pairwise (fun a b => a.min_freq < b.min_freq ∧ a.max_freq < b.max_freq)

/-- No two bands of a VCO table have overlapping `[min_freq, max_freq]` ranges. -/
def vco_bands_disjoint (t : List pll_vco) : Prop :=
  t.Pairwise (fun a b => a.max_freq < b.min_freq ∨ b.max_freq < a.min_freq)

/-- The bands of a VCO table are listed in descending rate order. -/
def vco_bands_descending (t : List pll_vco) : Prop :=
  t.Pairwise (fun a b => b.min_freq < a.min_freq ∧ b.max_freq < a.max_freq)

instance (t : List pll_vco) : Decidable (vco_bands_ascending t) := by
  unfold vco_bands_ascending; infer_instance

instance (t : List pll_vco) : Decidable (vco_bands_disjoint t) := by
  unfold vco_bands_disjoint; infer_instance

instance (t : List pll_vco) : Decidable (vco_bands_descending t) := by
  unfold vco_bands_descending; infer_instance

/-- What the environment answers to a probe: whether the device is the sdm670
variant (`of_device_is_compatible`), the error of `qcom_cc_map` if it fails,
and the return values of `devm_clk_hw_register` and `qcom_cc_really_probe`. -/
structure probe_env where
  sdm670 : Bool
  map_err : Option Int
  register_ret : Int
  really_probe_ret : Int

/-- A call a probe makes, with the arguments that matter, for a controller with
clocks `H`, PLLs `P` and description `D`. -/
inductive probe_call (H P D : Type) where
  | qcom_cc_map
  | devm_clk_hw_register (hw : H)
  | fixup_sdm670
  | clk_fabia_pll_configure (pll : P) (config : alpha_pll_config)
  | regmap_update_bits (reg mask val : Nat)
  | qcom_cc_really_probe (desc : D)
deriving DecidableEq, Repr

/-- The PLL configurations a probe writes, in call order. -/
def pll_configs {H P D : Type} (calls : List (probe_call H P D)) : List (P × alpha_pll_config) :=
  calls.filterMap fun c =>
    match c with
    | .clk_fabia_pll_configure p cfg => some (p, cfg)
    | _ => none

/-- Modelled from the spec: the rate of the reference clock bi_tcxo, 19.2 MHz;
the clock is provided by the firmware and its rate is not under src/. -/
def BI_TCXO_RATE : Nat := 19200000

/-- Modelled from the spec: the width of the alpha field of these PLLs, 16 bits;
the PLL register layout is not under src/. -/
def ALPHA_WIDTH : Nat := 16

/-- Modelled from the spec: the output rate of a PLL configured with `l` and
`alpha`, `rate = parent_rate * (l + alpha / 2 ^ alpha_width)`. -/
def alpha_pll_rate (cfg : alpha_pll_config) : ℚ :=
  (BI_TCXO_RATE : ℚ) * ((cfg.l : ℚ) + (cfg.alpha : ℚ) / 2 ^ ALPHA_WIDTH)

/-- The rate lies inside the `[min_freq, max_freq]` range of the band. -/
def in_vco_band (b : pll_vco) (rate : ℚ) : Prop :=
  (b.min_freq : ℚ) ≤ rate ∧ rate ≤ (b.max_freq : ℚ)

/-! ## The GPU clock controller, `gpucc-sdm845.c` -/

namespace gpucc_sdm845

/-! The parent sources, the anonymous `enum { P_BI_TCXO, ... }` of the file. -/

def P_BI_TCXO : Nat := 0
def P_GPLL0_OUT_MAIN : Nat := 1
def P_GPLL0_OUT_MAIN_DIV : Nat := 2
def P_GPU_CC_PLL0_OUT_EVEN : Nat := 3
def P_GPU_CC_PLL0_OUT_MAIN : Nat := 4
def P_GPU_CC_PLL0_OUT_ODD : Nat := 5
def P_GPU_CC_PLL1_OUT_EVEN : Nat := 6
def P_GPU_CC_PLL1_OUT_MAIN : Nat := 7
def P_GPU_CC_PLL1_OUT_ODD : Nat := 8
def P_CRC_DIV : Nat := 9

/-- The PLLs of the controller (`struct clk_alpha_pll`). -/
inductive Pll where
  | gpu_cc_pll0
  | gpu_cc_pll1
deriving DecidableEq, Repr

/-- The PLL post-dividers of the controller (`struct clk_alpha_pll_postdiv`). -/
inductive Postdiv where
  | gpu_cc_pll0_out_even
deriving DecidableEq, Repr

/-- The fixed-factor clocks of the controller (`struct clk_fixed_factor`). -/
inductive FixedFactor where
  | crc_div
deriving DecidableEq, Repr

/-- The root clock generators of the controller (`struct clk_rcg2`). -/
inductive Rcg where
  | gpu_cc_gmu_clk_src
  | gpu_cc_gx_gfx3d_clk_src
deriving DecidableEq, Repr

/-- The branches of the controller (`struct clk_branch`). -/
inductive Branch where
  | gpu_cc_acd_ahb_clk
  | gpu_cc_acd_cxo_clk
  | gpu_cc_crc_ahb_clk
  | gpu_cc_cx_apb_clk
  | gpu_cc_cx_gfx3d_clk
  | gpu_cc_cx_gfx3d_slv_clk
  | gpu_cc_cx_gmu_clk
  | gpu_cc_cx_snoc_dvm_clk
  | gpu_cc_cxo_aon_clk
  | gpu_cc_cxo_clk
  | gpu_cc_gx_gfx3d_clk
  | gpu_cc_gx_gmu_clk
  | gpu_cc_gx_vsense_clk
deriving DecidableEq, Repr

/-- The power domains of the controller (`struct gdsc`). -/
inductive Gdsc where
  | gpu_cx_gdsc
  | gpu_gx_gdsc
deriving DecidableEq, Repr

/-- A clock of the controller, what a `struct clk_hw *` of the file points to. -/
inductive Hw where
  | pll (c : Pll)
  | postdiv (c : Postdiv)
  | fixed_factor (c : FixedFactor)
  | rcg (c : Rcg)
  | branch (c : Branch)
deriving DecidableEq, Repr

def fabia_vco : List pll_vco := [
  ⟨249600000, 2000000000, 0⟩,
  ⟨125000000, 1000000000, 1⟩
]

def gpu_cc_pll0 : clk_alpha_pll Hw := {
  offset := 0x0
  vco_table := fabia_vco
  num_vco := ARRAY_SIZE fabia_vco
  regs := .CLK_ALPHA_PLL_TYPE_FABIA
  clkr := {
    hw_init := {
      name := "gpu_cc_pll0"
      parent_data := [{ fw_name := some "bi_tcxo" }]
      num_parents := 1
      ops := .clk_alpha_pll_fabia_ops
    }
    vdd_data := {
      vdd_class := some .vdd_mx
      num_rate_max := VDD_NUM
      rate_max := rate_max_init VDD_NUM [(VDD_MIN, 615000000), (VDD_LOW, 1066000000), (VDD_LOW_L1, 1600000000), (VDD_NOMINAL, 2000000000)]
    }
  }
}

def post_div_table_fabia_even : List clk_div_table := [
  ⟨0x0, 1⟩,
  ⟨0x1, 2⟩,
  ⟨0x3, 4⟩,
  ⟨0x7, 8⟩,
  { }
]

def gpu_cc_pll0_out_even : clk_alpha_pll_postdiv Hw := {
  offset := 0x0
  post_div_shift := 8
  post_div_table := post_div_table_fabia_even
  num_post_div := ARRAY_SIZE post_div_table_fabia_even
  width := 4
  regs := .CLK_ALPHA_PLL_TYPE_FABIA
  clkr := {
    hw_init := {
      name := "gpu_cc_pll0_out_even"
      parent_hws := [.pll .gpu_cc_pll0]
      num_parents := 1
      flags := [.CLK_SET_RATE_PARENT]
      ops := .clk_alpha_pll_postdiv_fabia_ops
    }
  }
}

def gpu_cc_pll1 : clk_alpha_pll Hw := {
  offset := 0x100
  vco_table := fabia_vco
  num_vco := ARRAY_SIZE fabia_vco
  regs := .CLK_ALPHA_PLL_TYPE_FABIA
  clkr := {
    hw_init := {
      name := "gpu_cc_pll1"
      parent_data := [{ fw_name := some "bi_tcxo" }]
      num_parents := 1
      ops := .clk_alpha_pll_fabia_ops
    }
    vdd_data := {
      vdd_class := some .vdd_mx
      num_rate_max := VDD_NUM
      rate_max := rate_max_init VDD_NUM [(VDD_MIN, 615000000), (VDD_LOW, 1066000000), (VDD_LOW_L1, 1600000000), (VDD_NOMINAL, 2000000000)]
    }
  }
}

def crc_div : clk_fixed_factor Hw := {
  mult := 1
  div := 1
  hw_init := {
    name := "crc_div"
    parent_hws := [.postdiv .gpu_cc_pll0_out_even]
    num_parents := 1
    flags := [.CLK_SET_RATE_PARENT]
    ops := .clk_fixed_factor_ops
  }
}

def gpu_cc_parent_map_0 : List parent_map := [
  ⟨P_BI_TCXO, 0⟩,
  ⟨P_GPU_CC_PLL0_OUT_MAIN, 1⟩,
  ⟨P_GPU_CC_PLL1_OUT_MAIN, 3⟩,
  ⟨P_GPLL0_OUT_MAIN, 5⟩,
  ⟨P_GPLL0_OUT_MAIN_DIV, 6⟩
]

def gpu_cc_parent_data_0 : List (clk_parent_data Hw) := [
  { fw_name := some "bi_tcxo" },
  { hw := some (.pll .gpu_cc_pll0) },
  { hw := some (.pll .gpu_cc_pll1) },
  { fw_name := some "gcc_gpu_gpll0_clk_src" },
  { fw_name := some "gcc_gpu_gpll0_div_clk_src" }
]

def gpu_cc_parent_map_1 : List parent_map := [
  ⟨P_BI_TCXO, 0⟩,
  ⟨P_GPU_CC_PLL0_OUT_EVEN, 1⟩,
  ⟨P_GPU_CC_PLL0_OUT_ODD, 2⟩,
  ⟨P_GPU_CC_PLL1_OUT_EVEN, 3⟩,
  ⟨P_GPU_CC_PLL1_OUT_ODD, 4⟩,
  ⟨P_GPLL0_OUT_MAIN, 5⟩
]

def gpu_cc_parent_data_1 : List (clk_parent_data Hw) := [
  { fw_name := some "bi_tcxo" },
  { hw := some (.postdiv .gpu_cc_pll0_out_even) },
  { hw := some (.pll .gpu_cc_pll0) },
  { hw := some (.pll .gpu_cc_pll1) },
  { hw := some (.pll .gpu_cc_pll1) },
  { fw_name := some "gcc_gpu_gpll0_clk_src" }
]

def gpu_cc_parent_map_2 : List parent_map := [
  ⟨P_BI_TCXO, 0⟩,
  ⟨P_CRC_DIV, 1⟩,
  ⟨P_GPU_CC_PLL0_OUT_ODD, 2⟩,
  ⟨P_GPU_CC_PLL1_OUT_EVEN, 3⟩,
  ⟨P_GPU_CC_PLL1_OUT_ODD, 4⟩,
  ⟨P_GPLL0_OUT_MAIN, 5⟩
]

def gpu_cc_parent_data_2 : List (clk_parent_data Hw) := [
  { fw_name := some "bi_tcxo" },
  { hw := some (.fixed_factor .crc_div) },
  { hw := some (.pll .gpu_cc_pll0) },
  { hw := some (.pll .gpu_cc_pll1) },
  { hw := some (.pll .gpu_cc_pll1) },
  { fw_name := some "gcc_gpu_gpll0_clk_src" }
]

def ftbl_gpu_cc_gmu_clk_src : List freq_tbl := [
  F 19200000 P_BI_TCXO 2 0 0,
  F 200000000 P_GPLL0_OUT_MAIN_DIV 3 0 0,
  F 400000000 P_GPLL0_OUT_MAIN 3 0 0,
  { }
]

def ftbl_gpu_cc_gmu_clk_src_sdm670 : List freq_tbl := [
  F 19200000 P_BI_TCXO 2 0 0,
  F 200000000 P_GPLL0_OUT_MAIN_DIV 3 0 0,
  { }
]

def gpu_cc_gmu_clk_src : clk_rcg2 Hw := {
  cmd_rcgr := 0x1120
  mnd_width := 0
  hid_width := 5
  parent_map := gpu_cc_parent_map_0
  freq_tbl := some ftbl_gpu_cc_gmu_clk_src
  clkr := {
    hw_init := {
      name := "gpu_cc_gmu_clk_src"
      parent_data := gpu_cc_parent_data_0
      num_parents := ARRAY_SIZE gpu_cc_parent_data_0
      flags := [.CLK_SET_RATE_PARENT]
      ops := .clk_rcg2_shared_ops
    }
    vdd_data := {
      vdd_class := some .vdd_cx
      num_rate_max := VDD_NUM
      rate_max := rate_max_init VDD_NUM [(VDD_MIN, 200000000), (VDD_LOW, 400000000)]
    }
  }
}

def ftbl_gpu_cc_gx_gfx3d_clk_src : List freq_tbl := [
  F 147000000 P_CRC_DIV 2 0 0,
  F 210000000 P_CRC_DIV 2 0 0,
  F 280000000 P_CRC_DIV 2 0 0,
  F 338000000 P_CRC_DIV 2 0 0,
  F 425000000 P_CRC_DIV 2 0 0,
  F 487000000 P_CRC_DIV 2 0 0,
  F 548000000 P_CRC_DIV 2 0 0,
  F 600000000 P_CRC_DIV 2 0 0,
  { }
]

def ftbl_gpu_cc_gx_gfx3d_clk_src_sdm670 : List freq_tbl := [
  F 180000000 P_CRC_DIV 2 0 0,
  F 267000000 P_CRC_DIV 2 0 0,
  F 355000000 P_CRC_DIV 2 0 0,
  F 430000000 P_CRC_DIV 2 0 0,
  F 504000000 P_CRC_DIV 2 0 0,
  F 565000000 P_CRC_DIV 2 0 0,
  F 610000000 P_CRC_DIV 2 0 0,
  F 650000000 P_CRC_DIV 2 0 0,
  F 700000000 P_CRC_DIV 2 0 0,
  F 750000000 P_CRC_DIV 2 0 0,
  F 780000000 P_CRC_DIV 2 0 0,
  { }
]

def gpu_cc_gx_gfx3d_clk_src : clk_rcg2 Hw := {
  cmd_rcgr := 0x101c
  mnd_width := 0
  hid_width := 5
  parent_map := gpu_cc_parent_map_2
  freq_tbl := some ftbl_gpu_cc_gx_gfx3d_clk_src
  flags := [.FORCE_ENABLE_RCG]
  clkr := {
    hw_init := {
      name := "gpu_cc_gx_gfx3d_clk_src"
      parent_data := gpu_cc_parent_data_2
      num_parents := ARRAY_SIZE gpu_cc_parent_data_2
      flags := [.CLK_SET_RATE_PARENT]
      ops := .clk_rcg2_ops
    }
    vdd_data := {
      vdd_class := some .vdd_gfx
      num_rate_max := VDD_GX_NUM
      rate_max := rate_max_init VDD_GX_NUM [(VDD_GX_MIN, 147000000), (VDD_GX_LOWER, 210000000), (VDD_GX_LOW, 280000000), (VDD_GX_LOW_L1, 338000000), (VDD_GX_NOMINAL, 425000000), (VDD_GX_NOMINAL_L1, 487000000), (VDD_GX_HIGH, 548000000), (VDD_GX_HIGH_L1, 600000000)]
    }
  }
}

def gpu_cc_acd_ahb_clk : clk_branch Hw := {
  halt_reg := 0x1168
  halt_check := .BRANCH_HALT
  clkr := {
    enable_reg := 0x1168
    enable_mask := BIT 0
    hw_init := {
      name := "gpu_cc_acd_ahb_clk"
      ops := .clk_branch2_ops
    }
  }
}

def gpu_cc_acd_cxo_clk : clk_branch Hw := {
  halt_reg := 0x1164
  halt_check := .BRANCH_HALT
  clkr := {
    enable_reg := 0x1164
    enable_mask := BIT 0
    hw_init := {
      name := "gpu_cc_acd_cxo_clk"
      ops := .clk_branch2_ops
    }
  }
}

def gpu_cc_crc_ahb_clk : clk_branch Hw := {
  halt_reg := 0x107c
  halt_check := .BRANCH_HALT
  clkr := {
    enable_reg := 0x107c
    enable_mask := BIT 0
    hw_init := {
      name := "gpu_cc_crc_ahb_clk"
      ops := .clk_branch2_ops
    }
  }
}

def gpu_cc_cx_apb_clk : clk_branch Hw := {
  halt_reg := 0x1088
  halt_check := .BRANCH_HALT
  clkr := {
    enable_reg := 0x1088
    enable_mask := BIT 0
    hw_init := {
      name := "gpu_cc_cx_apb_clk"
      ops := .clk_branch2_ops
    }
  }
}

def gpu_cc_cx_gfx3d_clk : clk_branch Hw := {
  halt_reg := 0x10a4
  halt_check := .BRANCH_HALT
  clkr := {
    enable_reg := 0x10a4
    enable_mask := BIT 0
    hw_init := {
      name := "gpu_cc_cx_gfx3d_clk"
      parent_hws := [.rcg .gpu_cc_gx_gfx3d_clk_src]
      num_parents := 1
      flags := [.CLK_SET_RATE_PARENT]
      ops := .clk_branch2_ops
    }
  }
}

def gpu_cc_cx_gfx3d_slv_clk : clk_branch Hw := {
  halt_reg := 0x10a8
  halt_check := .BRANCH_HALT
  clkr := {
    enable_reg := 0x10a8
    enable_mask := BIT 0
    hw_init := {
      name := "gpu_cc_cx_gfx3d_slv_clk"
      parent_hws := [.rcg .gpu_cc_gx_gfx3d_clk_src]
      num_parents := 1
      flags := [.CLK_SET_RATE_PARENT]
      ops := .clk_branch2_ops
    }
  }
}

def gpu_cc_cx_gmu_clk : clk_branch Hw := {
  halt_reg := 0x1098
  halt_check := .BRANCH_HALT
  clkr := {
    enable_reg := 0x1098
    enable_mask := BIT 0
    hw_init := {
      name := "gpu_cc_cx_gmu_clk"
      parent_hws := [.rcg .gpu_cc_gmu_clk_src]
      num_parents := 1
      flags := [.CLK_SET_RATE_PARENT]
      ops := .clk_branch2_ops
    }
  }
}

def gpu_cc_cx_snoc_dvm_clk : clk_branch Hw := {
  halt_reg := 0x108c
  halt_check := .BRANCH_HALT
  clkr := {
    enable_reg := 0x108c
    enable_mask := BIT 0
    hw_init := {
      name := "gpu_cc_cx_snoc_dvm_clk"
      ops := .clk_branch2_ops
    }
  }
}

def gpu_cc_cxo_aon_clk : clk_branch Hw := {
  halt_reg := 0x1004
  halt_check := .BRANCH_HALT
  clkr := {
    enable_reg := 0x1004
    enable_mask := BIT 0
    hw_init := {
      name := "gpu_cc_cxo_aon_clk"
      ops := .clk_branch2_ops
    }
  }
}

def gpu_cc_cxo_clk : clk_branch Hw := {
  halt_reg := 0x109c
  halt_check := .BRANCH_HALT
  clkr := {
    enable_reg := 0x109c
    enable_mask := BIT 0
    hw_init := {
      name := "gpu_cc_cxo_clk"
      ops := .clk_branch2_ops
    }
  }
}

def gpu_cc_gx_gfx3d_clk : clk_branch Hw := {
  halt_reg := 0x1054
  halt_check := .BRANCH_HALT
  clkr := {
    enable_reg := 0x1054
    enable_mask := BIT 0
    hw_init := {
      name := "gpu_cc_gx_gfx3d_clk"
      parent_hws := [.rcg .gpu_cc_gx_gfx3d_clk_src]
      num_parents := 1
      flags := [.CLK_SET_RATE_PARENT]
      ops := .clk_branch2_ops
    }
  }
}

def gpu_cc_gx_gmu_clk : clk_branch Hw := {
  halt_reg := 0x1064
  halt_check := .BRANCH_HALT
  clkr := {
    enable_reg := 0x1064
    enable_mask := BIT 0
    hw_init := {
      name := "gpu_cc_gx_gmu_clk"
      parent_hws := [.rcg .gpu_cc_gmu_clk_src]
      num_parents := 1
      flags := [.CLK_SET_RATE_PARENT]
      ops := .clk_branch2_ops
    }
  }
}

def gpu_cc_gx_vsense_clk : clk_branch Hw := {
  halt_reg := 0x1058
  halt_check := .BRANCH_HALT_VOTED
  clkr := {
    enable_reg := 0x1058
    enable_mask := BIT 0
    hw_init := {
      name := "gpu_cc_gx_vsense_clk"
      ops := .clk_branch2_ops
    }
  }
}

def gpu_cx_gdsc : gdsc Gdsc := {
  gdscr := 0x106c
  gds_hw_ctrl := 0x1540
  pwrsts := .PWRSTS_OFF_ON
  flags := [ gdsc_flag.VOTABLE ]
  pd := { name := "gpu_cx_gdsc" }
}

def gpu_gx_gdsc : gdsc Gdsc := {
  gdscr := 0x100c
  clamp_io_ctrl := 0x1508
  pwrsts := .PWRSTS_OFF_ON
  flags := [ gdsc_flag.CLAMP_IO, gdsc_flag.AON_RESET, gdsc_flag.POLL_CFG_GDSCR ]
  pd := { name := "gpu_gx_gdsc", power_on := some .gdsc_gx_do_nothing_enable }
}

def gpu_cc_sdm845_regulators : List vdd_class := [.vdd_cx, .vdd_mx, .vdd_gfx]

def gpu_cc_sdm845_clocks : List Hw := [
  Hw.branch Branch.gpu_cc_acd_ahb_clk,
  Hw.branch Branch.gpu_cc_acd_cxo_clk,
  Hw.branch Branch.gpu_cc_crc_ahb_clk,
  Hw.branch Branch.gpu_cc_cx_apb_clk,
  Hw.branch Branch.gpu_cc_cx_gfx3d_clk,
  Hw.branch Branch.gpu_cc_cx_gfx3d_slv_clk,
  Hw.branch Branch.gpu_cc_cx_gmu_clk,
  Hw.branch Branch.gpu_cc_cx_snoc_dvm_clk,
  Hw.branch Branch.gpu_cc_cxo_aon_clk,
  Hw.branch Branch.gpu_cc_cxo_clk,
  Hw.rcg Rcg.gpu_cc_gmu_clk_src,
  Hw.branch Branch.gpu_cc_gx_gmu_clk,
  Hw.branch Branch.gpu_cc_gx_vsense_clk,
  Hw.postdiv Postdiv.gpu_cc_pll0_out_even,
  Hw.rcg Rcg.gpu_cc_gx_gfx3d_clk_src,
  Hw.branch Branch.gpu_cc_gx_gfx3d_clk,
  Hw.pll Pll.gpu_cc_pll0,
  Hw.pll Pll.gpu_cc_pll1
]

def gpu_cc_sdm845_resets : List qcom_reset_map := [
  ⟨0x1160⟩,
  ⟨0x1068⟩,
  ⟨0x10a0⟩,
  ⟨0x111c⟩,
  ⟨0x1008⟩,
  ⟨0x1110⟩,
  ⟨0x1000⟩
]

def gpu_cc_sdm845_regmap_config : regmap_config := {
  reg_bits := 32
  reg_stride := 4
  val_bits := 32
  max_register := 0x8008
  fast_io := true
}

def gpu_cc_sdm845_gdscs : List Gdsc := [
  .gpu_cx_gdsc,
  .gpu_gx_gdsc
]

def gpu_cc_sdm845_desc : qcom_cc_desc Hw Gdsc := {
  config := gpu_cc_sdm845_regmap_config
  clks := gpu_cc_sdm845_clocks
  num_clks := ARRAY_SIZE gpu_cc_sdm845_clocks
  resets := gpu_cc_sdm845_resets
  num_resets := ARRAY_SIZE gpu_cc_sdm845_resets
  gdscs := some gpu_cc_sdm845_gdscs
  num_gdscs := ARRAY_SIZE gpu_cc_sdm845_gdscs
  clk_regulators := gpu_cc_sdm845_regulators
  num_clk_regulators := ARRAY_SIZE gpu_cc_sdm845_regulators
}

/-- Every frequency table the file declares. -/
def freq_tables : List (List freq_tbl) := [
  ftbl_gpu_cc_gmu_clk_src,
  ftbl_gpu_cc_gmu_clk_src_sdm670,
  ftbl_gpu_cc_gx_gfx3d_clk_src,
  ftbl_gpu_cc_gx_gfx3d_clk_src_sdm670
]

/-- Every parent map the file declares, with the parent list of the same number. -/
def parent_tables : List (List parent_map × List (clk_parent_data Hw)) := [
  (gpu_cc_parent_map_0, gpu_cc_parent_data_0),
  (gpu_cc_parent_map_1, gpu_cc_parent_data_1),
  (gpu_cc_parent_map_2, gpu_cc_parent_data_2)
]

/-- The static clock structures of the GPU clock controller, the state the
fixup and the clock framework work on. -/
structure clocks where
  pll : Pll → clk_alpha_pll Hw
  postdiv : Postdiv → clk_alpha_pll_postdiv Hw
  fixed_factor : FixedFactor → clk_fixed_factor Hw
  rcg : Rcg → clk_rcg2 Hw
  branch : Branch → clk_branch Hw

/-- The clock structures as their static initialisers leave them: the sdm845
tables. -/
def initial : clocks where
  pll := fun
    | .gpu_cc_pll0 => gpu_cc_pll0
    | .gpu_cc_pll1 => gpu_cc_pll1
  postdiv := fun
    | .gpu_cc_pll0_out_even => gpu_cc_pll0_out_even
  fixed_factor := fun
    | .crc_div => crc_div
  rcg := fun
    | .gpu_cc_gmu_clk_src => gpu_cc_gmu_clk_src
    | .gpu_cc_gx_gfx3d_clk_src => gpu_cc_gx_gfx3d_clk_src
  branch := fun
    | .gpu_cc_acd_ahb_clk => gpu_cc_acd_ahb_clk
    | .gpu_cc_acd_cxo_clk => gpu_cc_acd_cxo_clk
    | .gpu_cc_crc_ahb_clk => gpu_cc_crc_ahb_clk
    | .gpu_cc_cx_apb_clk => gpu_cc_cx_apb_clk
    | .gpu_cc_cx_gfx3d_clk => gpu_cc_cx_gfx3d_clk
    | .gpu_cc_cx_gfx3d_slv_clk => gpu_cc_cx_gfx3d_slv_clk
    | .gpu_cc_cx_gmu_clk => gpu_cc_cx_gmu_clk
    | .gpu_cc_cx_snoc_dvm_clk => gpu_cc_cx_snoc_dvm_clk
    | .gpu_cc_cxo_aon_clk => gpu_cc_cxo_aon_clk
    | .gpu_cc_cxo_clk => gpu_cc_cxo_clk
    | .gpu_cc_gx_gfx3d_clk => gpu_cc_gx_gfx3d_clk
    | .gpu_cc_gx_gmu_clk => gpu_cc_gx_gmu_clk
    | .gpu_cc_gx_vsense_clk => gpu_cc_gx_vsense_clk

/-- The statement `r.freq_tbl = t;`. -/
def set_freq_tbl (r : Rcg) (t : List freq_tbl) (s : clocks) : clocks :=
  { s with rcg := fun x => if x = r then rcg2_assign_freq_tbl (s.rcg x) t else s.rcg x }

/-- The statement `r.clkr.vdd_data.rate_max[lvl] = v;`. -/
def set_rate_max (r : Rcg) (lvl v : Nat) (s : clocks) : clocks :=
  { s with rcg := fun x => if x = r then rcg2_assign_rate_max (s.rcg x) lvl v else s.rcg x }

/-- The sdm670 fixup of the GPU controller, one step per C statement. -/
def gpu_cc_sdm845_fixup_sdm670 (s : clocks) : clocks :=
  s
  |> set_freq_tbl .gpu_cc_gmu_clk_src ftbl_gpu_cc_gmu_clk_src_sdm670
  |> set_rate_max .gpu_cc_gmu_clk_src VDD_LOW 200000000
  |> set_freq_tbl .gpu_cc_gx_gfx3d_clk_src ftbl_gpu_cc_gx_gfx3d_clk_src_sdm670
  |> set_rate_max .gpu_cc_gx_gfx3d_clk_src VDD_GX_MIN 180000000
  |> set_rate_max .gpu_cc_gx_gfx3d_clk_src VDD_GX_LOWER 267000000
  |> set_rate_max .gpu_cc_gx_gfx3d_clk_src VDD_GX_LOW 355000000
  |> set_rate_max .gpu_cc_gx_gfx3d_clk_src VDD_GX_LOW_L1 430000000
  |> set_rate_max .gpu_cc_gx_gfx3d_clk_src VDD_GX_NOMINAL 565000000
  |> set_rate_max .gpu_cc_gx_gfx3d_clk_src VDD_GX_NOMINAL_L1 650000000
  |> set_rate_max .gpu_cc_gx_gfx3d_clk_src VDD_GX_HIGH 750000000
  |> set_rate_max .gpu_cc_gx_gfx3d_clk_src VDD_GX_HIGH_L1 780000000

/-- The tables of the GPU controller for a hardware variant: the static tables
for sdm845, the tables after the fixup for sdm670. -/
def variant (sdm670 : Bool) : clocks :=
  if sdm670 then gpu_cc_sdm845_fixup_sdm670 initial else initial

/-- The RCGs the GPU fixup names. -/
def fixup_rcgs : List Rcg := [.gpu_cc_gmu_clk_src, .gpu_cc_gx_gfx3d_clk_src]

/-- The registration data of a clock of the controller. -/
def hw_init (s : clocks) : Hw → clk_init_data Hw
  | .pll c => (s.pll c).clkr.hw_init
  | .postdiv c => (s.postdiv c).clkr.hw_init
  | .fixed_factor c => (s.fixed_factor c).hw_init
  | .rcg c => (s.rcg c).clkr.hw_init
  | .branch c => (s.branch c).clkr.hw_init

/-- The corner ceilings of a clock of the controller; a fixed factor has no
`clk_regmap` and so none. -/
def rate_max_of (s : clocks) : Hw → List Nat
  | .pll c => (s.pll c).clkr.vdd_data.rate_max
  | .postdiv c => (s.postdiv c).clkr.vdd_data.rate_max
  | .fixed_factor _ => []
  | .rcg c => (s.rcg c).clkr.vdd_data.rate_max
  | .branch c => (s.branch c).clkr.vdd_data.rate_max

/-- The level of a clock in the parent graph, by kind. -/
def level : Hw → Nat
  | .pll _ => 0
  | .postdiv _ => 1
  | .fixed_factor _ => 2
  | .rcg _ => 3
  | .branch _ => 4

/-! The register fields the GPU probe writes (`#define`s of the file). -/

def CX_GMU_CBCR_SLEEP_MASK : Nat := 0xf
def CX_GMU_CBCR_SLEEP_SHIFT : Nat := 4
def CX_GMU_CBCR_WAKE_MASK : Nat := 0xf
def CX_GMU_CBCR_WAKE_SHIFT : Nat := 8
def CLK_DIS_WAIT_SHIFT : Nat := 12
def CLK_DIS_WAIT_MASK : Nat := 0xf <<< CLK_DIS_WAIT_SHIFT

/-- What a probe leaves behind: its return value, the clock structures, the
description, and the calls it made, in order. -/
structure probe_result where
  ret : Int
  clks : clocks
  desc : qcom_cc_desc Hw Gdsc
  calls : List (probe_call Hw Pll (qcom_cc_desc Hw Gdsc))

/-- The probe `gpu_cc_sdm845_probe`, started on the clock structures `clks` and
the description `desc`. -/
def gpu_cc_sdm845_probe (env : probe_env) (clks : clocks) (desc : qcom_cc_desc Hw Gdsc) :
    probe_result :=
  let gpu_cc_pll0_config : alpha_pll_config := { }
  let sdm670 := env.sdm670
  let calls : List (probe_call Hw Pll (qcom_cc_desc Hw Gdsc)) := [.qcom_cc_map]
  match env.map_err with
  | some err => { ret := err, clks := clks, desc := desc, calls := calls }
  | none =>
    let calls := calls ++ [.devm_clk_hw_register (.fixed_factor .crc_div)]
    let ret := env.register_ret
    if ret ≠ 0 then { ret := ret, clks := clks, desc := desc, calls := calls } else
    let calls := if sdm670 then calls ++ [.fixup_sdm670] else calls
    let clks := if sdm670 then gpu_cc_sdm845_fixup_sdm670 clks else clks
    let desc := { desc with gdscs := none }
    let desc := { desc with num_gdscs := 0 }
    let gpu_cc_pll0_config := { gpu_cc_pll0_config with l := 0x1d }
    let gpu_cc_pll0_config := { gpu_cc_pll0_config with alpha := 0x2aaa }
    let calls := calls ++ [.clk_fabia_pll_configure .gpu_cc_pll0 gpu_cc_pll0_config]
    let gpu_cc_pll0_config := { gpu_cc_pll0_config with l := 0x1a }
    let gpu_cc_pll0_config := { gpu_cc_pll0_config with alpha := 0xaaaa }
    let calls := calls ++ [.clk_fabia_pll_configure .gpu_cc_pll1 gpu_cc_pll0_config]
    let mask := CX_GMU_CBCR_WAKE_MASK <<< CX_GMU_CBCR_WAKE_SHIFT
    let mask := mask ||| (CX_GMU_CBCR_SLEEP_MASK <<< CX_GMU_CBCR_SLEEP_SHIFT)
    let value := (0xf <<< CX_GMU_CBCR_WAKE_SHIFT) ||| (0xf <<< CX_GMU_CBCR_SLEEP_SHIFT)
    let calls := calls ++ [.regmap_update_bits 0x1098 mask value]
    let calls := calls ++ [.regmap_update_bits 0x106c CLK_DIS_WAIT_MASK (8 <<< CLK_DIS_WAIT_SHIFT)]
    let calls := calls ++ [.qcom_cc_really_probe desc]
    let ret := env.really_probe_ret
    { ret := ret, clks := clks, desc := desc, calls := calls }

end gpucc_sdm845

/-! ## The display clock controller, `dispcc-sdm845.c` -/

namespace dispcc_sdm845

/-! The parent sources, the anonymous `enum { P_BI_TCXO, ... }` of the file. -/

def P_BI_TCXO : Nat := 0
def P_DISP_CC_PLL0_OUT_MAIN : Nat := 1
def P_DSI0_PHY_PLL_OUT_BYTECLK : Nat := 2
def P_DSI0_PHY_PLL_OUT_DSICLK : Nat := 3
def P_DSI1_PHY_PLL_OUT_BYTECLK : Nat := 4
def P_DSI1_PHY_PLL_OUT_DSICLK : Nat := 5
def P_GPLL0_OUT_MAIN : Nat := 6
def P_GPLL0_OUT_MAIN_DIV : Nat := 7
def P_DP_PHY_PLL_LINK_CLK : Nat := 8
def P_DP_PHY_PLL_VCO_DIV_CLK : Nat := 9

/-- The PLLs of the controller (`struct clk_alpha_pll`). -/
inductive Pll where
  | disp_cc_pll0
deriving DecidableEq, Repr

/-- The root clock generators of the controller (`struct clk_rcg2`). -/
inductive Rcg where
  | disp_cc_mdss_byte0_clk_src
  | disp_cc_mdss_byte1_clk_src
  | disp_cc_mdss_dp_aux_clk_src
  | disp_cc_mdss_dp_crypto_clk_src
  | disp_cc_mdss_dp_link_clk_src
  | disp_cc_mdss_dp_pixel1_clk_src
  | disp_cc_mdss_dp_pixel_clk_src
  | disp_cc_mdss_esc0_clk_src
  | disp_cc_mdss_esc1_clk_src
  | disp_cc_mdss_mdp_clk_src
  | disp_cc_mdss_pclk0_clk_src
  | disp_cc_mdss_pclk1_clk_src
  | disp_cc_mdss_rot_clk_src
  | disp_cc_mdss_vsync_clk_src
deriving DecidableEq, Repr

/-- The register-mapped dividers of the controller (`struct clk_regmap_div`). -/
inductive Div where
  | disp_cc_mdss_byte0_div_clk_src
  | disp_cc_mdss_byte1_div_clk_src
deriving DecidableEq, Repr

/-- The branches of the controller (`struct clk_branch`). -/
inductive Branch where
  | disp_cc_mdss_ahb_clk
  | disp_cc_mdss_axi_clk
  | disp_cc_mdss_byte0_clk
  | disp_cc_mdss_byte0_intf_clk
  | disp_cc_mdss_byte1_clk
  | disp_cc_mdss_byte1_intf_clk
  | disp_cc_mdss_dp_aux_clk
  | disp_cc_mdss_dp_crypto_clk
  | disp_cc_mdss_dp_link_clk
  | disp_cc_mdss_dp_link_intf_clk
  | disp_cc_mdss_dp_pixel1_clk
  | disp_cc_mdss_dp_pixel_clk
  | disp_cc_mdss_esc0_clk
  | disp_cc_mdss_esc1_clk
  | disp_cc_mdss_mdp_clk
  | disp_cc_mdss_mdp_lut_clk
  | disp_cc_mdss_pclk0_clk
  | disp_cc_mdss_pclk1_clk
  | disp_cc_mdss_rot_clk
  | disp_cc_mdss_rscc_ahb_clk
  | disp_cc_mdss_rscc_vsync_clk
  | disp_cc_mdss_vsync_clk
deriving DecidableEq, Repr

/-- The power domains of the controller (`struct gdsc`). -/
inductive Gdsc where
  | mdss_gdsc
deriving DecidableEq, Repr

/-- A clock of the controller, what a `struct clk_hw *` of the file points to. -/
inductive Hw where
  | pll (c : Pll)
  | rcg (c : Rcg)
  | div (c : Div)
  | branch (c : Branch)
deriving DecidableEq, Repr

def fabia_vco : List pll_vco := [
  ⟨249600000, 2000000000, 0⟩,
  ⟨125000000, 1000000000, 1⟩
]

def disp_cc_pll0 : clk_alpha_pll Hw := {
  offset := 0x0
  regs := .CLK_ALPHA_PLL_TYPE_FABIA
  vco_table := fabia_vco
  num_vco := ARRAY_SIZE fabia_vco
  clkr := {
    hw_init := {
      name := "disp_cc_pll0"
      parent_data := [{ fw_name := some "bi_tcxo" }]
      num_parents := 1
      ops := .clk_alpha_pll_fabia_ops
    }
    vdd_data := {
      vdd_class := some .vdd_cx
      num_rate_max := VDD_NUM
      rate_max := rate_max_init VDD_NUM [(VDD_MIN, 615000000), (VDD_LOW, 1066000000), (VDD_LOW_L1, 1600000000), (VDD_NOMINAL, 2000000000)]
    }
  }
}

def disp_cc_parent_map_0 : List parent_map := [
  ⟨P_BI_TCXO, 0⟩,
  ⟨P_DSI0_PHY_PLL_OUT_BYTECLK, 1⟩,
  ⟨P_DSI1_PHY_PLL_OUT_BYTECLK, 2⟩
]

def disp_cc_parent_data_0 : List (clk_parent_data Hw) := [
  { fw_name := some "bi_tcxo" },
  { fw_name := some "dsi0_phy_pll_out_byteclk", name := some "dsi0_phy_pll_out_byteclk" },
  { fw_name := some "dsi1_phy_pll_out_byteclk", name := some "dsi1_phy_pll_out_byteclk" }
]

def disp_cc_parent_map_1 : List parent_map := [
  ⟨P_BI_TCXO, 0⟩,
  ⟨P_DP_PHY_PLL_LINK_CLK, 1⟩,
  ⟨P_DP_PHY_PLL_VCO_DIV_CLK, 2⟩
]

def disp_cc_parent_data_1 : List (clk_parent_data Hw) := [
  { fw_name := some "bi_tcxo" },
  { fw_name := some "dp_link_clk_divsel_ten", name := some "dp_link_clk_divsel_ten" },
  { fw_name := some "dp_vco_divided_clk_src_mux", name := some "dp_vco_divided_clk_src_mux" }
]

def disp_cc_parent_map_2 : List parent_map := [
  ⟨P_BI_TCXO, 0⟩
]

def disp_cc_parent_data_2 : List (clk_parent_data Hw) := [
  { fw_name := some "bi_tcxo" }
]

def disp_cc_parent_map_3 : List parent_map := [
  ⟨P_BI_TCXO, 0⟩,
  ⟨P_DISP_CC_PLL0_OUT_MAIN, 1⟩,
  ⟨P_GPLL0_OUT_MAIN, 4⟩,
  ⟨P_GPLL0_OUT_MAIN_DIV, 5⟩
]

def disp_cc_parent_data_3 : List (clk_parent_data Hw) := [
  { fw_name := some "bi_tcxo" },
  { hw := some (.pll .disp_cc_pll0) },
  { fw_name := some "gcc_disp_gpll0_clk_src", name := some "gcc_disp_gpll0_clk_src" },
  { fw_name := some "gcc_disp_gpll0_div_clk_src", name := some "gcc_disp_gpll0_div_clk_src" }
]

def disp_cc_parent_map_4 : List parent_map := [
  ⟨P_BI_TCXO, 0⟩,
  ⟨P_DSI0_PHY_PLL_OUT_DSICLK, 1⟩,
  ⟨P_DSI1_PHY_PLL_OUT_DSICLK, 2⟩
]

def disp_cc_parent_data_4 : List (clk_parent_data Hw) := [
  { fw_name := some "bi_tcxo" },
  { fw_name := some "dsi0_phy_pll_out_dsiclk", name := some "dsi0_phy_pll_out_dsiclk" },
  { fw_name := some "dsi1_phy_pll_out_dsiclk", name := some "dsi1_phy_pll_out_dsiclk" }
]

def disp_cc_mdss_byte0_clk_src : clk_rcg2 Hw := {
  cmd_rcgr := 0x20d0
  mnd_width := 0
  hid_width := 5
  parent_map := disp_cc_parent_map_0
  clkr := {
    hw_init := {
      name := "disp_cc_mdss_byte0_clk_src"
      parent_data := disp_cc_parent_data_0
      num_parents := ARRAY_SIZE disp_cc_parent_data_0
      flags := [.CLK_SET_RATE_PARENT]
      ops := .clk_byte2_ops
    }
    vdd_data := {
      vdd_class := some .vdd_cx
      num_rate_max := VDD_NUM
      rate_max := rate_max_init VDD_NUM [(VDD_MIN, 19200000), (VDD_LOWER, 150000000), (VDD_LOW, 240000000), (VDD_LOW_L1, 262500000), (VDD_NOMINAL, 358000000)]
    }
  }
}

def disp_cc_mdss_byte1_clk_src : clk_rcg2 Hw := {
  cmd_rcgr := 0x20ec
  mnd_width := 0
  hid_width := 5
  parent_map := disp_cc_parent_map_0
  clkr := {
    hw_init := {
      name := "disp_cc_mdss_byte1_clk_src"
      parent_data := disp_cc_parent_data_0
      num_parents := ARRAY_SIZE disp_cc_parent_data_0
      flags := [.CLK_SET_RATE_PARENT]
      ops := .clk_byte2_ops
    }
    vdd_data := {
      vdd_class := some .vdd_cx
      num_rate_max := VDD_NUM
      rate_max := rate_max_init VDD_NUM [(VDD_MIN, 19200000), (VDD_LOWER, 150000000), (VDD_LOW, 240000000), (VDD_LOW_L1, 262500000), (VDD_NOMINAL, 358000000)]
    }
  }
}

def ftbl_disp_cc_mdss_dp_aux_clk_src : List freq_tbl := [
  F 19200000 P_BI_TCXO 2 0 0,
  { }
]

def disp_cc_mdss_dp_aux_clk_src : clk_rcg2 Hw := {
  cmd_rcgr := 0x219c
  mnd_width := 0
  hid_width := 5
  parent_map := disp_cc_parent_map_2
  freq_tbl := some ftbl_disp_cc_mdss_dp_aux_clk_src
  clkr := {
    hw_init := {
      name := "disp_cc_mdss_dp_aux_clk_src"
      parent_data := disp_cc_parent_data_2
      num_parents := ARRAY_SIZE disp_cc_parent_data_2
      flags := [.CLK_SET_RATE_PARENT]
      ops := .clk_rcg2_ops
    }
    vdd_data := {
      vdd_class := some .vdd_cx
      num_rate_max := VDD_NUM
      rate_max := rate_max_init VDD_NUM [(VDD_MIN, 19200000)]
    }
  }
}

def disp_cc_mdss_dp_crypto_clk_src : clk_rcg2 Hw := {
  cmd_rcgr := 0x2154
  mnd_width := 0
  hid_width := 5
  parent_map := disp_cc_parent_map_1
  clkr := {
    hw_init := {
      name := "disp_cc_mdss_dp_crypto_clk_src"
      parent_data := disp_cc_parent_data_1
      num_parents := ARRAY_SIZE disp_cc_parent_data_1
      flags := [.CLK_SET_RATE_PARENT]
      ops := .clk_byte2_ops
    }
    vdd_data := {
      vdd_class := some .vdd_cx
      num_rate_max := VDD_NUM
      rate_max := rate_max_init VDD_NUM [(VDD_MIN, 12800000), (VDD_LOWER, 108000000), (VDD_LOW, 180000000), (VDD_LOW_L1, 360000000), (VDD_NOMINAL, 540000000)]
    }
  }
}

def disp_cc_mdss_dp_link_clk_src : clk_rcg2 Hw := {
  cmd_rcgr := 0x2138
  mnd_width := 0
  hid_width := 5
  parent_map := disp_cc_parent_map_1
  clkr := {
    hw_init := {
      name := "disp_cc_mdss_dp_link_clk_src"
      parent_data := disp_cc_parent_data_1
      num_parents := ARRAY_SIZE disp_cc_parent_data_1
      flags := [.CLK_SET_RATE_PARENT]
      ops := .clk_byte2_ops
    }
    vdd_data := {
      vdd_class := some .vdd_cx
      num_rate_max := VDD_NUM
      rate_max := rate_max_init VDD_NUM [(VDD_MIN, 19200000), (VDD_LOWER, 162000000), (VDD_LOW, 270000000), (VDD_LOW_L1, 540000000), (VDD_NOMINAL, 810000000)]
    }
  }
}

def disp_cc_mdss_dp_pixel1_clk_src : clk_rcg2 Hw := {
  cmd_rcgr := 0x2184
  mnd_width := 16
  hid_width := 5
  parent_map := disp_cc_parent_map_1
  clkr := {
    hw_init := {
      name := "disp_cc_mdss_dp_pixel1_clk_src"
      parent_data := disp_cc_parent_data_1
      num_parents := ARRAY_SIZE disp_cc_parent_data_1
      flags := [.CLK_SET_RATE_PARENT]
      ops := .clk_dp_ops
    }
    vdd_data := {
      vdd_class := some .vdd_cx
      num_rate_max := VDD_NUM
      rate_max := rate_max_init VDD_NUM [(VDD_MIN, 19200000), (VDD_LOWER, 202500000), (VDD_LOW, 296735000), (VDD_LOW_L1, 675000000)]
    }
  }
}

def disp_cc_mdss_dp_pixel_clk_src : clk_rcg2 Hw := {
  cmd_rcgr := 0x216c
  mnd_width := 16
  hid_width := 5
  parent_map := disp_cc_parent_map_1
  clkr := {
    hw_init := {
      name := "disp_cc_mdss_dp_pixel_clk_src"
      parent_data := disp_cc_parent_data_1
      num_parents := ARRAY_SIZE disp_cc_parent_data_1
      flags := [.CLK_SET_RATE_PARENT]
      ops := .clk_dp_ops
    }
    vdd_data := {
      vdd_class := some .vdd_cx
      num_rate_max := VDD_NUM
      rate_max := rate_max_init VDD_NUM [(VDD_MIN, 19200000), (VDD_LOWER, 202500000), (VDD_LOW, 296735000), (VDD_LOW_L1, 675000000)]
    }
  }
}

def ftbl_disp_cc_mdss_esc0_clk_src : List freq_tbl := [
  F 19200000 P_BI_TCXO 2 0 0,
  { }
]

def disp_cc_mdss_esc0_clk_src : clk_rcg2 Hw := {
  cmd_rcgr := 0x2108
  mnd_width := 0
  hid_width := 5
  parent_map := disp_cc_parent_map_0
  freq_tbl := some ftbl_disp_cc_mdss_esc0_clk_src
  clkr := {
    hw_init := {
      name := "disp_cc_mdss_esc0_clk_src"
      parent_data := disp_cc_parent_data_0
      num_parents := ARRAY_SIZE disp_cc_parent_data_0
      flags := [.CLK_SET_RATE_PARENT]
      ops := .clk_rcg2_ops
    }
    vdd_data := {
      vdd_class := some .vdd_cx
      num_rate_max := VDD_NUM
      rate_max := rate_max_init VDD_NUM [(VDD_MIN, 19200000)]
    }
  }
}

def disp_cc_mdss_esc1_clk_src : clk_rcg2 Hw := {
  cmd_rcgr := 0x2120
  mnd_width := 0
  hid_width := 5
  parent_map := disp_cc_parent_map_0
  freq_tbl := some ftbl_disp_cc_mdss_esc0_clk_src
  clkr := {
    hw_init := {
      name := "disp_cc_mdss_esc1_clk_src"
      parent_data := disp_cc_parent_data_0
      num_parents := ARRAY_SIZE disp_cc_parent_data_0
      ops := .clk_rcg2_ops
    }
    vdd_data := {
      vdd_class := some .vdd_cx
      num_rate_max := VDD_NUM
      rate_max := rate_max_init VDD_NUM [(VDD_MIN, 19200000)]
    }
  }
}

def ftbl_disp_cc_mdss_mdp_clk_src : List freq_tbl := [
  F 19200000 P_BI_TCXO 2 0 0,
  F 85714286 P_GPLL0_OUT_MAIN 14 0 0,
  F 100000000 P_GPLL0_OUT_MAIN 12 0 0,
  F 150000000 P_GPLL0_OUT_MAIN 8 0 0,
  F 165000000 P_DISP_CC_PLL0_OUT_MAIN 5 0 0,
  F 200000000 P_GPLL0_OUT_MAIN 6 0 0,
  F 275000000 P_DISP_CC_PLL0_OUT_MAIN 3 0 0,
  F 300000000 P_GPLL0_OUT_MAIN 4 0 0,
  F 412500000 P_DISP_CC_PLL0_OUT_MAIN 2 0 0,
  { }
]

def ftbl_disp_cc_mdss_mdp_clk_src_sdm670 : List freq_tbl := [
  F 19200000 P_BI_TCXO 2 0 0,
  F 85714286 P_GPLL0_OUT_MAIN 14 0 0,
  F 100000000 P_GPLL0_OUT_MAIN 12 0 0,
  F 150000000 P_GPLL0_OUT_MAIN 8 0 0,
  F 171428571 P_GPLL0_OUT_MAIN 7 0 0,
  F 200000000 P_GPLL0_OUT_MAIN 6 0 0,
  F 286666667 P_DISP_CC_PLL0_OUT_MAIN 6 0 0,
  F 300000000 P_GPLL0_OUT_MAIN 4 0 0,
  F 344000000 P_DISP_CC_PLL0_OUT_MAIN 5 0 0,
  F 430000000 P_DISP_CC_PLL0_OUT_MAIN 4 0 0,
  { }
]

def disp_cc_mdss_mdp_clk_src : clk_rcg2 Hw := {
  cmd_rcgr := 0x2088
  mnd_width := 0
  hid_width := 5
  parent_map := disp_cc_parent_map_3
  freq_tbl := some ftbl_disp_cc_mdss_mdp_clk_src
  clkr := {
    hw_init := {
      name := "disp_cc_mdss_mdp_clk_src"
      parent_data := disp_cc_parent_data_3
      num_parents := ARRAY_SIZE disp_cc_parent_data_3
      flags := [.CLK_SET_RATE_PARENT]
      ops := .clk_rcg2_shared_ops
    }
    vdd_data := {
      vdd_class := some .vdd_cx
      num_rate_max := VDD_NUM
      rate_max := rate_max_init VDD_NUM [(VDD_MIN, 19200000), (VDD_LOWER, 165000000), (VDD_LOW, 300000000), (VDD_NOMINAL, 412500000)]
    }
  }
}

def disp_cc_mdss_pclk0_clk_src : clk_rcg2 Hw := {
  cmd_rcgr := 0x2058
  mnd_width := 8
  hid_width := 5
  parent_map := disp_cc_parent_map_4
  clkr := {
    hw_init := {
      name := "disp_cc_mdss_pclk0_clk_src"
      parent_data := disp_cc_parent_data_4
      num_parents := ARRAY_SIZE disp_cc_parent_data_4
      flags := [.CLK_SET_RATE_PARENT]
      ops := .clk_pixel_ops
    }
    vdd_data := {
      vdd_class := some .vdd_cx
      num_rate_max := VDD_NUM
      rate_max := rate_max_init VDD_NUM [(VDD_MIN, 19200000), (VDD_LOWER, 184000000), (VDD_LOW, 295000000), (VDD_LOW_L1, 350000000), (VDD_NOMINAL, 571428571)]
    }
  }
}

def disp_cc_mdss_pclk1_clk_src : clk_rcg2 Hw := {
  cmd_rcgr := 0x2070
  mnd_width := 8
  hid_width := 5
  parent_map := disp_cc_parent_map_4
  clkr := {
    hw_init := {
      name := "disp_cc_mdss_pclk1_clk_src"
      parent_data := disp_cc_parent_data_4
      num_parents := ARRAY_SIZE disp_cc_parent_data_4
      flags := [.CLK_SET_RATE_PARENT]
      ops := .clk_pixel_ops
    }
    vdd_data := {
      vdd_class := some .vdd_cx
      num_rate_max := VDD_NUM
      rate_max := rate_max_init VDD_NUM [(VDD_MIN, 19200000), (VDD_LOWER, 184000000), (VDD_LOW, 295000000), (VDD_LOW_L1, 350000000), (VDD_NOMINAL, 571428571)]
    }
  }
}

def ftbl_disp_cc_mdss_rot_clk_src : List freq_tbl := [
  F 19200000 P_BI_TCXO 2 0 0,
  F 165000000 P_DISP_CC_PLL0_OUT_MAIN 5 0 0,
  F 300000000 P_GPLL0_OUT_MAIN 4 0 0,
  F 412500000 P_DISP_CC_PLL0_OUT_MAIN 2 0 0,
  { }
]

def ftbl_disp_cc_mdss_rot_clk_src_sdm670 : List freq_tbl := [
  F 19200000 P_BI_TCXO 2 0 0,
  F 171428571 P_GPLL0_OUT_MAIN 7 0 0,
  F 300000000 P_GPLL0_OUT_MAIN 4 0 0,
  F 344000000 P_DISP_CC_PLL0_OUT_MAIN 5 0 0,
  F 430000000 P_DISP_CC_PLL0_OUT_MAIN 4 0 0,
  { }
]

def disp_cc_mdss_rot_clk_src : clk_rcg2 Hw := {
  cmd_rcgr := 0x20a0
  mnd_width := 0
  hid_width := 5
  parent_map := disp_cc_parent_map_3
  freq_tbl := some ftbl_disp_cc_mdss_rot_clk_src
  clkr := {
    hw_init := {
      name := "disp_cc_mdss_rot_clk_src"
      parent_data := disp_cc_parent_data_3
      num_parents := ARRAY_SIZE disp_cc_parent_data_3
      flags := [.CLK_SET_RATE_PARENT]
      ops := .clk_rcg2_shared_ops
    }
    vdd_data := {
      vdd_class := some .vdd_cx
      num_rate_max := VDD_NUM
      rate_max := rate_max_init VDD_NUM [(VDD_MIN, 19200000), (VDD_LOWER, 165000000), (VDD_LOW, 300000000), (VDD_NOMINAL, 412500000)]
    }
  }
}

def disp_cc_mdss_vsync_clk_src : clk_rcg2 Hw := {
  cmd_rcgr := 0x20b8
  mnd_width := 0
  hid_width := 5
  parent_map := disp_cc_parent_map_2
  freq_tbl := some ftbl_disp_cc_mdss_esc0_clk_src
  clkr := {
    hw_init := {
      name := "disp_cc_mdss_vsync_clk_src"
      parent_data := disp_cc_parent_data_2
      num_parents := ARRAY_SIZE disp_cc_parent_data_2
      flags := [.CLK_SET_RATE_PARENT]
      ops := .clk_rcg2_ops
    }
    vdd_data := {
      vdd_class := some .vdd_cx
      num_rate_max := VDD_NUM
      rate_max := rate_max_init VDD_NUM [(VDD_MIN, 19200000)]
    }
  }
}

def disp_cc_mdss_ahb_clk : clk_branch Hw := {
  halt_reg := 0x4004
  halt_check := .BRANCH_HALT
  clkr := {
    enable_reg := 0x4004
    enable_mask := BIT 0
    hw_init := {
      name := "disp_cc_mdss_ahb_clk"
      ops := .clk_branch2_ops
    }
  }
}

def disp_cc_mdss_axi_clk : clk_branch Hw := {
  halt_reg := 0x4008
  halt_check := .BRANCH_HALT
  clkr := {
    enable_reg := 0x4008
    enable_mask := BIT 0
    hw_init := {
      name := "disp_cc_mdss_axi_clk"
      ops := .clk_branch2_ops
    }
  }
}

def disp_cc_mdss_byte0_clk : clk_branch Hw := {
  halt_reg := 0x2028
  halt_check := .BRANCH_HALT
  clkr := {
    enable_reg := 0x2028
    enable_mask := BIT 0
    hw_init := {
      name := "disp_cc_mdss_byte0_clk"
      parent_hws := [.rcg .disp_cc_mdss_byte0_clk_src]
      num_parents := 1
      flags := [.CLK_SET_RATE_PARENT]
      ops := .clk_branch2_ops
    }
  }
}

def disp_cc_mdss_byte0_div_clk_src : clk_regmap_div Hw := {
  reg := 0x20e8
  shift := 0
  width := 2
  clkr := {
    hw_init := {
      name := "disp_cc_mdss_byte0_div_clk_src"
      parent_hws := [.rcg .disp_cc_mdss_byte0_clk_src]
      num_parents := 1
      ops := .clk_regmap_div_ops
    }
  }
}

def disp_cc_mdss_byte0_intf_clk : clk_branch Hw := {
  halt_reg := 0x202c
  halt_check := .BRANCH_HALT
  clkr := {
    enable_reg := 0x202c
    enable_mask := BIT 0
    hw_init := {
      name := "disp_cc_mdss_byte0_intf_clk"
      parent_hws := [.div .disp_cc_mdss_byte0_div_clk_src]
      num_parents := 1
      flags := [.CLK_SET_RATE_PARENT]
      ops := .clk_branch2_ops
    }
  }
}

def disp_cc_mdss_byte1_clk : clk_branch Hw := {
  halt_reg := 0x2030
  halt_check := .BRANCH_HALT
  clkr := {
    enable_reg := 0x2030
    enable_mask := BIT 0
    hw_init := {
      name := "disp_cc_mdss_byte1_clk"
      parent_hws := [.rcg .disp_cc_mdss_byte1_clk_src]
      num_parents := 1
      flags := [.CLK_SET_RATE_PARENT]
      ops := .clk_branch2_ops
    }
  }
}

def disp_cc_mdss_byte1_div_clk_src : clk_regmap_div Hw := {
  reg := 0x2104
  shift := 0
  width := 2
  clkr := {
    hw_init := {
      name := "disp_cc_mdss_byte1_div_clk_src"
      parent_hws := [.rcg .disp_cc_mdss_byte1_clk_src]
      num_parents := 1
      ops := .clk_regmap_div_ops
    }
  }
}

def disp_cc_mdss_byte1_intf_clk : clk_branch Hw := {
  halt_reg := 0x2034
  halt_check := .BRANCH_HALT
  clkr := {
    enable_reg := 0x2034
    enable_mask := BIT 0
    hw_init := {
      name := "disp_cc_mdss_byte1_intf_clk"
      parent_hws := [.div .disp_cc_mdss_byte1_div_clk_src]
      num_parents := 1
      flags := [.CLK_SET_RATE_PARENT]
      ops := .clk_branch2_ops
    }
  }
}

def disp_cc_mdss_dp_aux_clk : clk_branch Hw := {
  halt_reg := 0x2054
  halt_check := .BRANCH_HALT
  clkr := {
    enable_reg := 0x2054
    enable_mask := BIT 0
    hw_init := {
      name := "disp_cc_mdss_dp_aux_clk"
      parent_hws := [.rcg .disp_cc_mdss_dp_aux_clk_src]
      num_parents := 1
      flags := [.CLK_SET_RATE_PARENT]
      ops := .clk_branch2_ops
    }
  }
}

def disp_cc_mdss_dp_crypto_clk : clk_branch Hw := {
  halt_reg := 0x2048
  halt_check := .BRANCH_HALT
  clkr := {
    enable_reg := 0x2048
    enable_mask := BIT 0
    hw_init := {
      name := "disp_cc_mdss_dp_crypto_clk"
      parent_hws := [.rcg .disp_cc_mdss_dp_crypto_clk_src]
      num_parents := 1
      flags := [.CLK_SET_RATE_PARENT]
      ops := .clk_branch2_ops
    }
  }
}

def disp_cc_mdss_dp_link_clk : clk_branch Hw := {
  halt_reg := 0x2040
  halt_check := .BRANCH_HALT
  clkr := {
    enable_reg := 0x2040
    enable_mask := BIT 0
    hw_init := {
      name := "disp_cc_mdss_dp_link_clk"
      parent_hws := [.rcg .disp_cc_mdss_dp_link_clk_src]
      num_parents := 1
      flags := [.CLK_SET_RATE_PARENT]
      ops := .clk_branch2_ops
    }
  }
}

def disp_cc_mdss_dp_link_intf_clk : clk_branch Hw := {
  halt_reg := 0x2044
  halt_check := .BRANCH_HALT
  clkr := {
    enable_reg := 0x2044
    enable_mask := BIT 0
    hw_init := {
      name := "disp_cc_mdss_dp_link_intf_clk"
      parent_hws := [.rcg .disp_cc_mdss_dp_link_clk_src]
      num_parents := 1
      ops := .clk_branch2_ops
    }
  }
}

def disp_cc_mdss_dp_pixel1_clk : clk_branch Hw := {
  halt_reg := 0x2050
  halt_check := .BRANCH_HALT
  clkr := {
    enable_reg := 0x2050
    enable_mask := BIT 0
    hw_init := {
      name := "disp_cc_mdss_dp_pixel1_clk"
      parent_hws := [.rcg .disp_cc_mdss_dp_pixel1_clk_src]
      num_parents := 1
      flags := [.CLK_SET_RATE_PARENT]
      ops := .clk_branch2_ops
    }
  }
}

def disp_cc_mdss_dp_pixel_clk : clk_branch Hw := {
  halt_reg := 0x204c
  halt_check := .BRANCH_HALT
  clkr := {
    enable_reg := 0x204c
    enable_mask := BIT 0
    hw_init := {
      name := "disp_cc_mdss_dp_pixel_clk"
      parent_hws := [.rcg .disp_cc_mdss_dp_pixel_clk_src]
      num_parents := 1
      flags := [.CLK_SET_RATE_PARENT]
      ops := .clk_branch2_ops
    }
  }
}

def disp_cc_mdss_esc0_clk : clk_branch Hw := {
  halt_reg := 0x2038
  halt_check := .BRANCH_HALT
  clkr := {
    enable_reg := 0x2038
    enable_mask := BIT 0
    hw_init := {
      name := "disp_cc_mdss_esc0_clk"
      parent_hws := [.rcg .disp_cc_mdss_esc0_clk_src]
      num_parents := 1
      flags := [.CLK_SET_RATE_PARENT]
      ops := .clk_branch2_ops
    }
  }
}

def disp_cc_mdss_esc1_clk : clk_branch Hw := {
  halt_reg := 0x203c
  halt_check := .BRANCH_HALT
  clkr := {
    enable_reg := 0x203c
    enable_mask := BIT 0
    hw_init := {
      name := "disp_cc_mdss_esc1_clk"
      parent_hws := [.rcg .disp_cc_mdss_esc1_clk_src]
      num_parents := 1
      flags := [.CLK_SET_RATE_PARENT]
      ops := .clk_branch2_ops
    }
  }
}

def disp_cc_mdss_mdp_clk : clk_branch Hw := {
  halt_reg := 0x200c
  halt_check := .BRANCH_HALT
  clkr := {
    enable_reg := 0x200c
    enable_mask := BIT 0
    hw_init := {
      name := "disp_cc_mdss_mdp_clk"
      parent_hws := [.rcg .disp_cc_mdss_mdp_clk_src]
      num_parents := 1
      flags := [.CLK_SET_RATE_PARENT]
      ops := .clk_branch2_ops
    }
  }
}

def disp_cc_mdss_mdp_lut_clk : clk_branch Hw := {
  halt_reg := 0x201c
  halt_check := .BRANCH_HALT
  clkr := {
    enable_reg := 0x201c
    enable_mask := BIT 0
    hw_init := {
      name := "disp_cc_mdss_mdp_lut_clk"
      parent_hws := [.rcg .disp_cc_mdss_mdp_clk_src]
      num_parents := 1
      ops := .clk_branch2_ops
    }
  }
}

def disp_cc_mdss_pclk0_clk : clk_branch Hw := {
  halt_reg := 0x2004
  halt_check := .BRANCH_HALT
  clkr := {
    enable_reg := 0x2004
    enable_mask := BIT 0
    hw_init := {
      name := "disp_cc_mdss_pclk0_clk"
      parent_hws := [.rcg .disp_cc_mdss_pclk0_clk_src]
      num_parents := 1
      flags := [.CLK_SET_RATE_PARENT]
      ops := .clk_branch2_ops
    }
  }
}

def disp_cc_mdss_pclk1_clk : clk_branch Hw := {
  halt_reg := 0x2008
  halt_check := .BRANCH_HALT
  clkr := {
    enable_reg := 0x2008
    enable_mask := BIT 0
    hw_init := {
      name := "disp_cc_mdss_pclk1_clk"
      parent_hws := [.rcg .disp_cc_mdss_pclk1_clk_src]
      num_parents := 1
      flags := [.CLK_SET_RATE_PARENT]
      ops := .clk_branch2_ops
    }
  }
}

def disp_cc_mdss_rot_clk : clk_branch Hw := {
  halt_reg := 0x2014
  halt_check := .BRANCH_HALT
  clkr := {
    enable_reg := 0x2014
    enable_mask := BIT 0
    hw_init := {
      name := "disp_cc_mdss_rot_clk"
      parent_hws := [.rcg .disp_cc_mdss_rot_clk_src]
      num_parents := 1
      flags := [.CLK_SET_RATE_PARENT]
      ops := .clk_branch2_ops
    }
  }
}

def disp_cc_mdss_rscc_ahb_clk : clk_branch Hw := {
  halt_reg := 0x5004
  halt_check := .BRANCH_HALT
  clkr := {
    enable_reg := 0x5004
    enable_mask := BIT 0
    hw_init := {
      name := "disp_cc_mdss_rscc_ahb_clk"
      ops := .clk_branch2_ops
    }
  }
}

def disp_cc_mdss_rscc_vsync_clk : clk_branch Hw := {
  halt_reg := 0x5008
  halt_check := .BRANCH_HALT
  clkr := {
    enable_reg := 0x5008
    enable_mask := BIT 0
    hw_init := {
      name := "disp_cc_mdss_rscc_vsync_clk"
      parent_hws := [.rcg .disp_cc_mdss_vsync_clk_src]
      num_parents := 1
      flags := [.CLK_SET_RATE_PARENT]
      ops := .clk_branch2_ops
    }
  }
}

def disp_cc_mdss_vsync_clk : clk_branch Hw := {
  halt_reg := 0x2024
  halt_check := .BRANCH_HALT
  clkr := {
    enable_reg := 0x2024
    enable_mask := BIT 0
    hw_init := {
      name := "disp_cc_mdss_vsync_clk"
      parent_hws := [.rcg .disp_cc_mdss_vsync_clk_src]
      num_parents := 1
      flags := [.CLK_SET_RATE_PARENT]
      ops := .clk_branch2_ops
    }
  }
}

def mdss_gdsc : gdsc Gdsc := {
  gdscr := 0x3000
  pwrsts := .PWRSTS_OFF_ON
  flags := [ gdsc_flag.HW_CTRL, gdsc_flag.POLL_CFG_GDSCR ]
  pd := { name := "mdss_gdsc" }
}

def disp_cc_sdm845_regulators : List vdd_class := [.vdd_cx]

def disp_cc_sdm845_clocks : List Hw := [
  Hw.branch Branch.disp_cc_mdss_ahb_clk,
  Hw.branch Branch.disp_cc_mdss_axi_clk,
  Hw.branch Branch.disp_cc_mdss_byte0_clk,
  Hw.rcg Rcg.disp_cc_mdss_byte0_clk_src,
  Hw.branch Branch.disp_cc_mdss_byte0_intf_clk,
  Hw.div Div.disp_cc_mdss_byte0_div_clk_src,
  Hw.branch Branch.disp_cc_mdss_byte1_clk,
  Hw.rcg Rcg.disp_cc_mdss_byte1_clk_src,
  Hw.branch Branch.disp_cc_mdss_byte1_intf_clk,
  Hw.div Div.disp_cc_mdss_byte1_div_clk_src,
  Hw.branch Branch.disp_cc_mdss_dp_aux_clk,
  Hw.rcg Rcg.disp_cc_mdss_dp_aux_clk_src,
  Hw.branch Branch.disp_cc_mdss_dp_crypto_clk,
  Hw.rcg Rcg.disp_cc_mdss_dp_crypto_clk_src,
  Hw.branch Branch.disp_cc_mdss_dp_link_clk,
  Hw.rcg Rcg.disp_cc_mdss_dp_link_clk_src,
  Hw.branch Branch.disp_cc_mdss_dp_link_intf_clk,
  Hw.branch Branch.disp_cc_mdss_dp_pixel1_clk,
  Hw.rcg Rcg.disp_cc_mdss_dp_pixel1_clk_src,
  Hw.branch Branch.disp_cc_mdss_dp_pixel_clk,
  Hw.rcg Rcg.disp_cc_mdss_dp_pixel_clk_src,
  Hw.branch Branch.disp_cc_mdss_esc0_clk,
  Hw.rcg Rcg.disp_cc_mdss_esc0_clk_src,
  Hw.branch Branch.disp_cc_mdss_esc1_clk,
  Hw.rcg Rcg.disp_cc_mdss_esc1_clk_src,
  Hw.branch Branch.disp_cc_mdss_mdp_clk,
  Hw.rcg Rcg.disp_cc_mdss_mdp_clk_src,
  Hw.branch Branch.disp_cc_mdss_mdp_lut_clk,
  Hw.branch Branch.disp_cc_mdss_pclk0_clk,
  Hw.rcg Rcg.disp_cc_mdss_pclk0_clk_src,
  Hw.branch Branch.disp_cc_mdss_pclk1_clk,
  Hw.rcg Rcg.disp_cc_mdss_pclk1_clk_src,
  Hw.branch Branch.disp_cc_mdss_rot_clk,
  Hw.rcg Rcg.disp_cc_mdss_rot_clk_src,
  Hw.branch Branch.disp_cc_mdss_rscc_ahb_clk,
  Hw.branch Branch.disp_cc_mdss_rscc_vsync_clk,
  Hw.branch Branch.disp_cc_mdss_vsync_clk,
  Hw.rcg Rcg.disp_cc_mdss_vsync_clk_src,
  Hw.pll Pll.disp_cc_pll0
]

def disp_cc_sdm845_resets : List qcom_reset_map := [
  ⟨0x5000⟩
]

def disp_cc_sdm845_gdscs : List Gdsc := [
  .mdss_gdsc
]

def disp_cc_sdm845_regmap_config : regmap_config := {
  reg_bits := 32
  reg_stride := 4
  val_bits := 32
  max_register := 0x10000
  fast_io := true
}

def disp_cc_sdm845_desc : qcom_cc_desc Hw Gdsc := {
  config := disp_cc_sdm845_regmap_config
  clks := disp_cc_sdm845_clocks
  num_clks := ARRAY_SIZE disp_cc_sdm845_clocks
  resets := disp_cc_sdm845_resets
  num_resets := ARRAY_SIZE disp_cc_sdm845_resets
  gdscs := some disp_cc_sdm845_gdscs
  num_gdscs := ARRAY_SIZE disp_cc_sdm845_gdscs
  clk_regulators := disp_cc_sdm845_regulators
  num_clk_regulators := ARRAY_SIZE disp_cc_sdm845_regulators
}

/-- Every frequency table the file declares. -/
def freq_tables : List (List freq_tbl) := [
  ftbl_disp_cc_mdss_dp_aux_clk_src,
  ftbl_disp_cc_mdss_esc0_clk_src,
  ftbl_disp_cc_mdss_mdp_clk_src,
  ftbl_disp_cc_mdss_mdp_clk_src_sdm670,
  ftbl_disp_cc_mdss_rot_clk_src,
  ftbl_disp_cc_mdss_rot_clk_src_sdm670
]

/-- Every parent map the file declares, with the parent list of the same number. -/
def parent_tables : List (List parent_map × List (clk_parent_data Hw)) := [
  (disp_cc_parent_map_0, disp_cc_parent_data_0),
  (disp_cc_parent_map_1, disp_cc_parent_data_1),
  (disp_cc_parent_map_2, disp_cc_parent_data_2),
  (disp_cc_parent_map_3, disp_cc_parent_data_3),
  (disp_cc_parent_map_4, disp_cc_parent_data_4)
]

/-- The static clock structures of the display clock controller, the state the
fixup and the clock framework work on. -/
structure clocks where
  pll : Pll → clk_alpha_pll Hw
  rcg : Rcg → clk_rcg2 Hw
  div : Div → clk_regmap_div Hw
  branch : Branch → clk_branch Hw

/-- The clock structures as their static initialisers leave them: the sdm845
tables. -/
def initial : clocks where
  pll := fun
    | .disp_cc_pll0 => disp_cc_pll0
  rcg := fun
    | .disp_cc_mdss_byte0_clk_src => disp_cc_mdss_byte0_clk_src
    | .disp_cc_mdss_byte1_clk_src => disp_cc_mdss_byte1_clk_src
    | .disp_cc_mdss_dp_aux_clk_src => disp_cc_mdss_dp_aux_clk_src
    | .disp_cc_mdss_dp_crypto_clk_src => disp_cc_mdss_dp_crypto_clk_src
    | .disp_cc_mdss_dp_link_clk_src => disp_cc_mdss_dp_link_clk_src
    | .disp_cc_mdss_dp_pixel1_clk_src => disp_cc_mdss_dp_pixel1_clk_src
    | .disp_cc_mdss_dp_pixel_clk_src => disp_cc_mdss_dp_pixel_clk_src
    | .disp_cc_mdss_esc0_clk_src => disp_cc_mdss_esc0_clk_src
    | .disp_cc_mdss_esc1_clk_src => disp_cc_mdss_esc1_clk_src
    | .disp_cc_mdss_mdp_clk_src => disp_cc_mdss_mdp_clk_src
    | .disp_cc_mdss_pclk0_clk_src => disp_cc_mdss_pclk0_clk_src
    | .disp_cc_mdss_pclk1_clk_src => disp_cc_mdss_pclk1_clk_src
    | .disp_cc_mdss_rot_clk_src => disp_cc_mdss_rot_clk_src
    | .disp_cc_mdss_vsync_clk_src => disp_cc_mdss_vsync_clk_src
  div := fun
    | .disp_cc_mdss_byte0_div_clk_src => disp_cc_mdss_byte0_div_clk_src
    | .disp_cc_mdss_byte1_div_clk_src => disp_cc_mdss_byte1_div_clk_src
  branch := fun
    | .disp_cc_mdss_ahb_clk => disp_cc_mdss_ahb_clk
    | .disp_cc_mdss_axi_clk => disp_cc_mdss_axi_clk
    | .disp_cc_mdss_byte0_clk => disp_cc_mdss_byte0_clk
    | .disp_cc_mdss_byte0_intf_clk => disp_cc_mdss_byte0_intf_clk
    | .disp_cc_mdss_byte1_clk => disp_cc_mdss_byte1_clk
    | .disp_cc_mdss_byte1_intf_clk => disp_cc_mdss_byte1_intf_clk
    | .disp_cc_mdss_dp_aux_clk => disp_cc_mdss_dp_aux_clk
    | .disp_cc_mdss_dp_crypto_clk => disp_cc_mdss_dp_crypto_clk
    | .disp_cc_mdss_dp_link_clk => disp_cc_mdss_dp_link_clk
    | .disp_cc_mdss_dp_link_intf_clk => disp_cc_mdss_dp_link_intf_clk
    | .disp_cc_mdss_dp_pixel1_clk => disp_cc_mdss_dp_pixel1_clk
    | .disp_cc_mdss_dp_pixel_clk => disp_cc_mdss_dp_pixel_clk
    | .disp_cc_mdss_esc0_clk => disp_cc_mdss_esc0_clk
    | .disp_cc_mdss_esc1_clk => disp_cc_mdss_esc1_clk
    | .disp_cc_mdss_mdp_clk => disp_cc_mdss_mdp_clk
    | .disp_cc_mdss_mdp_lut_clk => disp_cc_mdss_mdp_lut_clk
    | .disp_cc_mdss_pclk0_clk => disp_cc_mdss_pclk0_clk
    | .disp_cc_mdss_pclk1_clk => disp_cc_mdss_pclk1_clk
    | .disp_cc_mdss_rot_clk => disp_cc_mdss_rot_clk
    | .disp_cc_mdss_rscc_ahb_clk => disp_cc_mdss_rscc_ahb_clk
    | .disp_cc_mdss_rscc_vsync_clk => disp_cc_mdss_rscc_vsync_clk
    | .disp_cc_mdss_vsync_clk => disp_cc_mdss_vsync_clk

/-- The statement `r.freq_tbl = t;`. -/
def set_freq_tbl (r : Rcg) (t : List freq_tbl) (s : clocks) : clocks :=
  { s with rcg := fun x => if x = r then rcg2_assign_freq_tbl (s.rcg x) t else s.rcg x }

/-- The statement `r.clkr.vdd_data.rate_max[lvl] = v;`. -/
def set_rate_max (r : Rcg) (lvl v : Nat) (s : clocks) : clocks :=
  { s with rcg := fun x => if x = r then rcg2_assign_rate_max (s.rcg x) lvl v else s.rcg x }

/-- The sdm670 fixup of the display controller, one step per C statement. -/
def disp_cc_sdm845_fixup_sdm670 (s : clocks) : clocks :=
  s
  |> set_rate_max .disp_cc_mdss_byte0_clk_src VDD_LOWER 180000000
  |> set_rate_max .disp_cc_mdss_byte0_clk_src VDD_LOW 275000000
  |> set_rate_max .disp_cc_mdss_byte0_clk_src VDD_LOW_L1 358000000
  |> set_rate_max .disp_cc_mdss_byte1_clk_src VDD_LOWER 180000000
  |> set_rate_max .disp_cc_mdss_byte1_clk_src VDD_LOW 275000000
  |> set_rate_max .disp_cc_mdss_byte1_clk_src VDD_LOW_L1 358000000
  |> set_rate_max .disp_cc_mdss_dp_pixel1_clk_src VDD_LOW 337500000
  |> set_rate_max .disp_cc_mdss_dp_pixel_clk_src VDD_LOW 337500000
  |> set_freq_tbl .disp_cc_mdss_mdp_clk_src ftbl_disp_cc_mdss_mdp_clk_src_sdm670
  |> set_rate_max .disp_cc_mdss_mdp_clk_src VDD_LOWER 171428571
  |> set_rate_max .disp_cc_mdss_mdp_clk_src VDD_LOW_L1 344000000
  |> set_rate_max .disp_cc_mdss_mdp_clk_src VDD_NOMINAL 430000000
  |> set_rate_max .disp_cc_mdss_pclk0_clk_src VDD_LOWER 280000000
  |> set_rate_max .disp_cc_mdss_pclk0_clk_src VDD_LOW 430000000
  |> set_rate_max .disp_cc_mdss_pclk0_clk_src VDD_LOW_L1 430000000
  |> set_rate_max .disp_cc_mdss_pclk1_clk_src VDD_LOWER 280000000
  |> set_rate_max .disp_cc_mdss_pclk1_clk_src VDD_LOW 430000000
  |> set_rate_max .disp_cc_mdss_pclk1_clk_src VDD_LOW_L1 430000000
  |> set_freq_tbl .disp_cc_mdss_rot_clk_src ftbl_disp_cc_mdss_rot_clk_src_sdm670
  |> set_rate_max .disp_cc_mdss_rot_clk_src VDD_LOWER 171428571
  |> set_rate_max .disp_cc_mdss_rot_clk_src VDD_LOW_L1 344000000
  |> set_rate_max .disp_cc_mdss_rot_clk_src VDD_NOMINAL 430000000

/-- The tables of the display controller for a hardware variant: the static
tables for sdm845, the tables after the fixup for sdm670. -/
def variant (sdm670 : Bool) : clocks :=
  if sdm670 then disp_cc_sdm845_fixup_sdm670 initial else initial

/-- The RCGs the display fixup names. -/
def fixup_rcgs : List Rcg := [
  .disp_cc_mdss_byte0_clk_src,
  .disp_cc_mdss_byte1_clk_src,
  .disp_cc_mdss_dp_pixel1_clk_src,
  .disp_cc_mdss_dp_pixel_clk_src,
  .disp_cc_mdss_mdp_clk_src,
  .disp_cc_mdss_pclk0_clk_src,
  .disp_cc_mdss_pclk1_clk_src,
  .disp_cc_mdss_rot_clk_src
]

/-- The registration data of a clock of the controller. -/
def hw_init (s : clocks) : Hw → clk_init_data Hw
  | .pll c => (s.pll c).clkr.hw_init
  | .rcg c => (s.rcg c).clkr.hw_init
  | .div c => (s.div c).clkr.hw_init
  | .branch c => (s.branch c).clkr.hw_init

/-- The corner ceilings of a clock of the controller. -/
def rate_max_of (s : clocks) : Hw → List Nat
  | .pll c => (s.pll c).clkr.vdd_data.rate_max
  | .rcg c => (s.rcg c).clkr.vdd_data.rate_max
  | .div c => (s.div c).clkr.vdd_data.rate_max
  | .branch c => (s.branch c).clkr.vdd_data.rate_max

/-- The level of a clock in the parent graph, by kind. -/
def level : Hw → Nat
  | .pll _ => 0
  | .rcg _ => 1
  | .div _ => 2
  | .branch _ => 3

/-- What a probe leaves behind: its return value, the clock structures, the
description, and the calls it made, in order. -/
structure probe_result where
  ret : Int
  clks : clocks
  desc : qcom_cc_desc Hw Gdsc
  calls : List (probe_call Hw Pll (qcom_cc_desc Hw Gdsc))

/-- The probe `disp_cc_sdm845_probe`, started on the clock structures `clks`
and the description `desc`. -/
def disp_cc_sdm845_probe (env : probe_env) (clks : clocks) (desc : qcom_cc_desc Hw Gdsc) :
    probe_result :=
  let disp_cc_pll0_config : alpha_pll_config := { }
  let sdm670 := env.sdm670
  let calls : List (probe_call Hw Pll (qcom_cc_desc Hw Gdsc)) := [.qcom_cc_map]
  match env.map_err with
  | some err => { ret := err, clks := clks, desc := desc, calls := calls }
  | none =>
    let calls := if sdm670 then calls ++ [.fixup_sdm670] else calls
    let clks := if sdm670 then disp_cc_sdm845_fixup_sdm670 clks else clks
    let desc := { desc with gdscs := none }
    let desc := { desc with num_gdscs := 0 }
    let disp_cc_pll0_config := { disp_cc_pll0_config with l := 0x2c }
    let disp_cc_pll0_config := { disp_cc_pll0_config with alpha := 0xcaaa }
    let calls := calls ++ [.clk_fabia_pll_configure .disp_cc_pll0 disp_cc_pll0_config]
    let calls := calls ++ [.regmap_update_bits 0x8000 0x7f0 0x7f0]
    let calls := calls ++ [.qcom_cc_really_probe desc]
    let ret := env.really_probe_ret
    { ret := ret, clks := clks, desc := desc, calls := calls }

end dispcc_sdm845

/-! ## The camera clock controller, `camcc-sdm845.c` -/

namespace camcc_sdm845

/-! The parent sources, the anonymous `enum { P_BI_TCXO, ... }` of the file. -/

def P_BI_TCXO : Nat := 0
def P_CAM_CC_PLL0_OUT_EVEN : Nat := 1
def P_CAM_CC_PLL1_OUT_EVEN : Nat := 2
def P_CAM_CC_PLL2_OUT_EVEN : Nat := 3
def P_CAM_CC_PLL2_OUT_ODD : Nat := 4
def P_CAM_CC_PLL3_OUT_EVEN : Nat := 5
def P_CORE_BI_PLL_TEST_SE : Nat := 6

/-- The PLLs of the controller (`struct clk_alpha_pll`). -/
inductive Pll where
  | cam_cc_pll0
  | cam_cc_pll1
  | cam_cc_pll2
  | cam_cc_pll3
deriving DecidableEq, Repr

/-- The PLL post-dividers of the controller (`struct clk_alpha_pll_postdiv`). -/
inductive Postdiv where
  | cam_cc_pll0_out_even
  | cam_cc_pll1_out_even
  | cam_cc_pll2_out_even
  | cam_cc_pll2_out_odd
  | cam_cc_pll3_out_even
deriving DecidableEq, Repr

/-- The root clock generators of the controller (`struct clk_rcg2`). -/
inductive Rcg where
  | cam_cc_bps_clk_src
  | cam_cc_cci_clk_src
  | cam_cc_cphy_rx_clk_src
  | cam_cc_csi0phytimer_clk_src
  | cam_cc_csi1phytimer_clk_src
  | cam_cc_csi2phytimer_clk_src
  | cam_cc_csi3phytimer_clk_src
  | cam_cc_fast_ahb_clk_src
  | cam_cc_fd_core_clk_src
  | cam_cc_icp_clk_src
  | cam_cc_ife_0_clk_src
  | cam_cc_ife_0_csid_clk_src
  | cam_cc_ife_1_clk_src
  | cam_cc_ife_1_csid_clk_src
  | cam_cc_ife_lite_clk_src
  | cam_cc_ife_lite_csid_clk_src
  | cam_cc_ipe_0_clk_src
  | cam_cc_ipe_1_clk_src
  | cam_cc_jpeg_clk_src
  | cam_cc_lrme_clk_src
  | cam_cc_mclk0_clk_src
  | cam_cc_mclk1_clk_src
  | cam_cc_mclk2_clk_src
  | cam_cc_mclk3_clk_src
  | cam_cc_slow_ahb_clk_src
deriving DecidableEq, Repr

/-- The branches of the controller (`struct clk_branch`). -/
inductive Branch where
  | cam_cc_bps_ahb_clk
  | cam_cc_bps_areg_clk
  | cam_cc_bps_axi_clk
  | cam_cc_bps_clk
  | cam_cc_camnoc_atb_clk
  | cam_cc_camnoc_axi_clk
  | cam_cc_cci_clk
  | cam_cc_cpas_ahb_clk
  | cam_cc_csi0phytimer_clk
  | cam_cc_csi1phytimer_clk
  | cam_cc_csi2phytimer_clk
  | cam_cc_csi3phytimer_clk
  | cam_cc_csiphy0_clk
  | cam_cc_csiphy1_clk
  | cam_cc_csiphy2_clk
  | cam_cc_csiphy3_clk
  | cam_cc_fd_core_clk
  | cam_cc_fd_core_uar_clk
  | cam_cc_icp_apb_clk
  | cam_cc_icp_atb_clk
  | cam_cc_icp_clk
  | cam_cc_icp_cti_clk
  | cam_cc_icp_ts_clk
  | cam_cc_ife_0_axi_clk
  | cam_cc_ife_0_clk
  | cam_cc_ife_0_cphy_rx_clk
  | cam_cc_ife_0_csid_clk
  | cam_cc_ife_0_dsp_clk
  | cam_cc_ife_1_axi_clk
  | cam_cc_ife_1_clk
  | cam_cc_ife_1_cphy_rx_clk
  | cam_cc_ife_1_csid_clk
  | cam_cc_ife_1_dsp_clk
  | cam_cc_ife_lite_clk
  | cam_cc_ife_lite_cphy_rx_clk
  | cam_cc_ife_lite_csid_clk
  | cam_cc_ipe_0_ahb_clk
  | cam_cc_ipe_0_areg_clk
  | cam_cc_ipe_0_axi_clk
  | cam_cc_ipe_0_clk
  | cam_cc_ipe_1_ahb_clk
  | cam_cc_ipe_1_areg_clk
  | cam_cc_ipe_1_axi_clk
  | cam_cc_ipe_1_clk
  | cam_cc_jpeg_clk
  | cam_cc_lrme_clk
  | cam_cc_mclk0_clk
  | cam_cc_mclk1_clk
  | cam_cc_mclk2_clk
  | cam_cc_mclk3_clk
  | cam_cc_soc_ahb_clk
  | cam_cc_sys_tmr_clk
deriving DecidableEq, Repr

/-- The power domains of the controller (`struct gdsc`). -/
inductive Gdsc where
  | bps_gdsc
  | ipe_0_gdsc
  | ipe_1_gdsc
  | ife_0_gdsc
  | ife_1_gdsc
  | titan_top_gdsc
deriving DecidableEq, Repr

/-- A clock of the controller, what a `struct clk_hw *` of the file points to. -/
inductive Hw where
  | pll (c : Pll)
  | postdiv (c : Postdiv)
  | rcg (c : Rcg)
  | branch (c : Branch)
deriving DecidableEq, Repr

def fabia_vco : List pll_vco := [
  ⟨249600000, 2000000000, 0⟩,
  ⟨125000000, 1000000000, 1⟩
]

def cam_cc_pll0 : clk_alpha_pll Hw := {
  offset := 0x0
  vco_table := fabia_vco
  num_vco := ARRAY_SIZE fabia_vco
  regs := .CLK_ALPHA_PLL_TYPE_FABIA
  clkr := {
    hw_init := {
      name := "cam_cc_pll0"
      parent_data := [{ fw_name := some "bi_tcxo" }]
      num_parents := 1
      ops := .clk_alpha_pll_fabia_ops
    }
    vdd_data := {
      vdd_class := some .vdd_cx
      num_rate_max := VDD_NUM
      rate_max := rate_max_init VDD_NUM [(VDD_MIN, 615000000), (VDD_LOW, 1066000000), (VDD_LOW_L1, 1600000000), (VDD_NOMINAL, 2000000000)]
    }
  }
}

def post_div_table_fabia_even : List clk_div_table := [
  ⟨0x0, 1⟩,
  ⟨0x1, 2⟩,
  ⟨0x3, 4⟩,
  ⟨0x7, 8⟩,
  { }
]

def cam_cc_pll0_out_even : clk_alpha_pll_postdiv Hw := {
  offset := 0x0
  post_div_shift := 8
  post_div_table := post_div_table_fabia_even
  num_post_div := ARRAY_SIZE post_div_table_fabia_even
  width := 4
  regs := .CLK_ALPHA_PLL_TYPE_FABIA
  clkr := {
    hw_init := {
      name := "cam_cc_pll0_out_even"
      parent_hws := [.pll .cam_cc_pll0]
      num_parents := 1
      ops := .clk_alpha_pll_postdiv_fabia_ops
    }
  }
}

def cam_cc_pll1 : clk_alpha_pll Hw := {
  offset := 0x1000
  vco_table := fabia_vco
  num_vco := ARRAY_SIZE fabia_vco
  regs := .CLK_ALPHA_PLL_TYPE_FABIA
  clkr := {
    hw_init := {
      name := "cam_cc_pll1"
      parent_data := [{ fw_name := some "bi_tcxo" }]
      num_parents := 1
      ops := .clk_alpha_pll_fabia_ops
    }
    vdd_data := {
      vdd_class := some .vdd_cx
      num_rate_max := VDD_NUM
      rate_max := rate_max_init VDD_NUM [(VDD_MIN, 615000000), (VDD_LOW, 1066000000), (VDD_LOW_L1, 1600000000), (VDD_NOMINAL, 2000000000)]
    }
  }
}

def cam_cc_pll1_out_even : clk_alpha_pll_postdiv Hw := {
  offset := 0x1000
  post_div_shift := 8
  post_div_table := post_div_table_fabia_even
  num_post_div := ARRAY_SIZE post_div_table_fabia_even
  width := 4
  regs := .CLK_ALPHA_PLL_TYPE_FABIA
  clkr := {
    hw_init := {
      name := "cam_cc_pll1_out_even"
      parent_hws := [.pll .cam_cc_pll1]
      num_parents := 1
      ops := .clk_alpha_pll_postdiv_fabia_ops
    }
  }
}

def cam_cc_pll2 : clk_alpha_pll Hw := {
  offset := 0x2000
  vco_table := fabia_vco
  num_vco := ARRAY_SIZE fabia_vco
  regs := .CLK_ALPHA_PLL_TYPE_FABIA
  clkr := {
    hw_init := {
      name := "cam_cc_pll2"
      parent_data := [{ fw_name := some "bi_tcxo" }]
      num_parents := 1
      ops := .clk_alpha_pll_fabia_ops
    }
    vdd_data := {
      vdd_class := some .vdd_mx
      num_rate_max := VDD_NUM
      rate_max := rate_max_init VDD_NUM [(VDD_MIN, 615000000), (VDD_LOW, 1066000000), (VDD_LOW_L1, 1600000000), (VDD_NOMINAL, 2000000000)]
    }
  }
}

def cam_cc_pll2_out_even : clk_alpha_pll_postdiv Hw := {
  offset := 0x2000
  post_div_shift := 8
  post_div_table := post_div_table_fabia_even
  num_post_div := ARRAY_SIZE post_div_table_fabia_even
  width := 4
  regs := .CLK_ALPHA_PLL_TYPE_FABIA
  clkr := {
    hw_init := {
      name := "cam_cc_pll2_out_even"
      parent_hws := [.pll .cam_cc_pll2]
      num_parents := 1
      ops := .clk_alpha_pll_postdiv_fabia_ops
    }
  }
}

def post_div_table_fabia_odd : List clk_div_table := [
  ⟨0x0, 1⟩,
  ⟨0x3, 3⟩,
  ⟨0x5, 5⟩,
  ⟨0x7, 7⟩,
  { }
]

def cam_cc_pll2_out_odd : clk_alpha_pll_postdiv Hw := {
  offset := 0x2000
  post_div_shift := 12
  post_div_table := post_div_table_fabia_odd
  num_post_div := ARRAY_SIZE post_div_table_fabia_odd
  width := 4
  regs := .CLK_ALPHA_PLL_TYPE_FABIA
  clkr := {
    hw_init := {
      name := "cam_cc_pll2_out_odd"
      parent_hws := [.pll .cam_cc_pll2]
      num_parents := 1
      ops := .clk_alpha_pll_postdiv_fabia_ops
    }
  }
}

def cam_cc_pll3 : clk_alpha_pll Hw := {
  offset := 0x3000
  vco_table := fabia_vco
  num_vco := ARRAY_SIZE fabia_vco
  regs := .CLK_ALPHA_PLL_TYPE_FABIA
  clkr := {
    hw_init := {
      name := "cam_cc_pll3"
      parent_data := [{ fw_name := some "bi_tcxo" }]
      num_parents := 1
      ops := .clk_alpha_pll_fabia_ops
    }
    vdd_data := {
      vdd_class := some .vdd_cx
      num_rate_max := VDD_NUM
      rate_max := rate_max_init VDD_NUM [(VDD_MIN, 615000000), (VDD_LOW, 1066000000), (VDD_LOW_L1, 1600000000), (VDD_NOMINAL, 2000000000)]
    }
  }
}

def cam_cc_pll3_out_even : clk_alpha_pll_postdiv Hw := {
  offset := 0x3000
  post_div_shift := 8
  post_div_table := post_div_table_fabia_even
  num_post_div := ARRAY_SIZE post_div_table_fabia_even
  width := 4
  regs := .CLK_ALPHA_PLL_TYPE_FABIA
  clkr := {
    hw_init := {
      name := "cam_cc_pll3_out_even"
      parent_hws := [.pll .cam_cc_pll3]
      num_parents := 1
      ops := .clk_alpha_pll_postdiv_fabia_ops
    }
  }
}

def cam_cc_parent_map_0 : List parent_map := [
  ⟨P_BI_TCXO, 0⟩,
  ⟨P_CAM_CC_PLL2_OUT_EVEN, 1⟩,
  ⟨P_CAM_CC_PLL1_OUT_EVEN, 2⟩,
  ⟨P_CAM_CC_PLL3_OUT_EVEN, 5⟩,
  ⟨P_CAM_CC_PLL0_OUT_EVEN, 6⟩
]

def cam_cc_parent_data_0 : List (clk_parent_data Hw) := [
  { fw_name := some "bi_tcxo" },
  { hw := some (.postdiv .cam_cc_pll2_out_even) },
  { hw := some (.postdiv .cam_cc_pll1_out_even) },
  { hw := some (.postdiv .cam_cc_pll3_out_even) },
  { hw := some (.postdiv .cam_cc_pll0_out_even) }
]

def cam_cc_parent_map_1 : List parent_map := [
  ⟨P_BI_TCXO, 0⟩,
  ⟨P_CAM_CC_PLL2_OUT_EVEN, 1⟩,
  ⟨P_CAM_CC_PLL1_OUT_EVEN, 2⟩,
  ⟨P_CAM_CC_PLL2_OUT_ODD, 4⟩,
  ⟨P_CAM_CC_PLL3_OUT_EVEN, 5⟩,
  ⟨P_CAM_CC_PLL0_OUT_EVEN, 6⟩
]

def cam_cc_parent_data_1 : List (clk_parent_data Hw) := [
  { fw_name := some "bi_tcxo" },
  { hw := some (.postdiv .cam_cc_pll2_out_even) },
  { hw := some (.postdiv .cam_cc_pll1_out_even) },
  { hw := some (.postdiv .cam_cc_pll2_out_odd) },
  { hw := some (.postdiv .cam_cc_pll3_out_even) },
  { hw := some (.postdiv .cam_cc_pll0_out_even) }
]

def ftbl_cam_cc_bps_clk_src : List freq_tbl := [
  F 19200000 P_BI_TCXO 2 0 0,
  F 100000000 P_CAM_CC_PLL0_OUT_EVEN 12 0 0,
  F 200000000 P_CAM_CC_PLL0_OUT_EVEN 6 0 0,
  F 404000000 P_CAM_CC_PLL1_OUT_EVEN 4 0 0,
  F 480000000 P_CAM_CC_PLL2_OUT_EVEN 2 0 0,
  F 600000000 P_CAM_CC_PLL0_OUT_EVEN 2 0 0,
  { }
]

def cam_cc_bps_clk_src : clk_rcg2 Hw := {
  cmd_rcgr := 0x600c
  mnd_width := 0
  hid_width := 5
  parent_map := cam_cc_parent_map_0
  freq_tbl := some ftbl_cam_cc_bps_clk_src
  clkr := {
    hw_init := {
      name := "cam_cc_bps_clk_src"
      parent_data := cam_cc_parent_data_0
      num_parents := ARRAY_SIZE cam_cc_parent_data_0
      flags := [.CLK_SET_RATE_PARENT]
      ops := .clk_rcg2_shared_ops
    }
    vdd_data := {
      vdd_class := some .vdd_cx
      num_rate_max := VDD_NUM
      rate_max := rate_max_init VDD_NUM [(VDD_MIN, 19200000), (VDD_LOWER, 200000000), (VDD_LOW, 404000000), (VDD_LOW_L1, 480000000), (VDD_NOMINAL, 600000000)]
    }
  }
}

def ftbl_cam_cc_cci_clk_src : List freq_tbl := [
  F 19200000 P_BI_TCXO 2 0 0,
  F 37500000 P_CAM_CC_PLL0_OUT_EVEN 32 0 0,
  F 50000000 P_CAM_CC_PLL0_OUT_EVEN 24 0 0,
  F 100000000 P_CAM_CC_PLL0_OUT_EVEN 12 0 0,
  { }
]

def cam_cc_cci_clk_src : clk_rcg2 Hw := {
  cmd_rcgr := 0xb0d8
  mnd_width := 8
  hid_width := 5
  parent_map := cam_cc_parent_map_0
  freq_tbl := some ftbl_cam_cc_cci_clk_src
  enable_safe_config := true
  clkr := {
    hw_init := {
      name := "cam_cc_cci_clk_src"
      parent_data := cam_cc_parent_data_0
      num_parents := ARRAY_SIZE cam_cc_parent_data_0
      flags := [.CLK_SET_RATE_PARENT]
      ops := .clk_rcg2_ops
    }
    vdd_data := {
      vdd_class := some .vdd_cx
      num_rate_max := VDD_NUM
      rate_max := rate_max_init VDD_NUM [(VDD_MIN, 19200000), (VDD_LOWER, 37500000), (VDD_LOW, 50000000), (VDD_NOMINAL, 100000000)]
    }
  }
}

def ftbl_cam_cc_cphy_rx_clk_src : List freq_tbl := [
  F 19200000 P_BI_TCXO 2 0 0,
  F 384000000 P_CAM_CC_PLL3_OUT_EVEN 2 0 0,
  { }
]

def cam_cc_cphy_rx_clk_src : clk_rcg2 Hw := {
  cmd_rcgr := 0x9060
  mnd_width := 0
  hid_width := 5
  parent_map := cam_cc_parent_map_1
  freq_tbl := some ftbl_cam_cc_cphy_rx_clk_src
  enable_safe_config := true
  clkr := {
    hw_init := {
      name := "cam_cc_cphy_rx_clk_src"
      parent_data := cam_cc_parent_data_1
      num_parents := ARRAY_SIZE cam_cc_parent_data_1
      flags := [.CLK_SET_RATE_PARENT]
      ops := .clk_rcg2_ops
    }
    vdd_data := {
      vdd_class := some .vdd_cx
      num_rate_max := VDD_NUM
      rate_max := rate_max_init VDD_NUM [(VDD_MIN, 19200000), (VDD_LOWER, 300000000), (VDD_LOW, 320000000), (VDD_HIGH, 384000000)]
    }
  }
}

def ftbl_cam_cc_csi0phytimer_clk_src : List freq_tbl := [
  F 19200000 P_BI_TCXO 2 0 0,
  F 240000000 P_CAM_CC_PLL2_OUT_EVEN 4 0 0,
  F 269333333 P_CAM_CC_PLL1_OUT_EVEN 6 0 0,
  { }
]

def cam_cc_csi0phytimer_clk_src : clk_rcg2 Hw := {
  cmd_rcgr := 0x5004
  mnd_width := 0
  hid_width := 5
  parent_map := cam_cc_parent_map_0
  freq_tbl := some ftbl_cam_cc_csi0phytimer_clk_src
  enable_safe_config := true
  clkr := {
    hw_init := {
      name := "cam_cc_csi0phytimer_clk_src"
      parent_data := cam_cc_parent_data_0
      num_parents := ARRAY_SIZE cam_cc_parent_data_0
      flags := [.CLK_SET_RATE_PARENT]
      ops := .clk_rcg2_ops
    }
    vdd_data := {
      vdd_class := some .vdd_cx
      num_rate_max := VDD_NUM
      rate_max := rate_max_init VDD_NUM [(VDD_MIN, 19200000), (VDD_LOWER, 240000000), (VDD_LOW, 269333333)]
    }
  }
}

def cam_cc_csi1phytimer_clk_src : clk_rcg2 Hw := {
  cmd_rcgr := 0x5028
  mnd_width := 0
  hid_width := 5
  parent_map := cam_cc_parent_map_0
  freq_tbl := some ftbl_cam_cc_csi0phytimer_clk_src
  enable_safe_config := true
  clkr := {
    hw_init := {
      name := "cam_cc_csi1phytimer_clk_src"
      parent_data := cam_cc_parent_data_0
      num_parents := ARRAY_SIZE cam_cc_parent_data_0
      flags := [.CLK_SET_RATE_PARENT]
      ops := .clk_rcg2_ops
    }
    vdd_data := {
      vdd_class := some .vdd_cx
      num_rate_max := VDD_NUM
      rate_max := rate_max_init VDD_NUM [(VDD_MIN, 19200000), (VDD_LOWER, 240000000), (VDD_LOW, 269333333)]
    }
  }
}

def cam_cc_csi2phytimer_clk_src : clk_rcg2 Hw := {
  cmd_rcgr := 0x504c
  mnd_width := 0
  hid_width := 5
  parent_map := cam_cc_parent_map_0
  freq_tbl := some ftbl_cam_cc_csi0phytimer_clk_src
  enable_safe_config := true
  clkr := {
    hw_init := {
      name := "cam_cc_csi2phytimer_clk_src"
      parent_data := cam_cc_parent_data_0
      num_parents := ARRAY_SIZE cam_cc_parent_data_0
      flags := [.CLK_SET_RATE_PARENT]
      ops := .clk_rcg2_ops
    }
    vdd_data := {
      vdd_class := some .vdd_cx
      num_rate_max := VDD_NUM
      rate_max := rate_max_init VDD_NUM [(VDD_MIN, 19200000), (VDD_LOWER, 240000000), (VDD_LOW, 269333333)]
    }
  }
}

def cam_cc_csi3phytimer_clk_src : clk_rcg2 Hw := {
  cmd_rcgr := 0x5070
  mnd_width := 0
  hid_width := 5
  parent_map := cam_cc_parent_map_0
  freq_tbl := some ftbl_cam_cc_csi0phytimer_clk_src
  enable_safe_config := true
  clkr := {
    hw_init := {
      name := "cam_cc_csi3phytimer_clk_src"
      parent_data := cam_cc_parent_data_0
      num_parents := ARRAY_SIZE cam_cc_parent_data_0
      flags := [.CLK_SET_RATE_PARENT]
      ops := .clk_rcg2_ops
    }
    vdd_data := {
      vdd_class := some .vdd_cx
      num_rate_max := VDD_NUM
      rate_max := rate_max_init VDD_NUM [(VDD_MIN, 19200000), (VDD_LOWER, 240000000), (VDD_LOW, 269333333)]
    }
  }
}

def ftbl_cam_cc_fast_ahb_clk_src : List freq_tbl := [
  F 19200000 P_BI_TCXO 2 0 0,
  F 50000000 P_CAM_CC_PLL0_OUT_EVEN 24 0 0,
  F 100000000 P_CAM_CC_PLL0_OUT_EVEN 12 0 0,
  F 200000000 P_CAM_CC_PLL0_OUT_EVEN 6 0 0,
  F 300000000 P_CAM_CC_PLL0_OUT_EVEN 4 0 0,
  F 400000000 P_CAM_CC_PLL0_OUT_EVEN 3 0 0,
  { }
]

def cam_cc_fast_ahb_clk_src : clk_rcg2 Hw := {
  cmd_rcgr := 0x6038
  mnd_width := 0
  hid_width := 5
  parent_map := cam_cc_parent_map_0
  freq_tbl := some ftbl_cam_cc_fast_ahb_clk_src
  enable_safe_config := true
  clkr := {
    hw_init := {
      name := "cam_cc_fast_ahb_clk_src"
      parent_data := cam_cc_parent_data_0
      num_parents := ARRAY_SIZE cam_cc_parent_data_0
      flags := [.CLK_SET_RATE_PARENT]
      ops := .clk_rcg2_ops
    }
    vdd_data := {
      vdd_class := some .vdd_cx
      num_rate_max := VDD_NUM
      rate_max := rate_max_init VDD_NUM [(VDD_MIN, 19200000), (VDD_LOWER, 100000000), (VDD_LOW, 200000000), (VDD_LOW_L1, 300000000), (VDD_NOMINAL, 400000000)]
    }
  }
}

def ftbl_cam_cc_fd_core_clk_src : List freq_tbl := [
  F 19200000 P_BI_TCXO 2 0 0,
  F 384000000 P_CAM_CC_PLL3_OUT_EVEN 2 0 0,
  F 400000000 P_CAM_CC_PLL0_OUT_EVEN 3 0 0,
  F 538666667 P_CAM_CC_PLL1_OUT_EVEN 3 0 0,
  F 600000000 P_CAM_CC_PLL0_OUT_EVEN 2 0 0,
  { }
]

def cam_cc_fd_core_clk_src : clk_rcg2 Hw := {
  cmd_rcgr := 0xb0b0
  mnd_width := 0
  hid_width := 5
  parent_map := cam_cc_parent_map_0
  freq_tbl := some ftbl_cam_cc_fd_core_clk_src
  clkr := {
    hw_init := {
      name := "cam_cc_fd_core_clk_src"
      parent_data := cam_cc_parent_data_0
      num_parents := ARRAY_SIZE cam_cc_parent_data_0
      flags := [.CLK_SET_RATE_PARENT]
      ops := .clk_rcg2_shared_ops
    }
    vdd_data := {
      vdd_class := some .vdd_cx
      num_rate_max := VDD_NUM
      rate_max := rate_max_init VDD_NUM [(VDD_MIN, 19200000), (VDD_LOWER, 320000000), (VDD_LOW, 400000000), (VDD_LOW_L1, 538666667), (VDD_NOMINAL, 600000000)]
    }
  }
}

def ftbl_cam_cc_icp_clk_src : List freq_tbl := [
  F 19200000 P_BI_TCXO 2 0 0,
  F 320000000 P_CAM_CC_PLL2_OUT_EVEN 3 0 0,
  F 400000000 P_CAM_CC_PLL0_OUT_EVEN 3 0 0,
  F 538666667 P_CAM_CC_PLL1_OUT_EVEN 3 0 0,
  F 600000000 P_CAM_CC_PLL0_OUT_EVEN 2 0 0,
  { }
]

def ftbl_cam_cc_icp_clk_src_sdm670 : List freq_tbl := [
  F 19200000 P_BI_TCXO 2 0 0,
  F 384000000 P_CAM_CC_PLL3_OUT_EVEN 2 0 0,
  F 400000000 P_CAM_CC_PLL0_OUT_EVEN 3 0 0,
  F 538666667 P_CAM_CC_PLL1_OUT_EVEN 3 0 0,
  F 600000000 P_CAM_CC_PLL0_OUT_EVEN 2 0 0,
  { }
]

def cam_cc_icp_clk_src : clk_rcg2 Hw := {
  cmd_rcgr := 0xb088
  mnd_width := 0
  hid_width := 5
  parent_map := cam_cc_parent_map_0
  freq_tbl := some ftbl_cam_cc_icp_clk_src
  clkr := {
    hw_init := {
      name := "cam_cc_icp_clk_src"
      parent_data := cam_cc_parent_data_0
      num_parents := ARRAY_SIZE cam_cc_parent_data_0
      flags := [.CLK_SET_RATE_PARENT]
      ops := .clk_rcg2_shared_ops
    }
    vdd_data := {
      vdd_class := some .vdd_cx
      num_rate_max := VDD_NUM
      rate_max := rate_max_init VDD_NUM [(VDD_MIN, 19200000), (VDD_LOWER, 320000000), (VDD_LOW, 400000000), (VDD_LOW_L1, 538666667), (VDD_NOMINAL, 600000000)]
    }
  }
}

def ftbl_cam_cc_ife_0_clk_src : List freq_tbl := [
  F 19200000 P_BI_TCXO 2 0 0,
  F 100000000 P_CAM_CC_PLL0_OUT_EVEN 12 0 0,
  F 320000000 P_CAM_CC_PLL2_OUT_EVEN 3 0 0,
  F 404000000 P_CAM_CC_PLL1_OUT_EVEN 4 0 0,
  F 480000000 P_CAM_CC_PLL2_OUT_EVEN 2 0 0,
  F 600000000 P_CAM_CC_PLL0_OUT_EVEN 2 0 0,
  { }
]

def cam_cc_ife_0_clk_src : clk_rcg2 Hw := {
  cmd_rcgr := 0x900c
  mnd_width := 0
  hid_width := 5
  parent_map := cam_cc_parent_map_0
  freq_tbl := some ftbl_cam_cc_ife_0_clk_src
  clkr := {
    hw_init := {
      name := "cam_cc_ife_0_clk_src"
      parent_data := cam_cc_parent_data_0
      num_parents := ARRAY_SIZE cam_cc_parent_data_0
      flags := [.CLK_SET_RATE_PARENT]
      ops := .clk_rcg2_shared_ops
    }
    vdd_data := {
      vdd_class := some .vdd_cx
      num_rate_max := VDD_NUM
      rate_max := rate_max_init VDD_NUM [(VDD_MIN, 19200000), (VDD_LOWER, 320000000), (VDD_LOW, 404000000), (VDD_LOW_L1, 480000000), (VDD_NOMINAL, 600000000)]
    }
  }
}

def ftbl_cam_cc_ife_0_csid_clk_src : List freq_tbl := [
  F 19200000 P_BI_TCXO 2 0 0,
  F 75000000 P_CAM_CC_PLL0_OUT_EVEN 16 0 0,
  F 384000000 P_CAM_CC_PLL3_OUT_EVEN 2 0 0,
  F 538666667 P_CAM_CC_PLL1_OUT_EVEN 3 0 0,
  { }
]

def cam_cc_ife_0_csid_clk_src : clk_rcg2 Hw := {
  cmd_rcgr := 0x9038
  mnd_width := 0
  hid_width := 5
  parent_map := cam_cc_parent_map_1
  freq_tbl := some ftbl_cam_cc_ife_0_csid_clk_src
  clkr := {
    hw_init := {
      name := "cam_cc_ife_0_csid_clk_src"
      parent_data := cam_cc_parent_data_1
      num_parents := ARRAY_SIZE cam_cc_parent_data_1
      flags := [.CLK_SET_RATE_PARENT]
      ops := .clk_rcg2_shared_ops
    }
    vdd_data := {
      vdd_class := some .vdd_cx
      num_rate_max := VDD_NUM
      rate_max := rate_max_init VDD_NUM [(VDD_MIN, 19200000), (VDD_LOWER, 384000000), (VDD_NOMINAL, 538666667)]
    }
  }
}

def cam_cc_ife_1_clk_src : clk_rcg2 Hw := {
  cmd_rcgr := 0xa00c
  mnd_width := 0
  hid_width := 5
  parent_map := cam_cc_parent_map_0
  freq_tbl := some ftbl_cam_cc_ife_0_clk_src
  clkr := {
    hw_init := {
      name := "cam_cc_ife_1_clk_src"
      parent_data := cam_cc_parent_data_0
      num_parents := ARRAY_SIZE cam_cc_parent_data_0
      flags := [.CLK_SET_RATE_PARENT]
      ops := .clk_rcg2_shared_ops
    }
    vdd_data := {
      vdd_class := some .vdd_cx
      num_rate_max := VDD_NUM
      rate_max := rate_max_init VDD_NUM [(VDD_MIN, 19200000), (VDD_LOWER, 320000000), (VDD_LOW, 404000000), (VDD_LOW_L1, 480000000), (VDD_NOMINAL, 600000000)]
    }
  }
}

def cam_cc_ife_1_csid_clk_src : clk_rcg2 Hw := {
  cmd_rcgr := 0xa030
  mnd_width := 0
  hid_width := 5
  parent_map := cam_cc_parent_map_1
  freq_tbl := some ftbl_cam_cc_ife_0_csid_clk_src
  clkr := {
    hw_init := {
      name := "cam_cc_ife_1_csid_clk_src"
      parent_data := cam_cc_parent_data_1
      num_parents := ARRAY_SIZE cam_cc_parent_data_1
      flags := [.CLK_SET_RATE_PARENT]
      ops := .clk_rcg2_shared_ops
    }
    vdd_data := {
      vdd_class := some .vdd_cx
      num_rate_max := VDD_NUM
      rate_max := rate_max_init VDD_NUM [(VDD_MIN, 19200000), (VDD_LOWER, 384000000), (VDD_NOMINAL, 538666667)]
    }
  }
}

def cam_cc_ife_lite_clk_src : clk_rcg2 Hw := {
  cmd_rcgr := 0xb004
  mnd_width := 0
  hid_width := 5
  parent_map := cam_cc_parent_map_0
  freq_tbl := some ftbl_cam_cc_ife_0_clk_src
  clkr := {
    hw_init := {
      name := "cam_cc_ife_lite_clk_src"
      parent_data := cam_cc_parent_data_0
      num_parents := ARRAY_SIZE cam_cc_parent_data_0
      flags := [.CLK_SET_RATE_PARENT]
      ops := .clk_rcg2_shared_ops
    }
    vdd_data := {
      vdd_class := some .vdd_cx
      num_rate_max := VDD_NUM
      rate_max := rate_max_init VDD_NUM [(VDD_MIN, 19200000), (VDD_LOWER, 320000000), (VDD_LOW, 404000000), (VDD_LOW_L1, 480000000), (VDD_NOMINAL, 600000000)]
    }
  }
}

def cam_cc_ife_lite_csid_clk_src : clk_rcg2 Hw := {
  cmd_rcgr := 0xb024
  mnd_width := 0
  hid_width := 5
  parent_map := cam_cc_parent_map_1
  freq_tbl := some ftbl_cam_cc_ife_0_csid_clk_src
  clkr := {
    hw_init := {
      name := "cam_cc_ife_lite_csid_clk_src"
      parent_data := cam_cc_parent_data_1
      num_parents := ARRAY_SIZE cam_cc_parent_data_1
      flags := [.CLK_SET_RATE_PARENT]
      ops := .clk_rcg2_shared_ops
    }
    vdd_data := {
      vdd_class := some .vdd_cx
      num_rate_max := VDD_NUM
      rate_max := rate_max_init VDD_NUM [(VDD_MIN, 19200000), (VDD_LOWER, 384000000), (VDD_NOMINAL, 538666667)]
    }
  }
}

def ftbl_cam_cc_ipe_0_clk_src : List freq_tbl := [
  F 19200000 P_BI_TCXO 2 0 0,
  F 100000000 P_CAM_CC_PLL0_OUT_EVEN 12 0 0,
  F 240000000 P_CAM_CC_PLL0_OUT_EVEN 5 0 0,
  F 404000000 P_CAM_CC_PLL1_OUT_EVEN 4 0 0,
  F 480000000 P_CAM_CC_PLL2_OUT_EVEN 2 0 0,
  F 538666667 P_CAM_CC_PLL1_OUT_EVEN 3 0 0,
  F 600000000 P_CAM_CC_PLL0_OUT_EVEN 2 0 0,
  { }
]

def cam_cc_ipe_0_clk_src : clk_rcg2 Hw := {
  cmd_rcgr := 0x700c
  mnd_width := 0
  hid_width := 5
  parent_map := cam_cc_parent_map_0
  freq_tbl := some ftbl_cam_cc_ipe_0_clk_src
  clkr := {
    hw_init := {
      name := "cam_cc_ipe_0_clk_src"
      parent_data := cam_cc_parent_data_0
      num_parents := ARRAY_SIZE cam_cc_parent_data_0
      flags := [.CLK_SET_RATE_PARENT]
      ops := .clk_rcg2_shared_ops
    }
    vdd_data := {
      vdd_class := some .vdd_cx
      num_rate_max := VDD_NUM
      rate_max := rate_max_init VDD_NUM [(VDD_MIN, 19200000), (VDD_LOWER, 240000000), (VDD_LOW, 404000000), (VDD_LOW_L1, 480000000), (VDD_NOMINAL, 538666667), (VDD_HIGH, 600000000)]
    }
  }
}

def cam_cc_ipe_1_clk_src : clk_rcg2 Hw := {
  cmd_rcgr := 0x800c
  mnd_width := 0
  hid_width := 5
  parent_map := cam_cc_parent_map_0
  freq_tbl := some ftbl_cam_cc_ipe_0_clk_src
  clkr := {
    hw_init := {
      name := "cam_cc_ipe_1_clk_src"
      parent_data := cam_cc_parent_data_0
      num_parents := ARRAY_SIZE cam_cc_parent_data_0
      flags := [.CLK_SET_RATE_PARENT]
      ops := .clk_rcg2_shared_ops
    }
    vdd_data := {
      vdd_class := some .vdd_cx
      num_rate_max := VDD_NUM
      rate_max := rate_max_init VDD_NUM [(VDD_MIN, 19200000), (VDD_LOWER, 240000000), (VDD_LOW, 404000000), (VDD_LOW_L1, 480000000), (VDD_NOMINAL, 538666667), (VDD_HIGH, 600000000)]
    }
  }
}

def cam_cc_jpeg_clk_src : clk_rcg2 Hw := {
  cmd_rcgr := 0xb04c
  mnd_width := 0
  hid_width := 5
  parent_map := cam_cc_parent_map_0
  freq_tbl := some ftbl_cam_cc_bps_clk_src
  clkr := {
    hw_init := {
      name := "cam_cc_jpeg_clk_src"
      parent_data := cam_cc_parent_data_0
      num_parents := ARRAY_SIZE cam_cc_parent_data_0
      flags := [.CLK_SET_RATE_PARENT]
      ops := .clk_rcg2_shared_ops
    }
    vdd_data := {
      vdd_class := some .vdd_cx
      num_rate_max := VDD_NUM
      rate_max := rate_max_init VDD_NUM [(VDD_MIN, 19200000), (VDD_LOWER, 200000000), (VDD_LOW, 404000000), (VDD_LOW_L1, 480000000), (VDD_NOMINAL, 600000000)]
    }
  }
}

def ftbl_cam_cc_lrme_clk_src : List freq_tbl := [
  F 19200000 P_BI_TCXO 2 0 0,
  F 100000000 P_CAM_CC_PLL0_OUT_EVEN 12 0 0,
  F 200000000 P_CAM_CC_PLL0_OUT_EVEN 6 0 0,
  F 384000000 P_CAM_CC_PLL2_OUT_ODD 5 0 0,
  F 480000000 P_CAM_CC_PLL2_OUT_EVEN 2 0 0,
  F 600000000 P_CAM_CC_PLL0_OUT_EVEN 2 0 0,
  { }
]

def ftbl_cam_cc_lrme_clk_src_sdm670 : List freq_tbl := [
  F 19200000 P_BI_TCXO 2 0 0,
  F 100000000 P_CAM_CC_PLL0_OUT_EVEN 12 0 0,
  F 200000000 P_CAM_CC_PLL0_OUT_EVEN 6 0 0,
  F 269333333 P_CAM_CC_PLL1_OUT_EVEN 6 0 0,
  F 320000000 P_CAM_CC_PLL2_OUT_EVEN 3 0 0,
  F 400000000 P_CAM_CC_PLL0_OUT_EVEN 3 0 0,
  { }
]

def cam_cc_lrme_clk_src : clk_rcg2 Hw := {
  cmd_rcgr := 0xb0f8
  mnd_width := 0
  hid_width := 5
  parent_map := cam_cc_parent_map_1
  freq_tbl := some ftbl_cam_cc_lrme_clk_src
  clkr := {
    hw_init := {
      name := "cam_cc_lrme_clk_src"
      parent_data := cam_cc_parent_data_1
      num_parents := ARRAY_SIZE cam_cc_parent_data_1
      flags := [.CLK_SET_RATE_PARENT]
      ops := .clk_rcg2_shared_ops
    }
    vdd_data := {
      vdd_class := some .vdd_cx
      num_rate_max := VDD_NUM
      rate_max := rate_max_init VDD_NUM [(VDD_MIN, 19200000), (VDD_LOWER, 200000000), (VDD_LOW, 384000000), (VDD_LOW_L1, 480000000), (VDD_NOMINAL, 600000000)]
    }
  }
}

def ftbl_cam_cc_mclk0_clk_src : List freq_tbl := [
  F 8000000 P_CAM_CC_PLL2_OUT_EVEN 20 1 6,
  F 19200000 P_BI_TCXO 2 0 0,
  F 24000000 P_CAM_CC_PLL2_OUT_EVEN 20 1 2,
  F 33333333 P_CAM_CC_PLL0_OUT_EVEN 4 1 9,
  F 34285714 P_CAM_CC_PLL2_OUT_EVEN 28 0 0,
  { }
]

def cam_cc_mclk0_clk_src : clk_rcg2 Hw := {
  cmd_rcgr := 0x4004
  mnd_width := 8
  hid_width := 5
  parent_map := cam_cc_parent_map_0
  freq_tbl := some ftbl_cam_cc_mclk0_clk_src
  enable_safe_config := true
  clkr := {
    hw_init := {
      name := "cam_cc_mclk0_clk_src"
      parent_data := cam_cc_parent_data_0
      num_parents := ARRAY_SIZE cam_cc_parent_data_0
      flags := [.CLK_SET_RATE_PARENT]
      ops := .clk_rcg2_ops
    }
    vdd_data := {
      vdd_class := some .vdd_cx
      num_rate_max := VDD_NUM
      rate_max := rate_max_init VDD_NUM [(VDD_MIN, 19200000), (VDD_LOWER, 34285714)]
    }
  }
}

def cam_cc_mclk1_clk_src : clk_rcg2 Hw := {
  cmd_rcgr := 0x4024
  mnd_width := 8
  hid_width := 5
  parent_map := cam_cc_parent_map_0
  freq_tbl := some ftbl_cam_cc_mclk0_clk_src
  enable_safe_config := true
  clkr := {
    hw_init := {
      name := "cam_cc_mclk1_clk_src"
      parent_data := cam_cc_parent_data_0
      num_parents := ARRAY_SIZE cam_cc_parent_data_0
      flags := [.CLK_SET_RATE_PARENT]
      ops := .clk_rcg2_ops
    }
    vdd_data := {
      vdd_class := some .vdd_cx
      num_rate_max := VDD_NUM
      rate_max := rate_max_init VDD_NUM [(VDD_MIN, 19200000), (VDD_LOWER, 34285714)]
    }
  }
}

def cam_cc_mclk2_clk_src : clk_rcg2 Hw := {
  cmd_rcgr := 0x4044
  mnd_width := 8
  hid_width := 5
  parent_map := cam_cc_parent_map_0
  freq_tbl := some ftbl_cam_cc_mclk0_clk_src
  enable_safe_config := true
  clkr := {
    hw_init := {
      name := "cam_cc_mclk2_clk_src"
      parent_data := cam_cc_parent_data_0
      num_parents := ARRAY_SIZE cam_cc_parent_data_0
      flags := [.CLK_SET_RATE_PARENT]
      ops := .clk_rcg2_ops
    }
    vdd_data := {
      vdd_class := some .vdd_cx
      num_rate_max := VDD_NUM
      rate_max := rate_max_init VDD_NUM [(VDD_MIN, 19200000), (VDD_LOWER, 34285714)]
    }
  }
}

def cam_cc_mclk3_clk_src : clk_rcg2 Hw := {
  cmd_rcgr := 0x4064
  mnd_width := 8
  hid_width := 5
  parent_map := cam_cc_parent_map_0
  freq_tbl := some ftbl_cam_cc_mclk0_clk_src
  enable_safe_config := true
  clkr := {
    hw_init := {
      name := "cam_cc_mclk3_clk_src"
      parent_data := cam_cc_parent_data_0
      num_parents := ARRAY_SIZE cam_cc_parent_data_0
      flags := [.CLK_SET_RATE_PARENT]
      ops := .clk_rcg2_ops
    }
    vdd_data := {
      vdd_class := some .vdd_cx
      num_rate_max := VDD_NUM
      rate_max := rate_max_init VDD_NUM [(VDD_MIN, 19200000), (VDD_LOWER, 34285714)]
    }
  }
}

def ftbl_cam_cc_slow_ahb_clk_src : List freq_tbl := [
  F 19200000 P_BI_TCXO 2 0 0,
  F 60000000 P_CAM_CC_PLL0_OUT_EVEN 20 0 0,
  F 66666667 P_CAM_CC_PLL0_OUT_EVEN 18 0 0,
  F 73846154 P_CAM_CC_PLL2_OUT_EVEN 13 0 0,
  F 80000000 P_CAM_CC_PLL2_OUT_EVEN 12 0 0,
  { }
]

def cam_cc_slow_ahb_clk_src : clk_rcg2 Hw := {
  cmd_rcgr := 0x6054
  mnd_width := 0
  hid_width := 5
  parent_map := cam_cc_parent_map_0
  freq_tbl := some ftbl_cam_cc_slow_ahb_clk_src
  enable_safe_config := true
  clkr := {
    hw_init := {
      name := "cam_cc_slow_ahb_clk_src"
      parent_data := cam_cc_parent_data_0
      num_parents := ARRAY_SIZE cam_cc_parent_data_0
      flags := [.CLK_SET_RATE_PARENT]
      ops := .clk_rcg2_ops
    }
    vdd_data := {
      vdd_class := some .vdd_cx
      num_rate_max := VDD_NUM
      rate_max := rate_max_init VDD_NUM [(VDD_MIN, 19200000), (VDD_LOWER, 60000000), (VDD_LOW, 66666667), (VDD_LOW_L1, 73846154), (VDD_NOMINAL, 80000000)]
    }
  }
}

def cam_cc_bps_ahb_clk : clk_branch Hw := {
  halt_reg := 0x606c
  halt_check := .BRANCH_HALT
  clkr := {
    enable_reg := 0x606c
    enable_mask := BIT 0
    hw_init := {
      name := "cam_cc_bps_ahb_clk"
      parent_hws := [.rcg .cam_cc_slow_ahb_clk_src]
      num_parents := 1
      flags := [.CLK_SET_RATE_PARENT]
      ops := .clk_branch2_ops
    }
  }
}

def cam_cc_bps_areg_clk : clk_branch Hw := {
  halt_reg := 0x6050
  halt_check := .BRANCH_HALT
  clkr := {
    enable_reg := 0x6050
    enable_mask := BIT 0
    hw_init := {
      name := "cam_cc_bps_areg_clk"
      parent_hws := [.rcg .cam_cc_fast_ahb_clk_src]
      num_parents := 1
      flags := [.CLK_SET_RATE_PARENT]
      ops := .clk_branch2_ops
    }
  }
}

def cam_cc_bps_axi_clk : clk_branch Hw := {
  halt_reg := 0x6034
  halt_check := .BRANCH_HALT
  clkr := {
    enable_reg := 0x6034
    enable_mask := BIT 0
    hw_init := {
      name := "cam_cc_bps_axi_clk"
      ops := .clk_branch2_ops
    }
  }
}

def cam_cc_bps_clk : clk_branch Hw := {
  halt_reg := 0x6024
  halt_check := .BRANCH_HALT
  clkr := {
    enable_reg := 0x6024
    enable_mask := BIT 0
    hw_init := {
      name := "cam_cc_bps_clk"
      parent_hws := [.rcg .cam_cc_bps_clk_src]
      num_parents := 1
      flags := [.CLK_SET_RATE_PARENT]
      ops := .clk_branch2_ops
    }
  }
}

def cam_cc_camnoc_atb_clk : clk_branch Hw := {
  halt_reg := 0xb12c
  halt_check := .BRANCH_HALT
  clkr := {
    enable_reg := 0xb12c
    enable_mask := BIT 0
    hw_init := {
      name := "cam_cc_camnoc_atb_clk"
      ops := .clk_branch2_ops
    }
  }
}

def cam_cc_camnoc_axi_clk : clk_branch Hw := {
  halt_reg := 0xb124
  halt_check := .BRANCH_HALT
  clkr := {
    enable_reg := 0xb124
    enable_mask := BIT 0
    hw_init := {
      name := "cam_cc_camnoc_axi_clk"
      ops := .clk_branch2_ops
    }
  }
}

def cam_cc_cci_clk : clk_branch Hw := {
  halt_reg := 0xb0f0
  halt_check := .BRANCH_HALT
  clkr := {
    enable_reg := 0xb0f0
    enable_mask := BIT 0
    hw_init := {
      name := "cam_cc_cci_clk"
      parent_hws := [.rcg .cam_cc_cci_clk_src]
      num_parents := 1
      flags := [.CLK_SET_RATE_PARENT]
      ops := .clk_branch2_ops
    }
  }
}

def cam_cc_cpas_ahb_clk : clk_branch Hw := {
  halt_reg := 0xb11c
  halt_check := .BRANCH_HALT
  clkr := {
    enable_reg := 0xb11c
    enable_mask := BIT 0
    hw_init := {
      name := "cam_cc_cpas_ahb_clk"
      parent_hws := [.rcg .cam_cc_slow_ahb_clk_src]
      num_parents := 1
      flags := [.CLK_SET_RATE_PARENT]
      ops := .clk_branch2_ops
    }
  }
}

def cam_cc_csi0phytimer_clk : clk_branch Hw := {
  halt_reg := 0x501c
  halt_check := .BRANCH_HALT
  clkr := {
    enable_reg := 0x501c
    enable_mask := BIT 0
    hw_init := {
      name := "cam_cc_csi0phytimer_clk"
      parent_hws := [.rcg .cam_cc_csi0phytimer_clk_src]
      num_parents := 1
      flags := [.CLK_SET_RATE_PARENT]
      ops := .clk_branch2_ops
    }
  }
}

def cam_cc_csi1phytimer_clk : clk_branch Hw := {
  halt_reg := 0x5040
  halt_check := .BRANCH_HALT
  clkr := {
    enable_reg := 0x5040
    enable_mask := BIT 0
    hw_init := {
      name := "cam_cc_csi1phytimer_clk"
      parent_hws := [.rcg .cam_cc_csi1phytimer_clk_src]
      num_parents := 1
      flags := [.CLK_SET_RATE_PARENT]
      ops := .clk_branch2_ops
    }
  }
}

def cam_cc_csi2phytimer_clk : clk_branch Hw := {
  halt_reg := 0x5064
  halt_check := .BRANCH_HALT
  clkr := {
    enable_reg := 0x5064
    enable_mask := BIT 0
    hw_init := {
      name := "cam_cc_csi2phytimer_clk"
      parent_hws := [.rcg .cam_cc_csi2phytimer_clk_src]
      num_parents := 1
      flags := [.CLK_SET_RATE_PARENT]
      ops := .clk_branch2_ops
    }
  }
}

def cam_cc_csi3phytimer_clk : clk_branch Hw := {
  halt_reg := 0x5088
  halt_check := .BRANCH_HALT
  clkr := {
    enable_reg := 0x5088
    enable_mask := BIT 0
    hw_init := {
      name := "cam_cc_csi3phytimer_clk"
      parent_hws := [.rcg .cam_cc_csi3phytimer_clk_src]
      num_parents := 1
      flags := [.CLK_SET_RATE_PARENT]
      ops := .clk_branch2_ops
    }
  }
}

def cam_cc_csiphy0_clk : clk_branch Hw := {
  halt_reg := 0x5020
  halt_check := .BRANCH_HALT
  clkr := {
    enable_reg := 0x5020
    enable_mask := BIT 0
    hw_init := {
      name := "cam_cc_csiphy0_clk"
      parent_hws := [.rcg .cam_cc_cphy_rx_clk_src]
      num_parents := 1
      flags := [.CLK_SET_RATE_PARENT]
      ops := .clk_branch2_ops
    }
  }
}

def cam_cc_csiphy1_clk : clk_branch Hw := {
  halt_reg := 0x5044
  halt_check := .BRANCH_HALT
  clkr := {
    enable_reg := 0x5044
    enable_mask := BIT 0
    hw_init := {
      name := "cam_cc_csiphy1_clk"
      parent_hws := [.rcg .cam_cc_cphy_rx_clk_src]
      num_parents := 1
      flags := [.CLK_SET_RATE_PARENT]
      ops := .clk_branch2_ops
    }
  }
}

def cam_cc_csiphy2_clk : clk_branch Hw := {
  halt_reg := 0x5068
  halt_check := .BRANCH_HALT
  clkr := {
    enable_reg := 0x5068
    enable_mask := BIT 0
    hw_init := {
      name := "cam_cc_csiphy2_clk"
      parent_hws := [.rcg .cam_cc_cphy_rx_clk_src]
      num_parents := 1
      flags := [.CLK_SET_RATE_PARENT]
      ops := .clk_branch2_ops
    }
  }
}

def cam_cc_csiphy3_clk : clk_branch Hw := {
  halt_reg := 0x508c
  halt_check := .BRANCH_HALT
  clkr := {
    enable_reg := 0x508c
    enable_mask := BIT 0
    hw_init := {
      name := "cam_cc_csiphy3_clk"
      parent_hws := [.rcg .cam_cc_cphy_rx_clk_src]
      num_parents := 1
      flags := [.CLK_SET_RATE_PARENT]
      ops := .clk_branch2_ops
    }
  }
}

def cam_cc_fd_core_clk : clk_branch Hw := {
  halt_reg := 0xb0c8
  halt_check := .BRANCH_HALT
  clkr := {
    enable_reg := 0xb0c8
    enable_mask := BIT 0
    hw_init := {
      name := "cam_cc_fd_core_clk"
      parent_hws := [.rcg .cam_cc_fd_core_clk_src]
      num_parents := 1
      flags := [.CLK_SET_RATE_PARENT]
      ops := .clk_branch2_ops
    }
  }
}

def cam_cc_fd_core_uar_clk : clk_branch Hw := {
  halt_reg := 0xb0d0
  halt_check := .BRANCH_HALT
  clkr := {
    enable_reg := 0xb0d0
    enable_mask := BIT 0
    hw_init := {
      name := "cam_cc_fd_core_uar_clk"
      parent_hws := [.rcg .cam_cc_fd_core_clk_src]
      num_parents := 1
      ops := .clk_branch2_ops
    }
  }
}

def cam_cc_icp_apb_clk : clk_branch Hw := {
  halt_reg := 0xb084
  halt_check := .BRANCH_HALT
  clkr := {
    enable_reg := 0xb084
    enable_mask := BIT 0
    hw_init := {
      name := "cam_cc_icp_apb_clk"
      ops := .clk_branch2_ops
    }
  }
}

def cam_cc_icp_atb_clk : clk_branch Hw := {
  halt_reg := 0xb078
  halt_check := .BRANCH_HALT
  clkr := {
    enable_reg := 0xb078
    enable_mask := BIT 0
    hw_init := {
      name := "cam_cc_icp_atb_clk"
      ops := .clk_branch2_ops
    }
  }
}

def cam_cc_icp_clk : clk_branch Hw := {
  halt_reg := 0xb0a0
  halt_check := .BRANCH_HALT
  clkr := {
    enable_reg := 0xb0a0
    enable_mask := BIT 0
    hw_init := {
      name := "cam_cc_icp_clk"
      parent_hws := [.rcg .cam_cc_icp_clk_src]
      num_parents := 1
      flags := [.CLK_SET_RATE_PARENT]
      ops := .clk_branch2_ops
    }
  }
}

def cam_cc_icp_cti_clk : clk_branch Hw := {
  halt_reg := 0xb07c
  halt_check := .BRANCH_HALT
  clkr := {
    enable_reg := 0xb07c
    enable_mask := BIT 0
    hw_init := {
      name := "cam_cc_icp_cti_clk"
      ops := .clk_branch2_ops
    }
  }
}

def cam_cc_icp_ts_clk : clk_branch Hw := {
  halt_reg := 0xb080
  halt_check := .BRANCH_HALT
  clkr := {
    enable_reg := 0xb080
    enable_mask := BIT 0
    hw_init := {
      name := "cam_cc_icp_ts_clk"
      ops := .clk_branch2_ops
    }
  }
}

def cam_cc_ife_0_axi_clk : clk_branch Hw := {
  halt_reg := 0x907c
  halt_check := .BRANCH_HALT
  clkr := {
    enable_reg := 0x907c
    enable_mask := BIT 0
    hw_init := {
      name := "cam_cc_ife_0_axi_clk"
      ops := .clk_branch2_ops
    }
  }
}

def cam_cc_ife_0_clk : clk_branch Hw := {
  halt_reg := 0x9024
  halt_check := .BRANCH_HALT
  clkr := {
    enable_reg := 0x9024
    enable_mask := BIT 0
    hw_init := {
      name := "cam_cc_ife_0_clk"
      parent_hws := [.rcg .cam_cc_ife_0_clk_src]
      num_parents := 1
      flags := [.CLK_SET_RATE_PARENT]
      ops := .clk_branch2_ops
    }
  }
}

def cam_cc_ife_0_cphy_rx_clk : clk_branch Hw := {
  halt_reg := 0x9078
  halt_check := .BRANCH_HALT
  clkr := {
    enable_reg := 0x9078
    enable_mask := BIT 0
    hw_init := {
      name := "cam_cc_ife_0_cphy_rx_clk"
      parent_hws := [.rcg .cam_cc_cphy_rx_clk_src]
      num_parents := 1
      flags := [.CLK_SET_RATE_PARENT]
      ops := .clk_branch2_ops
    }
  }
}

def cam_cc_ife_0_csid_clk : clk_branch Hw := {
  halt_reg := 0x9050
  halt_check := .BRANCH_HALT
  clkr := {
    enable_reg := 0x9050
    enable_mask := BIT 0
    hw_init := {
      name := "cam_cc_ife_0_csid_clk"
      parent_hws := [.rcg .cam_cc_ife_0_csid_clk_src]
      num_parents := 1
      flags := [.CLK_SET_RATE_PARENT]
      ops := .clk_branch2_ops
    }
  }
}

def cam_cc_ife_0_dsp_clk : clk_branch Hw := {
  halt_reg := 0x9034
  halt_check := .BRANCH_HALT
  clkr := {
    enable_reg := 0x9034
    enable_mask := BIT 0
    hw_init := {
      name := "cam_cc_ife_0_dsp_clk"
      parent_hws := [.rcg .cam_cc_ife_0_clk_src]
      num_parents := 1
      ops := .clk_branch2_ops
    }
  }
}

def cam_cc_ife_1_axi_clk : clk_branch Hw := {
  halt_reg := 0xa054
  halt_check := .BRANCH_HALT
  clkr := {
    enable_reg := 0xa054
    enable_mask := BIT 0
    hw_init := {
      name := "cam_cc_ife_1_axi_clk"
      ops := .clk_branch2_ops
    }
  }
}

def cam_cc_ife_1_clk : clk_branch Hw := {
  halt_reg := 0xa024
  halt_check := .BRANCH_HALT
  clkr := {
    enable_reg := 0xa024
    enable_mask := BIT 0
    hw_init := {
      name := "cam_cc_ife_1_clk"
      parent_hws := [.rcg .cam_cc_ife_1_clk_src]
      num_parents := 1
      flags := [.CLK_SET_RATE_PARENT]
      ops := .clk_branch2_ops
    }
  }
}

def cam_cc_ife_1_cphy_rx_clk : clk_branch Hw := {
  halt_reg := 0xa050
  halt_check := .BRANCH_HALT
  clkr := {
    enable_reg := 0xa050
    enable_mask := BIT 0
    hw_init := {
      name := "cam_cc_ife_1_cphy_rx_clk"
      parent_hws := [.rcg .cam_cc_cphy_rx_clk_src]
      num_parents := 1
      flags := [.CLK_SET_RATE_PARENT]
      ops := .clk_branch2_ops
    }
  }
}

def cam_cc_ife_1_csid_clk : clk_branch Hw := {
  halt_reg := 0xa048
  halt_check := .BRANCH_HALT
  clkr := {
    enable_reg := 0xa048
    enable_mask := BIT 0
    hw_init := {
      name := "cam_cc_ife_1_csid_clk"
      parent_hws := [.rcg .cam_cc_ife_1_csid_clk_src]
      num_parents := 1
      flags := [.CLK_SET_RATE_PARENT]
      ops := .clk_branch2_ops
    }
  }
}

def cam_cc_ife_1_dsp_clk : clk_branch Hw := {
  halt_reg := 0xa02c
  halt_check := .BRANCH_HALT
  clkr := {
    enable_reg := 0xa02c
    enable_mask := BIT 0
    hw_init := {
      name := "cam_cc_ife_1_dsp_clk"
      parent_hws := [.rcg .cam_cc_ife_1_clk_src]
      num_parents := 1
      ops := .clk_branch2_ops
    }
  }
}

def cam_cc_ife_lite_clk : clk_branch Hw := {
  halt_reg := 0xb01c
  halt_check := .BRANCH_HALT
  clkr := {
    enable_reg := 0xb01c
    enable_mask := BIT 0
    hw_init := {
      name := "cam_cc_ife_lite_clk"
      parent_hws := [.rcg .cam_cc_ife_lite_clk_src]
      num_parents := 1
      flags := [.CLK_SET_RATE_PARENT]
      ops := .clk_branch2_ops
    }
  }
}

def cam_cc_ife_lite_cphy_rx_clk : clk_branch Hw := {
  halt_reg := 0xb044
  halt_check := .BRANCH_HALT
  clkr := {
    enable_reg := 0xb044
    enable_mask := BIT 0
    hw_init := {
      name := "cam_cc_ife_lite_cphy_rx_clk"
      parent_hws := [.rcg .cam_cc_cphy_rx_clk_src]
      num_parents := 1
      flags := [.CLK_SET_RATE_PARENT]
      ops := .clk_branch2_ops
    }
  }
}

def cam_cc_ife_lite_csid_clk : clk_branch Hw := {
  halt_reg := 0xb03c
  halt_check := .BRANCH_HALT
  clkr := {
    enable_reg := 0xb03c
    enable_mask := BIT 0
    hw_init := {
      name := "cam_cc_ife_lite_csid_clk"
      parent_hws := [.rcg .cam_cc_ife_lite_csid_clk_src]
      num_parents := 1
      flags := [.CLK_SET_RATE_PARENT]
      ops := .clk_branch2_ops
    }
  }
}

def cam_cc_ipe_0_ahb_clk : clk_branch Hw := {
  halt_reg := 0x703c
  halt_check := .BRANCH_HALT
  clkr := {
    enable_reg := 0x703c
    enable_mask := BIT 0
    hw_init := {
      name := "cam_cc_ipe_0_ahb_clk"
      parent_hws := [.rcg .cam_cc_slow_ahb_clk_src]
      num_parents := 1
      flags := [.CLK_SET_RATE_PARENT]
      ops := .clk_branch2_ops
    }
  }
}

def cam_cc_ipe_0_areg_clk : clk_branch Hw := {
  halt_reg := 0x7038
  halt_check := .BRANCH_HALT
  clkr := {
    enable_reg := 0x7038
    enable_mask := BIT 0
    hw_init := {
      name := "cam_cc_ipe_0_areg_clk"
      parent_hws := [.rcg .cam_cc_fast_ahb_clk_src]
      num_parents := 1
      flags := [.CLK_SET_RATE_PARENT]
      ops := .clk_branch2_ops
    }
  }
}

def cam_cc_ipe_0_axi_clk : clk_branch Hw := {
  halt_reg := 0x7034
  halt_check := .BRANCH_HALT
  clkr := {
    enable_reg := 0x7034
    enable_mask := BIT 0
    hw_init := {
      name := "cam_cc_ipe_0_axi_clk"
      ops := .clk_branch2_ops
    }
  }
}

def cam_cc_ipe_0_clk : clk_branch Hw := {
  halt_reg := 0x7024
  halt_check := .BRANCH_HALT
  clkr := {
    enable_reg := 0x7024
    enable_mask := BIT 0
    hw_init := {
      name := "cam_cc_ipe_0_clk"
      parent_hws := [.rcg .cam_cc_ipe_0_clk_src]
      num_parents := 1
      flags := [.CLK_SET_RATE_PARENT]
      ops := .clk_branch2_ops
    }
  }
}

def cam_cc_ipe_1_ahb_clk : clk_branch Hw := {
  halt_reg := 0x803c
  halt_check := .BRANCH_HALT
  clkr := {
    enable_reg := 0x803c
    enable_mask := BIT 0
    hw_init := {
      name := "cam_cc_ipe_1_ahb_clk"
      parent_hws := [.rcg .cam_cc_slow_ahb_clk_src]
      num_parents := 1
      flags := [.CLK_SET_RATE_PARENT]
      ops := .clk_branch2_ops
    }
  }
}

def cam_cc_ipe_1_areg_clk : clk_branch Hw := {
  halt_reg := 0x8038
  halt_check := .BRANCH_HALT
  clkr := {
    enable_reg := 0x8038
    enable_mask := BIT 0
    hw_init := {
      name := "cam_cc_ipe_1_areg_clk"
      parent_hws := [.rcg .cam_cc_fast_ahb_clk_src]
      num_parents := 1
      flags := [.CLK_SET_RATE_PARENT]
      ops := .clk_branch2_ops
    }
  }
}

def cam_cc_ipe_1_axi_clk : clk_branch Hw := {
  halt_reg := 0x8034
  halt_check := .BRANCH_HALT
  clkr := {
    enable_reg := 0x8034
    enable_mask := BIT 0
    hw_init := {
      name := "cam_cc_ipe_1_axi_clk"
      ops := .clk_branch2_ops
    }
  }
}

def cam_cc_ipe_1_clk : clk_branch Hw := {
  halt_reg := 0x8024
  halt_check := .BRANCH_HALT
  clkr := {
    enable_reg := 0x8024
    enable_mask := BIT 0
    hw_init := {
      name := "cam_cc_ipe_1_clk"
      parent_hws := [.rcg .cam_cc_ipe_1_clk_src]
      num_parents := 1
      flags := [.CLK_SET_RATE_PARENT]
      ops := .clk_branch2_ops
    }
  }
}

def cam_cc_jpeg_clk : clk_branch Hw := {
  halt_reg := 0xb064
  halt_check := .BRANCH_HALT
  clkr := {
    enable_reg := 0xb064
    enable_mask := BIT 0
    hw_init := {
      name := "cam_cc_jpeg_clk"
      parent_hws := [.rcg .cam_cc_jpeg_clk_src]
      num_parents := 1
      flags := [.CLK_SET_RATE_PARENT]
      ops := .clk_branch2_ops
    }
  }
}

def cam_cc_lrme_clk : clk_branch Hw := {
  halt_reg := 0xb110
  halt_check := .BRANCH_HALT
  clkr := {
    enable_reg := 0xb110
    enable_mask := BIT 0
    hw_init := {
      name := "cam_cc_lrme_clk"
      parent_hws := [.rcg .cam_cc_lrme_clk_src]
      num_parents := 1
      flags := [.CLK_SET_RATE_PARENT]
      ops := .clk_branch2_ops
    }
  }
}

def cam_cc_mclk0_clk : clk_branch Hw := {
  halt_reg := 0x401c
  halt_check := .BRANCH_HALT
  clkr := {
    enable_reg := 0x401c
    enable_mask := BIT 0
    hw_init := {
      name := "cam_cc_mclk0_clk"
      parent_hws := [.rcg .cam_cc_mclk0_clk_src]
      num_parents := 1
      flags := [.CLK_SET_RATE_PARENT]
      ops := .clk_branch2_ops
    }
  }
}

def cam_cc_mclk1_clk : clk_branch Hw := {
  halt_reg := 0x403c
  halt_check := .BRANCH_HALT
  clkr := {
    enable_reg := 0x403c
    enable_mask := BIT 0
    hw_init := {
      name := "cam_cc_mclk1_clk"
      parent_hws := [.rcg .cam_cc_mclk1_clk_src]
      num_parents := 1
      flags := [.CLK_SET_RATE_PARENT]
      ops := .clk_branch2_ops
    }
  }
}

def cam_cc_mclk2_clk : clk_branch Hw := {
  halt_reg := 0x405c
  halt_check := .BRANCH_HALT
  clkr := {
    enable_reg := 0x405c
    enable_mask := BIT 0
    hw_init := {
      name := "cam_cc_mclk2_clk"
      parent_hws := [.rcg .cam_cc_mclk2_clk_src]
      num_parents := 1
      flags := [.CLK_SET_RATE_PARENT]
      ops := .clk_branch2_ops
    }
  }
}

def cam_cc_mclk3_clk : clk_branch Hw := {
  halt_reg := 0x407c
  halt_check := .BRANCH_HALT
  clkr := {
    enable_reg := 0x407c
    enable_mask := BIT 0
    hw_init := {
      name := "cam_cc_mclk3_clk"
      parent_hws := [.rcg .cam_cc_mclk3_clk_src]
      num_parents := 1
      flags := [.CLK_SET_RATE_PARENT]
      ops := .clk_branch2_ops
    }
  }
}

def cam_cc_soc_ahb_clk : clk_branch Hw := {
  halt_reg := 0xb13c
  halt_check := .BRANCH_HALT
  clkr := {
    enable_reg := 0xb13c
    enable_mask := BIT 0
    hw_init := {
      name := "cam_cc_soc_ahb_clk"
      ops := .clk_branch2_ops
    }
  }
}

def cam_cc_sys_tmr_clk : clk_branch Hw := {
  halt_reg := 0xb0a8
  halt_check := .BRANCH_HALT
  clkr := {
    enable_reg := 0xb0a8
    enable_mask := BIT 0
    hw_init := {
      name := "cam_cc_sys_tmr_clk"
      ops := .clk_branch2_ops
    }
  }
}

def bps_gdsc : gdsc Gdsc := {
  gdscr := 0x6004
  flags := [ gdsc_flag.HW_CTRL, gdsc_flag.POLL_CFG_GDSCR ]
  pwrsts := .PWRSTS_OFF_ON
  pd := { name := "bps_gdsc" }
}

def ipe_0_gdsc : gdsc Gdsc := {
  gdscr := 0x7004
  flags := [ gdsc_flag.HW_CTRL, gdsc_flag.POLL_CFG_GDSCR ]
  pwrsts := .PWRSTS_OFF_ON
  pd := { name := "ipe_0_gdsc" }
}

def ipe_1_gdsc : gdsc Gdsc := {
  gdscr := 0x8004
  flags := [ gdsc_flag.HW_CTRL, gdsc_flag.POLL_CFG_GDSCR ]
  pwrsts := .PWRSTS_OFF_ON
  pd := { name := "ipe_1_gdsc" }
}

def ife_0_gdsc : gdsc Gdsc := {
  gdscr := 0x9004
  flags := [ gdsc_flag.POLL_CFG_GDSCR ]
  parent := some .titan_top_gdsc
  pwrsts := .PWRSTS_OFF_ON
  pd := { name := "ife_0_gdsc" }
}

def ife_1_gdsc : gdsc Gdsc := {
  gdscr := 0xa004
  flags := [ gdsc_flag.POLL_CFG_GDSCR ]
  parent := some .titan_top_gdsc
  pwrsts := .PWRSTS_OFF_ON
  pd := { name := "ife_1_gdsc" }
}

def titan_top_gdsc : gdsc Gdsc := {
  gdscr := 0xb134
  flags := [ gdsc_flag.POLL_CFG_GDSCR ]
  pwrsts := .PWRSTS_OFF_ON
  pd := { name := "titan_top_gdsc" }
}

def cam_cc_sdm845_regulators : List vdd_class := [.vdd_cx, .vdd_mx]

def cam_cc_sdm845_clocks : List Hw := [
  Hw.branch Branch.cam_cc_bps_ahb_clk,
  Hw.branch Branch.cam_cc_bps_areg_clk,
  Hw.branch Branch.cam_cc_bps_axi_clk,
  Hw.branch Branch.cam_cc_bps_clk,
  Hw.rcg Rcg.cam_cc_bps_clk_src,
  Hw.branch Branch.cam_cc_camnoc_atb_clk,
  Hw.branch Branch.cam_cc_camnoc_axi_clk,
  Hw.branch Branch.cam_cc_cci_clk,
  Hw.rcg Rcg.cam_cc_cci_clk_src,
  Hw.branch Branch.cam_cc_cpas_ahb_clk,
  Hw.rcg Rcg.cam_cc_cphy_rx_clk_src,
  Hw.branch Branch.cam_cc_csi0phytimer_clk,
  Hw.rcg Rcg.cam_cc_csi0phytimer_clk_src,
  Hw.branch Branch.cam_cc_csi1phytimer_clk,
  Hw.rcg Rcg.cam_cc_csi1phytimer_clk_src,
  Hw.branch Branch.cam_cc_csi2phytimer_clk,
  Hw.rcg Rcg.cam_cc_csi2phytimer_clk_src,
  Hw.branch Branch.cam_cc_csi3phytimer_clk,
  Hw.rcg Rcg.cam_cc_csi3phytimer_clk_src,
  Hw.branch Branch.cam_cc_csiphy0_clk,
  Hw.branch Branch.cam_cc_csiphy1_clk,
  Hw.branch Branch.cam_cc_csiphy2_clk,
  Hw.branch Branch.cam_cc_csiphy3_clk,
  Hw.rcg Rcg.cam_cc_fast_ahb_clk_src,
  Hw.branch Branch.cam_cc_fd_core_clk,
  Hw.rcg Rcg.cam_cc_fd_core_clk_src,
  Hw.branch Branch.cam_cc_fd_core_uar_clk,
  Hw.branch Branch.cam_cc_icp_apb_clk,
  Hw.branch Branch.cam_cc_icp_atb_clk,
  Hw.branch Branch.cam_cc_icp_clk,
  Hw.rcg Rcg.cam_cc_icp_clk_src,
  Hw.branch Branch.cam_cc_icp_cti_clk,
  Hw.branch Branch.cam_cc_icp_ts_clk,
  Hw.branch Branch.cam_cc_ife_0_axi_clk,
  Hw.branch Branch.cam_cc_ife_0_clk,
  Hw.rcg Rcg.cam_cc_ife_0_clk_src,
  Hw.branch Branch.cam_cc_ife_0_cphy_rx_clk,
  Hw.branch Branch.cam_cc_ife_0_csid_clk,
  Hw.rcg Rcg.cam_cc_ife_0_csid_clk_src,
  Hw.branch Branch.cam_cc_ife_0_dsp_clk,
  Hw.branch Branch.cam_cc_ife_1_axi_clk,
  Hw.branch Branch.cam_cc_ife_1_clk,
  Hw.rcg Rcg.cam_cc_ife_1_clk_src,
  Hw.branch Branch.cam_cc_ife_1_cphy_rx_clk,
  Hw.branch Branch.cam_cc_ife_1_csid_clk,
  Hw.rcg Rcg.cam_cc_ife_1_csid_clk_src,
  Hw.branch Branch.cam_cc_ife_1_dsp_clk,
  Hw.branch Branch.cam_cc_ife_lite_clk,
  Hw.rcg Rcg.cam_cc_ife_lite_clk_src,
  Hw.branch Branch.cam_cc_ife_lite_cphy_rx_clk,
  Hw.branch Branch.cam_cc_ife_lite_csid_clk,
  Hw.rcg Rcg.cam_cc_ife_lite_csid_clk_src,
  Hw.branch Branch.cam_cc_ipe_0_ahb_clk,
  Hw.branch Branch.cam_cc_ipe_0_areg_clk,
  Hw.branch Branch.cam_cc_ipe_0_axi_clk,
  Hw.branch Branch.cam_cc_ipe_0_clk,
  Hw.rcg Rcg.cam_cc_ipe_0_clk_src,
  Hw.branch Branch.cam_cc_ipe_1_ahb_clk,
  Hw.branch Branch.cam_cc_ipe_1_areg_clk,
  Hw.branch Branch.cam_cc_ipe_1_axi_clk,
  Hw.branch Branch.cam_cc_ipe_1_clk,
  Hw.rcg Rcg.cam_cc_ipe_1_clk_src,
  Hw.branch Branch.cam_cc_jpeg_clk,
  Hw.rcg Rcg.cam_cc_jpeg_clk_src,
  Hw.branch Branch.cam_cc_lrme_clk,
  Hw.rcg Rcg.cam_cc_lrme_clk_src,
  Hw.branch Branch.cam_cc_mclk0_clk,
  Hw.rcg Rcg.cam_cc_mclk0_clk_src,
  Hw.branch Branch.cam_cc_mclk1_clk,
  Hw.rcg Rcg.cam_cc_mclk1_clk_src,
  Hw.branch Branch.cam_cc_mclk2_clk,
  Hw.rcg Rcg.cam_cc_mclk2_clk_src,
  Hw.branch Branch.cam_cc_mclk3_clk,
  Hw.rcg Rcg.cam_cc_mclk3_clk_src,
  Hw.pll Pll.cam_cc_pll0,
  Hw.postdiv Postdiv.cam_cc_pll0_out_even,
  Hw.pll Pll.cam_cc_pll1,
  Hw.postdiv Postdiv.cam_cc_pll1_out_even,
  Hw.pll Pll.cam_cc_pll2,
  Hw.postdiv Postdiv.cam_cc_pll2_out_even,
  Hw.postdiv Postdiv.cam_cc_pll2_out_odd,
  Hw.pll Pll.cam_cc_pll3,
  Hw.postdiv Postdiv.cam_cc_pll3_out_even,
  Hw.rcg Rcg.cam_cc_slow_ahb_clk_src,
  Hw.branch Branch.cam_cc_soc_ahb_clk,
  Hw.branch Branch.cam_cc_sys_tmr_clk
]

def cam_cc_sdm845_resets : List qcom_reset_map := [
  ⟨0xb0d4⟩,
  ⟨0xb118⟩,
  ⟨0x5000⟩,
  ⟨0x5024⟩,
  ⟨0x5048⟩,
  ⟨0x4000⟩,
  ⟨0x4020⟩,
  ⟨0x4040⟩,
  ⟨0x4060⟩,
  ⟨0xb130⟩
]

def cam_cc_sdm845_gdscs : List Gdsc := [
  .bps_gdsc,
  .ipe_0_gdsc,
  .ipe_1_gdsc,
  .ife_0_gdsc,
  .ife_1_gdsc,
  .titan_top_gdsc
]

def cam_cc_sdm845_regmap_config : regmap_config := {
  reg_bits := 32
  reg_stride := 4
  val_bits := 32
  max_register := 0xd004
  fast_io := true
}

def cam_cc_sdm845_desc : qcom_cc_desc Hw Gdsc := {
  config := cam_cc_sdm845_regmap_config
  clks := cam_cc_sdm845_clocks
  num_clks := ARRAY_SIZE cam_cc_sdm845_clocks
  gdscs := some cam_cc_sdm845_gdscs
  num_gdscs := ARRAY_SIZE cam_cc_sdm845_gdscs
  resets := cam_cc_sdm845_resets
  num_resets := ARRAY_SIZE cam_cc_sdm845_resets
  clk_regulators := cam_cc_sdm845_regulators
  num_clk_regulators := ARRAY_SIZE cam_cc_sdm845_regulators
}

/-- Every frequency table the file declares. -/
def freq_tables : List (List freq_tbl) := [
  ftbl_cam_cc_bps_clk_src,
  ftbl_cam_cc_cci_clk_src,
  ftbl_cam_cc_cphy_rx_clk_src,
  ftbl_cam_cc_csi0phytimer_clk_src,
  ftbl_cam_cc_fast_ahb_clk_src,
  ftbl_cam_cc_fd_core_clk_src,
  ftbl_cam_cc_icp_clk_src,
  ftbl_cam_cc_icp_clk_src_sdm670,
  ftbl_cam_cc_ife_0_clk_src,
  ftbl_cam_cc_ife_0_csid_clk_src,
  ftbl_cam_cc_ipe_0_clk_src,
  ftbl_cam_cc_lrme_clk_src,
  ftbl_cam_cc_lrme_clk_src_sdm670,
  ftbl_cam_cc_mclk0_clk_src,
  ftbl_cam_cc_slow_ahb_clk_src
]

/-- Every parent map the file declares, with the parent list of the same number. -/
def parent_tables : List (List parent_map × List (clk_parent_data Hw)) := [
  (cam_cc_parent_map_0, cam_cc_parent_data_0),
  (cam_cc_parent_map_1, cam_cc_parent_data_1)
]

/-- The static clock structures of the camera clock controller, the state the
fixup and the clock framework work on. -/
structure clocks where
  pll : Pll → clk_alpha_pll Hw
  postdiv : Postdiv → clk_alpha_pll_postdiv Hw
  rcg : Rcg → clk_rcg2 Hw
  branch : Branch → clk_branch Hw

/-- The clock structures as their static initialisers leave them: the sdm845
tables. -/
def initial : clocks where
  pll := fun
    | .cam_cc_pll0 => cam_cc_pll0
    | .cam_cc_pll1 => cam_cc_pll1
    | .cam_cc_pll2 => cam_cc_pll2
    | .cam_cc_pll3 => cam_cc_pll3
  postdiv := fun
    | .cam_cc_pll0_out_even => cam_cc_pll0_out_even
    | .cam_cc_pll1_out_even => cam_cc_pll1_out_even
    | .cam_cc_pll2_out_even => cam_cc_pll2_out_even
    | .cam_cc_pll2_out_odd => cam_cc_pll2_out_odd
    | .cam_cc_pll3_out_even => cam_cc_pll3_out_even
  rcg := fun
    | .cam_cc_bps_clk_src => cam_cc_bps_clk_src
    | .cam_cc_cci_clk_src => cam_cc_cci_clk_src
    | .cam_cc_cphy_rx_clk_src => cam_cc_cphy_rx_clk_src
    | .cam_cc_csi0phytimer_clk_src => cam_cc_csi0phytimer_clk_src
    | .cam_cc_csi1phytimer_clk_src => cam_cc_csi1phytimer_clk_src
    | .cam_cc_csi2phytimer_clk_src => cam_cc_csi2phytimer_clk_src
    | .cam_cc_csi3phytimer_clk_src => cam_cc_csi3phytimer_clk_src
    | .cam_cc_fast_ahb_clk_src => cam_cc_fast_ahb_clk_src
    | .cam_cc_fd_core_clk_src => cam_cc_fd_core_clk_src
    | .cam_cc_icp_clk_src => cam_cc_icp_clk_src
    | .cam_cc_ife_0_clk_src => cam_cc_ife_0_clk_src
    | .cam_cc_ife_0_csid_clk_src => cam_cc_ife_0_csid_clk_src
    | .cam_cc_ife_1_clk_src => cam_cc_ife_1_clk_src
    | .cam_cc_ife_1_csid_clk_src => cam_cc_ife_1_csid_clk_src
    | .cam_cc_ife_lite_clk_src => cam_cc_ife_lite_clk_src
    | .cam_cc_ife_lite_csid_clk_src => cam_cc_ife_lite_csid_clk_src
    | .cam_cc_ipe_0_clk_src => cam_cc_ipe_0_clk_src
    | .cam_cc_ipe_1_clk_src => cam_cc_ipe_1_clk_src
    | .cam_cc_jpeg_clk_src => cam_cc_jpeg_clk_src
    | .cam_cc_lrme_clk_src => cam_cc_lrme_clk_src
    | .cam_cc_mclk0_clk_src => cam_cc_mclk0_clk_src
    | .cam_cc_mclk1_clk_src => cam_cc_mclk1_clk_src
    | .cam_cc_mclk2_clk_src => cam_cc_mclk2_clk_src
    | .cam_cc_mclk3_clk_src => cam_cc_mclk3_clk_src
    | .cam_cc_slow_ahb_clk_src => cam_cc_slow_ahb_clk_src
  branch := fun
    | .cam_cc_bps_ahb_clk => cam_cc_bps_ahb_clk
    | .cam_cc_bps_areg_clk => cam_cc_bps_areg_clk
    | .cam_cc_bps_axi_clk => cam_cc_bps_axi_clk
    | .cam_cc_bps_clk => cam_cc_bps_clk
    | .cam_cc_camnoc_atb_clk => cam_cc_camnoc_atb_clk
    | .cam_cc_camnoc_axi_clk => cam_cc_camnoc_axi_clk
    | .cam_cc_cci_clk => cam_cc_cci_clk
    | .cam_cc_cpas_ahb_clk => cam_cc_cpas_ahb_clk
    | .cam_cc_csi0phytimer_clk => cam_cc_csi0phytimer_clk
    | .cam_cc_csi1phytimer_clk => cam_cc_csi1phytimer_clk
    | .cam_cc_csi2phytimer_clk => cam_cc_csi2phytimer_clk
    | .cam_cc_csi3phytimer_clk => cam_cc_csi3phytimer_clk
    | .cam_cc_csiphy0_clk => cam_cc_csiphy0_clk
    | .cam_cc_csiphy1_clk => cam_cc_csiphy1_clk
    | .cam_cc_csiphy2_clk => cam_cc_csiphy2_clk
    | .cam_cc_csiphy3_clk => cam_cc_csiphy3_clk
    | .cam_cc_fd_core_clk => cam_cc_fd_core_clk
    | .cam_cc_fd_core_uar_clk => cam_cc_fd_core_uar_clk
    | .cam_cc_icp_apb_clk => cam_cc_icp_apb_clk
    | .cam_cc_icp_atb_clk => cam_cc_icp_atb_clk
    | .cam_cc_icp_clk => cam_cc_icp_clk
    | .cam_cc_icp_cti_clk => cam_cc_icp_cti_clk
    | .cam_cc_icp_ts_clk => cam_cc_icp_ts_clk
    | .cam_cc_ife_0_axi_clk => cam_cc_ife_0_axi_clk
    | .cam_cc_ife_0_clk => cam_cc_ife_0_clk
    | .cam_cc_ife_0_cphy_rx_clk => cam_cc_ife_0_cphy_rx_clk
    | .cam_cc_ife_0_csid_clk => cam_cc_ife_0_csid_clk
    | .cam_cc_ife_0_dsp_clk => cam_cc_ife_0_dsp_clk
    | .cam_cc_ife_1_axi_clk => cam_cc_ife_1_axi_clk
    | .cam_cc_ife_1_clk => cam_cc_ife_1_clk
    | .cam_cc_ife_1_cphy_rx_clk => cam_cc_ife_1_cphy_rx_clk
    | .cam_cc_ife_1_csid_clk => cam_cc_ife_1_csid_clk
    | .cam_cc_ife_1_dsp_clk => cam_cc_ife_1_dsp_clk
    | .cam_cc_ife_lite_clk => cam_cc_ife_lite_clk
    | .cam_cc_ife_lite_cphy_rx_clk => cam_cc_ife_lite_cphy_rx_clk
    | .cam_cc_ife_lite_csid_clk => cam_cc_ife_lite_csid_clk
    | .cam_cc_ipe_0_ahb_clk => cam_cc_ipe_0_ahb_clk
    | .cam_cc_ipe_0_areg_clk => cam_cc_ipe_0_areg_clk
    | .cam_cc_ipe_0_axi_clk => cam_cc_ipe_0_axi_clk
    | .cam_cc_ipe_0_clk => cam_cc_ipe_0_clk
    | .cam_cc_ipe_1_ahb_clk => cam_cc_ipe_1_ahb_clk
    | .cam_cc_ipe_1_areg_clk => cam_cc_ipe_1_areg_clk
    | .cam_cc_ipe_1_axi_clk => cam_cc_ipe_1_axi_clk
    | .cam_cc_ipe_1_clk => cam_cc_ipe_1_clk
    | .cam_cc_jpeg_clk => cam_cc_jpeg_clk
    | .cam_cc_lrme_clk => cam_cc_lrme_clk
    | .cam_cc_mclk0_clk => cam_cc_mclk0_clk
    | .cam_cc_mclk1_clk => cam_cc_mclk1_clk
    | .cam_cc_mclk2_clk => cam_cc_mclk2_clk
    | .cam_cc_mclk3_clk => cam_cc_mclk3_clk
    | .cam_cc_soc_ahb_clk => cam_cc_soc_ahb_clk
    | .cam_cc_sys_tmr_clk => cam_cc_sys_tmr_clk

/-- The statement `r.freq_tbl = t;`. -/
def set_freq_tbl (r : Rcg) (t : List freq_tbl) (s : clocks) : clocks :=
  { s with rcg := fun x => if x = r then rcg2_assign_freq_tbl (s.rcg x) t else s.rcg x }

/-- The statement `r.clkr.vdd_data.rate_max[lvl] = v;`. -/
def set_rate_max (r : Rcg) (lvl v : Nat) (s : clocks) : clocks :=
  { s with rcg := fun x => if x = r then rcg2_assign_rate_max (s.rcg x) lvl v else s.rcg x }

/-- The sdm670 fixup of the camera controller, one step per C statement. -/
def cam_cc_sdm845_fixup_sdm670 (s : clocks) : clocks :=
  s
  |> set_rate_max .cam_cc_cphy_rx_clk_src VDD_LOWER 384000000
  |> set_rate_max .cam_cc_cphy_rx_clk_src VDD_LOW 384000000
  |> set_rate_max .cam_cc_fd_core_clk_src VDD_LOWER 384000000
  |> set_freq_tbl .cam_cc_icp_clk_src ftbl_cam_cc_icp_clk_src_sdm670
  |> set_rate_max .cam_cc_icp_clk_src VDD_LOWER 384000000
  |> set_rate_max .cam_cc_icp_clk_src VDD_LOW_L1 600000000
  |> set_rate_max .cam_cc_ipe_0_clk_src VDD_NOMINAL 600000000
  |> set_rate_max .cam_cc_ipe_1_clk_src VDD_NOMINAL 600000000
  |> set_freq_tbl .cam_cc_lrme_clk_src ftbl_cam_cc_lrme_clk_src_sdm670
  |> set_rate_max .cam_cc_lrme_clk_src VDD_LOW 269333333
  |> set_rate_max .cam_cc_lrme_clk_src VDD_LOW_L1 320000000
  |> set_rate_max .cam_cc_lrme_clk_src VDD_NOMINAL 400000000
  |> set_rate_max .cam_cc_slow_ahb_clk_src VDD_LOWER 80000000
  |> set_rate_max .cam_cc_slow_ahb_clk_src VDD_LOW 80000000
  |> set_rate_max .cam_cc_slow_ahb_clk_src VDD_LOW_L1 80000000

/-- The tables of the camera controller for a hardware variant: the static
tables for sdm845, the tables after the fixup for sdm670. -/
def variant (sdm670 : Bool) : clocks :=
  if sdm670 then cam_cc_sdm845_fixup_sdm670 initial else initial

/-- The RCGs the camera fixup names. -/
def fixup_rcgs : List Rcg := [
  .cam_cc_cphy_rx_clk_src,
  .cam_cc_fd_core_clk_src,
  .cam_cc_icp_clk_src,
  .cam_cc_ipe_0_clk_src,
  .cam_cc_ipe_1_clk_src,
  .cam_cc_lrme_clk_src,
  .cam_cc_slow_ahb_clk_src
]

/-- The registration data of a clock of the controller. -/
def hw_init (s : clocks) : Hw → clk_init_data Hw
  | .pll c => (s.pll c).clkr.hw_init
  | .postdiv c => (s.postdiv c).clkr.hw_init
  | .rcg c => (s.rcg c).clkr.hw_init
  | .branch c => (s.branch c).clkr.hw_init

/-- The corner ceilings of a clock of the controller. -/
def rate_max_of (s : clocks) : Hw → List Nat
  | .pll c => (s.pll c).clkr.vdd_data.rate_max
  | .postdiv c => (s.postdiv c).clkr.vdd_data.rate_max
  | .rcg c => (s.rcg c).clkr.vdd_data.rate_max
  | .branch c => (s.branch c).clkr.vdd_data.rate_max

/-- The level of a clock in the parent graph, by kind. -/
def level : Hw → Nat
  | .pll _ => 0
  | .postdiv _ => 1
  | .rcg _ => 2
  | .branch _ => 3

/-- What a probe leaves behind: its return value, the clock structures, the
description, and the calls it made, in order. -/
structure probe_result where
  ret : Int
  clks : clocks
  desc : qcom_cc_desc Hw Gdsc
  calls : List (probe_call Hw Pll (qcom_cc_desc Hw Gdsc))

/-- The probe `cam_cc_sdm845_probe`, started on the clock structures `clks` and
the description `desc`. -/
def cam_cc_sdm845_probe (env : probe_env) (clks : clocks) (desc : qcom_cc_desc Hw Gdsc) :
    probe_result :=
  let cam_cc_pll_config : alpha_pll_config := { }
  let sdm670 := env.sdm670
  let calls : List (probe_call Hw Pll (qcom_cc_desc Hw Gdsc)) := [.qcom_cc_map]
  match env.map_err with
  | some err => { ret := err, clks := clks, desc := desc, calls := calls }
  | none =>
    let calls := if sdm670 then calls ++ [.fixup_sdm670] else calls
    let clks := if sdm670 then cam_cc_sdm845_fixup_sdm670 clks else clks
    let desc := { desc with gdscs := none }
    let desc := { desc with num_gdscs := 0 }
    let cam_cc_pll_config := { cam_cc_pll_config with l := 0x1f }
    let cam_cc_pll_config := { cam_cc_pll_config with alpha := 0x4000 }
    let calls := calls ++ [.clk_fabia_pll_configure .cam_cc_pll0 cam_cc_pll_config]
    let cam_cc_pll_config := { cam_cc_pll_config with l := 0x2a }
    let cam_cc_pll_config := { cam_cc_pll_config with alpha := 0x1555 }
    let calls := calls ++ [.clk_fabia_pll_configure .cam_cc_pll1 cam_cc_pll_config]
    let cam_cc_pll_config := { cam_cc_pll_config with l := 0x32 }
    let cam_cc_pll_config := { cam_cc_pll_config with alpha := 0x0 }
    let calls := calls ++ [.clk_fabia_pll_configure .cam_cc_pll2 cam_cc_pll_config]
    let cam_cc_pll_config := { cam_cc_pll_config with l := 0x14 }
    let calls := calls ++ [.clk_fabia_pll_configure .cam_cc_pll3 cam_cc_pll_config]
    let calls := calls ++ [.qcom_cc_really_probe desc]
    let ret := env.really_probe_ret
    { ret := ret, clks := clks, desc := desc, calls := calls }

end camcc_sdm845

/-! ## Rates, dividers, registers and probe traces -/

/-- The rate rounded to the nearest MHz (halves round up). -/
def nearest_mhz (rate : ℚ) : ℤ :=
  ⌊rate / 1000000 + 1 / 2⌋

/-- The two rates differ by at most `tol`. -/
def rate_within (tol rate target : ℚ) : Prop :=
  |rate - target| ≤ tol

/-- The entries of a divider table up to its terminator, the entry with a zero
divisor, as the kernel walks it (`for (; clkt->div; clkt++)`). -/
def div_table_entries (t : List clk_div_table) : List clk_div_table :=
  t.takeWhile (fun e => e.div != 0)

/-- The divisors a divider table offers, terminator excluded. -/
def div_table_divisors (t : List clk_div_table) : List Nat :=
  (div_table_entries t).map (fun e => e.div)

/-- Every register value of the table fits a field of `width` bits. -/
def div_table_fits (t : List clk_div_table) (width : Nat) : Prop :=
  ∀ e ∈ div_table_entries t, e.val < 2 ^ width

instance (t : List clk_div_table) (width : Nat) : Decidable (div_table_fits t width) := by
  unfold div_table_fits; infer_instance

/-- The register offset is a multiple of 4 inside the window `[0, max_register]`
of the register map. -/
def reg_ok (config : regmap_config) (reg : Nat) : Prop :=
  reg % 4 = 0 ∧ reg ≤ config.max_register

instance (config : regmap_config) (reg : Nat) : Decidable (reg_ok config reg) := by
  unfold reg_ok; infer_instance

/-- The registers a probe writes directly with `regmap_update_bits`, in call
order. -/
def probe_written_regs {H P D : Type} (calls : List (probe_call H P D)) : List Nat :=
  calls.filterMap fun c =>
    match c with
    | .regmap_update_bits reg _ _ => some reg
    | _ => none

/-- The descriptions a probe hands to `qcom_cc_really_probe`, in call order. -/
def registered_descs {H P D : Type} (calls : List (probe_call H P D)) : List D :=
  calls.filterMap fun c =>
    match c with
    | .qcom_cc_really_probe d => some d
    | _ => none

/-- The call registers clocks: `devm_clk_hw_register` or `qcom_cc_really_probe`. -/
def is_registration {H P D : Type} (c : probe_call H P D) : Bool :=
  match c with
  | .devm_clk_hw_register _ => true
  | .qcom_cc_really_probe _ => true
  | _ => false

/-- The call is the sdm670 fixup. -/
def is_fixup {H P D : Type} (c : probe_call H P D) : Bool :=
  match c with
  | .fixup_sdm670 => true
  | _ => false

/-- How often a probe applies the fixup. -/
def fixup_count {H P D : Type} (calls : List (probe_call H P D)) : Nat :=
  calls.countP is_fixup

/-- The clock registrations a probe makes before it first applies the fixup (all
of its registrations when it never does). -/
def registrations_before_fixup {H P D : Type} (calls : List (probe_call H P D)) :
    List (probe_call H P D) :=
  (calls.takeWhile (fun c => !is_fixup c)).filter is_registration

/-- The clock registrations a probe makes after it first applies the fixup. -/
def registrations_after_fixup {H P D : Type} (calls : List (probe_call H P D)) :
    List (probe_call H P D) :=
  (calls.dropWhile (fun c => !is_fixup c)).filter is_registration

/-- The largest rate of a list, zero for the empty list. -/
def table_max (rates : List Nat) : Nat :=
  rates.foldr max 0

/-- Modelled from the spec: the frequency-table lookup of the rate engine, whose
code (clk-rcg2.c, common.c) is not under src/.  The engine walks the table in
order and takes the first entry whose rate is at least the request ("round
up"); when no entry is, it takes the last entry ("clamp, never extrapolate").
An empty table gives nothing. -/
def find_freq (t : List freq_tbl) (rate : Nat) : Option freq_tbl :=
  match (freq_tbl_entries t).find? (fun f => decide (rate ≤ f.freq)) with
  | some f => some f
  | none => (freq_tbl_entries t).getLast?

/-- The divider `h` of a frequency-table entry, decoded from `pre_div = 2h - 1`. -/
def freq_tbl_divider (f : freq_tbl) : ℚ :=
  ((f.pre_div : ℚ) + 1) / 2

/-- Modelled from the spec: the rate an RCG that follows its parent's rate asks
of the parent it selects for a table entry, `table_entry.rate * divider`, times
`n / m` when the entry has an M/N fraction; the code (clk-rcg2.c) is not under
src/. -/
def rcg2_parent_request (f : freq_tbl) : ℚ :=
  (f.freq : ℚ) * freq_tbl_divider f * (if f.n = 0 then 1 else (f.n : ℚ) / (f.m : ℚ))

/-- Modelled from the spec: the rate a fixed factor `mult / div` that follows
its parent's rate asks of its parent for a requested rate,
`rate * div / mult`; the code (clk-fixed-factor.c) is not under src/. -/
def fixed_factor_parent_request {H : Type} (c : clk_fixed_factor H) (rate : ℚ) : ℚ :=
  rate * (c.div : ℚ) / (c.mult : ℚ)

namespace camcc_sdm845

/-- The power domain structure of each power domain of the controller. -/
def gdsc_of : Gdsc → gdsc Gdsc
  | .bps_gdsc => bps_gdsc
  | .ipe_0_gdsc => ipe_0_gdsc
  | .ipe_1_gdsc => ipe_1_gdsc
  | .ife_0_gdsc => ife_0_gdsc
  | .ife_1_gdsc => ife_1_gdsc
  | .titan_top_gdsc => titan_top_gdsc

end camcc_sdm845

namespace dispcc_sdm845

/-- The power domain structure of the power domain of the controller. -/
def gdsc_of : Gdsc → gdsc Gdsc
  | .mdss_gdsc => mdss_gdsc

end dispcc_sdm845

namespace gpucc_sdm845

/-- The power domain structure of each power domain of the controller. -/
def gdsc_of : Gdsc → gdsc Gdsc
  | .gpu_cx_gdsc => gpu_cx_gdsc
  | .gpu_gx_gdsc => gpu_gx_gdsc

end gpucc_sdm845

/-- The round-up rule of the spec for a table with rates `rates`, a request
`req` and the selected rate `sel`: `sel` is a rate of the table; when the
request is at most the largest rate, `sel` is the smallest rate that is at
least the request; when the request exceeds the largest rate, `sel` is the
largest rate. -/
def is_round_up_choice (rates : List Nat) (req sel : Nat) : Prop :=
  sel ∈ rates
  ∧ (req ≤ table_max rates → req ≤ sel ∧ ∀ u ∈ rates, req ≤ u → sel ≤ u)
  ∧ (table_max rates < req → sel = table_max rates)

/-! ## Masked updates, table sources and hardware fields -/

/-- Modelled from the spec: the read-modify-write of the Register Access Port,
`regmap_update_bits`, whose code (drivers/base/regmap) is not under src/.  Of
the 32-bit register `reg`, the bits inside `mask` take the bits of `val` and
the bits outside keep their value; no other register changes. -/
def regmap_update_bits (map : Nat → Nat) (reg mask val : Nat) : Nat → Nat :=
  fun r => if r = reg then (map r &&& (0xffffffff ^^^ mask)) ||| (val &&& mask) else map r

/-- The register map after the masked updates of a probe, made in call order on
the register map `map`. -/
def probe_masked_updates {H P D : Type} (calls : List (probe_call H P D)) (map : Nat → Nat) :
    Nat → Nat :=
  calls.foldl (fun m c =>
    match c with
    | .regmap_update_bits reg mask val => regmap_update_bits m reg mask val
    | _ => m) map

/-- The field of `width` bits that starts at bit `shift` of a register value. -/
def reg_field (v shift width : Nat) : Nat :=
  (v >>> shift) % 2 ^ width

/-- Modelled from the spec: the lookup of a source in the parent-selector map of
an RCG (`qcom_find_src_index`, common.c, not under src/), which walks the map
in order and gives the index of the first entry naming source `src`, whose
`cfg` is the mux code; nothing when no entry names it. -/
def qcom_find_src_index (map : List parent_map) (src : Nat) : Option Nat :=
  map.findIdx? (fun e => e.src == src)

/-- Every entry of the active frequency table of the RCG names a source that
appears in the parent map of the RCG. -/
def table_sources_in_parent_map {H : Type} (c : clk_rcg2 H) : Prop :=
  ∀ f ∈ freq_tbl_entries (active_freq_tbl c), ∃ e ∈ c.parent_map, e.src = f.src

instance {H : Type} (c : clk_rcg2 H) : Decidable (table_sources_in_parent_map c) := by
  unfold table_sources_in_parent_map; infer_instance

/-- The lookup of the mux code succeeds for every entry of the active frequency
table of the RCG. -/
def table_sources_found {H : Type} (c : clk_rcg2 H) : Prop :=
  ∀ f ∈ freq_tbl_entries (active_freq_tbl c), (qcom_find_src_index c.parent_map f.src).isSome

instance {H : Type} (c : clk_rcg2 H) : Decidable (table_sources_found c) := by
  unfold table_sources_found; infer_instance

/-- The frequency-table entry fits the fields of the RCG.  The encoded divider
`pre_div = 2h - 1` lies between 1 and 31 and fits the `hid_width` bits of the
divider field; an entry with an M/N fraction needs an M/N counter
(`mnd_width > 0`), `m < n`, and `n` below `2 ^ mnd_width`. -/
def freq_tbl_entry_fits {H : Type} (c : clk_rcg2 H) (f : freq_tbl) : Prop :=
  1 ≤ f.pre_div ∧ f.pre_div ≤ 31 ∧ f.pre_div < 2 ^ c.hid_width
    ∧ ((f.m ≠ 0 ∨ f.n ≠ 0) → 0 < c.mnd_width ∧ f.m < f.n ∧ f.n < 2 ^ c.mnd_width)

instance {H : Type} (c : clk_rcg2 H) (f : freq_tbl) : Decidable (freq_tbl_entry_fits c f) := by
  unfold freq_tbl_entry_fits; infer_instance

/-- Every entry of the active frequency table fits the fields of the RCG, whose
divider field is 5 bits wide. -/
def freq_tbl_fits {H : Type} (c : clk_rcg2 H) : Prop :=
  c.hid_width = 5 ∧ ∀ f ∈ freq_tbl_entries (active_freq_tbl c), freq_tbl_entry_fits c f

instance {H : Type} (c : clk_rcg2 H) : Decidable (freq_tbl_fits c) := by
  unfold freq_tbl_fits; infer_instance

/-- The RCG parks on XO through the shared operations, with `enable_safe_config`
unset. -/
def parks_by_shared_ops {H : Type} (c : clk_rcg2 H) : Prop :=
  c.clkr.hw_init.ops = clk_ops.clk_rcg2_shared_ops ∧ c.enable_safe_config = false

/-- The RCG uses the plain operations and switches to the safe configuration,
`enable_safe_config = true`. -/
def parks_by_safe_config {H : Type} (c : clk_rcg2 H) : Prop :=
  c.clkr.hw_init.ops = clk_ops.clk_rcg2_ops ∧ c.enable_safe_config = true

instance {H : Type} (c : clk_rcg2 H) : Decidable (parks_by_shared_ops c) := by
  unfold parks_by_shared_ops; infer_instance

instance {H : Type} (c : clk_rcg2 H) : Decidable (parks_by_safe_config c) := by
  unfold parks_by_safe_config; infer_instance

/-- The branch reports its state in the register that enables it, and is enabled
by bit 0 of that register. -/
def branch_halt_is_enable {H : Type} (b : clk_branch H) : Prop :=
  b.halt_reg = b.clkr.enable_reg ∧ b.clkr.enable_mask = BIT 0

instance {H : Type} (b : clk_branch H) : Decidable (branch_halt_is_enable b) := by
  unfold branch_halt_is_enable; infer_instance

/-! ## Output rates of the camera sources -/

/-- The parent an RCG pairs with source `src`: entry `i` of the parent list goes
with entry `i` of the parent map. -/
def parent_of_source {H : Type} (c : clk_rcg2 H) (src : Nat) : Option (clk_parent_data H) :=
  (qcom_find_src_index c.parent_map src).bind fun i => c.clkr.hw_init.parent_data[i]?

/-- The configuration a probe leaves in PLL `q`: the last one it writes to it. -/
def configured {P : Type} [DecidableEq P] (configs : List (P × alpha_pll_config)) (q : P) :
    Option alpha_pll_config :=
  (configs.reverse.find? (fun x => decide (x.1 = q))).map (fun x => x.2)

/-- The whole-number form of `|a / b - c / d| ≤ tol` for positive `b` and `d`. -/
def within_cross (tol a b c d : Nat) : Prop :=
  0 < b ∧ 0 < d ∧ a * d ≤ c * b + tol * b * d ∧ c * b ≤ a * d + tol * b * d

instance (tol a b c d : Nat) : Decidable (within_cross tol a b c d) := by
  unfold within_cross; infer_instance

/-- Numerator and denominator of `rcg2_parent_request`. -/
def parent_request_frac (f : freq_tbl) : Nat × Nat :=
  (f.freq * (f.pre_div + 1) * (if f.n = 0 then 1 else f.n), 2 * (if f.n = 0 then 1 else f.m))

namespace camcc_sdm845

/-- What a parent of a camera RCG is fed from: the reference clock, or output
`out` of PLL `pll`. -/
inductive rate_source where
  | reference
  | pll_output (pll : Pll) (out : Postdiv)
deriving DecidableEq, Repr

/-- The clock behind source `src` of the RCG `c`: the parent the RCG pairs with
the source, which is the reference bi_tcxo or a post-divider, whose single
parent is its PLL. -/
def source_of (s : clocks) (c : clk_rcg2 Hw) (src : Nat) : Option rate_source :=
  match parent_of_source c src with
  | none => none
  | some e =>
    match e.hw with
    | some (.postdiv p) =>
      match (s.postdiv p).clkr.hw_init.parent_hws with
      | [.pll q] => some (.pll_output q p)
      | _ => none
    | some _ => none
    | none => if e.fw_name = some "bi_tcxo" then some .reference else none

/-- The output rate of a source: 19.2 MHz for the reference; for an output of a
PLL, the rate of the PLL as the probe configured it over the divisor the
post-divider stands at. -/
def output_rate (configs : List (Pll × alpha_pll_config)) (divisor : Postdiv → Nat) :
    rate_source → Option ℚ
  | .reference => some (BI_TCXO_RATE : ℚ)
  | .pll_output q p => (configured configs q).map fun cfg => alpha_pll_rate cfg / (divisor p : ℚ)

/-- Numerator and denominator of `output_rate`, `(0, 0)` where the probe did
not configure the PLL. -/
def output_rate_frac (configs : List (Pll × alpha_pll_config)) (divisor : Postdiv → Nat) :
    rate_source → Nat × Nat
  | .reference => (BI_TCXO_RATE, 1)
  | .pll_output q p =>
    match configured configs q with
    | some cfg => (BI_TCXO_RATE * (cfg.l * 2 ^ ALPHA_WIDTH + cfg.alpha), 2 ^ ALPHA_WIDTH * divisor p)
    | none => (0, 0)

/-- The whole-number check of a frequency-table entry against output rates
given as fractions by `frac`: the entry names a source of the RCG, and
`f * h * (n / m)` is within `tol` Hz of the rate of that source. -/
def entry_agrees (s : clocks) (frac : rate_source → Nat × Nat) (tol : Nat) (c : clk_rcg2 Hw)
    (f : freq_tbl) : Prop :=
  match source_of s c f.src with
  | some o => within_cross tol (parent_request_frac f).1 (parent_request_frac f).2
      (frac o).1 (frac o).2
  | none => False

instance (s : clocks) (frac : rate_source → Nat × Nat) (tol : Nat) (c : clk_rcg2 Hw)
    (f : freq_tbl) : Decidable (entry_agrees s frac tol c f) := by
  unfold entry_agrees
  cases source_of s c f.src <;> (dsimp only; infer_instance)

/-- Every entry of the active frequency table of the RCG passes `entry_agrees`. -/
def table_agrees (s : clocks) (frac : rate_source → Nat × Nat) (tol : Nat) (c : clk_rcg2 Hw) :
    Prop :=
  ∀ f ∈ freq_tbl_entries (active_freq_tbl c), entry_agrees s frac tol c f

instance (s : clocks) (frac : rate_source → Nat × Nat) (tol : Nat) (c : clk_rcg2 Hw) :
    Decidable (table_agrees s frac tol c) := by
  unfold table_agrees; infer_instance

end camcc_sdm845

/-! ## Control registers of the camera clocks -/

namespace camcc_sdm845

/-- The register a camera clock is controlled through: the base offset of the
register block of a PLL or of a post-divider, the command register of an RCG,
the enable register of a branch. -/
def control_reg (s : clocks) : Hw → Nat
  | .pll p => (s.pll p).offset
  | .postdiv p => (s.postdiv p).offset
  | .rcg r => (s.rcg r).cmd_rcgr
  | .branch b => (s.branch b).clkr.enable_reg

end camcc_sdm845

/-! ## The receive path of the USB Ethernet driver, `ax88179_178a.c` -/

namespace ax88179_178a

def AX_RXHDR_L4_TYPE_MASK : Nat := 0x1c
def AX_RXHDR_L4_TYPE_UDP : Nat := 4
def AX_RXHDR_L4_TYPE_TCP : Nat := 16
def AX_RXHDR_L3CSUM_ERR : Nat := 2
def AX_RXHDR_L4CSUM_ERR : Nat := 1
def AX_RXHDR_CRC_ERR : Nat := BIT 29
def AX_RXHDR_DROP_ERR : Nat := BIT 31

/-- The values of `skb->ip_summed` the receive path sets. -/
inductive ip_summed where
  | CHECKSUM_NONE
  | CHECKSUM_UNNECESSARY
deriving DecidableEq, Repr

/-- The checksum state `ax88179_rx_checksum` leaves in `skb->ip_summed` for the
packet header `pkt_hdr`. -/
def ax88179_rx_checksum (pkt_hdr : Nat) : ip_summed :=
  if pkt_hdr &&& AX_RXHDR_L3CSUM_ERR ≠ 0 ∨ pkt_hdr &&& AX_RXHDR_L4CSUM_ERR ≠ 0 then
    .CHECKSUM_NONE
  else if pkt_hdr &&& AX_RXHDR_L4_TYPE_MASK = AX_RXHDR_L4_TYPE_TCP
      ∨ pkt_hdr &&& AX_RXHDR_L4_TYPE_MASK = AX_RXHDR_L4_TYPE_UDP then
    .CHECKSUM_UNNECESSARY
  else
    .CHECKSUM_NONE

/-- The receive descriptor as `ax88179_rx_fixup` reads it: `head` gives the byte
at each offset from `desc->head` (the receive buffer and the memory around
it), `actual_length` is `desc->urb->actual_length`, a u32. -/
structure rx_desc where
  head : Int → Nat
  actual_length : Nat

/-- The counters of `struct net_device_stats` the receive path touches. -/
structure net_device_stats where
  rx_length_errors : Nat := 0
  rx_crc_errors : Nat := 0
  rx_dropped : Nat := 0
  rx_packets : Nat := 0
  rx_bytes : Nat := 0
deriving DecidableEq, Repr

/-- A packet copied out of the receive buffer by
`memcpy(skb->data, rx_data, pkt_len)`: `start` is the offset of `rx_data` from
`desc->head`, `len` is `pkt_len`. -/
structure sk_buff where
  start : Nat
  len : Nat
  ip_summed : ip_summed
deriving DecidableEq, Repr

/-- What `ax88179_rx_fixup` leaves behind: `desc->urb->actual_length`, the
counters, `*work_done`, the packets handed to `napi_gro_receive` and those
put on `axdev->rx_queue`, and every packet copied out, each in order. -/
structure rx_state where
  actual_length : Nat
  stats : net_device_stats
  work_done : Int
  received : List sk_buff := []
  rx_queue : List sk_buff := []
  copied : List sk_buff := []
deriving DecidableEq, Repr

/-- The 32-bit little-endian word at offset `off` from `desc->head`
(`memcpy` of four bytes, then `le32_to_cpus`). -/
def get_le32 (head : Int → Nat) (off : Int) : Nat :=
  head off % 256 + (head (off + 1) % 256) * 2 ^ 8 + (head (off + 2) % 256) * 2 ^ 16
    + (head (off + 3) % 256) * 2 ^ 24

/-- The loop `while (pkt_cnt--)` of `ax88179_rx_fixup`, with `pkt_cnt` packets
left, the u32 `pkt_hdr_curr`, and `rx_data` as an offset from `desc->head`.
`alloc n` tells whether `napi_alloc_skb` succeeds for the packet after which
`n` packets are left. -/
def rx_loop (head : Int → Nat) (alloc : Nat → Bool) (budget : Int) :
    Nat → Nat → Nat → rx_state → rx_state
  | 0, _, _, st => st
  | pkt_cnt + 1, pkt_hdr_curr, rx_data, st =>
    let pkt_hdr := get_le32 head pkt_hdr_curr
    let pkt_hdr_curr := (pkt_hdr_curr + 4) % 2 ^ 32
    let pkt_len := (pkt_hdr >>> 16) &&& 0x1FFF
    let find_next_rx := rx_data + ((pkt_len + 7) &&& 0xFFF8)
    if pkt_hdr &&& AX_RXHDR_CRC_ERR ≠ 0 then
      rx_loop head alloc budget pkt_cnt pkt_hdr_curr find_next_rx
        { st with stats := { st.stats with rx_crc_errors := st.stats.rx_crc_errors + 1 } }
    else if pkt_hdr &&& AX_RXHDR_DROP_ERR ≠ 0 then
      rx_loop head alloc budget pkt_cnt pkt_hdr_curr find_next_rx
        { st with stats := { st.stats with rx_dropped := st.stats.rx_dropped + 1 } }
    else if !alloc pkt_cnt then
      rx_loop head alloc budget pkt_cnt pkt_hdr_curr find_next_rx
        { st with stats := { st.stats with rx_dropped := st.stats.rx_dropped + 1 } }
    else
      let skb : sk_buff :=
        { start := rx_data, len := pkt_len, ip_summed := ax88179_rx_checksum pkt_hdr }
      let st := { st with copied := st.copied ++ [skb] }
      if st.work_done < budget then
        rx_loop head alloc budget pkt_cnt pkt_hdr_curr find_next_rx
          { st with
            received := st.received ++ [skb]
            work_done := st.work_done + 1
            stats := { st.stats with
              rx_packets := st.stats.rx_packets + 1
              rx_bytes := st.stats.rx_bytes + pkt_len } }
      else
        rx_loop head alloc budget pkt_cnt pkt_hdr_curr find_next_rx
          { st with rx_queue := st.rx_queue ++ [skb] }

/-- The packet count the trailer `rx_hdr` announces, `rx_hdr & 0xFF`. -/
def trailer_pkt_cnt (desc : rx_desc) : Nat :=
  get_le32 desc.head ((desc.actual_length : Int) - 4) &&& 0xFF

/-- The header offset the trailer `rx_hdr` announces, `rx_hdr >> 16`. -/
def trailer_hdr_off (desc : rx_desc) : Nat :=
  get_le32 desc.head ((desc.actual_length : Int) - 4) >>> 16

/-- The trailer validation of `ax88179_rx_fixup` passes: none of
`aa != hdr_off`, `hdr_off >= actual_length`, `pkt_cnt == 0` holds, where
`aa = actual_length - ((pkt_cnt + 2) & 0xFE) * 4` in u32 arithmetic. -/
def trailer_valid (desc : rx_desc) : Prop :=
  ¬ ((desc.actual_length + 2 ^ 32 - ((trailer_pkt_cnt desc + 2) &&& 0xFE) * 4) % 2 ^ 32
        ≠ trailer_hdr_off desc
      ∨ trailer_hdr_off desc ≥ desc.actual_length
      ∨ trailer_pkt_cnt desc = 0)

instance (desc : rx_desc) : Decidable (trailer_valid desc) := by
  unfold trailer_valid; infer_instance

/-- The function `ax88179_rx_fixup`, started with the counters `stats` and
`*work_done = work_done`. -/
def ax88179_rx_fixup (desc : rx_desc) (alloc : Nat → Bool) (stats : net_device_stats)
    (work_done budget : Int) : rx_state :=
  let actual_length := desc.actual_length
  let rx_hdr := get_le32 desc.head ((actual_length : Int) - 4)
  let pkt_cnt := rx_hdr &&& 0xFF
  let hdr_off := rx_hdr >>> 16
  let pkt_hdr_curr := hdr_off
  let aa := (actual_length + 2 ^ 32 - ((pkt_cnt + 2) &&& 0xFE) * 4) % 2 ^ 32
  if aa ≠ hdr_off ∨ hdr_off ≥ desc.actual_length ∨ pkt_cnt = 0 then
    { actual_length := 0
      stats := { stats with rx_length_errors := stats.rx_length_errors + 1 }
      work_done := work_done }
  else
    rx_loop desc.head alloc budget pkt_cnt pkt_hdr_curr 0
      { actual_length := actual_length, stats := stats, work_done := work_done }

/-- The bytes `[start, start + len)` of the copy lie inside the first `limit`
bytes of the receive buffer. -/
def copy_inside (limit : Nat) (skb : sk_buff) : Prop :=
  skb.start + skb.len ≤ limit

instance (limit : Nat) (skb : sk_buff) : Decidable (copy_inside limit skb) := by
  unfold copy_inside; infer_instance

/-- A receive buffer of 16 bytes holding one packet header at offset 8 with
`pkt_len = 1514` and no error bit, and the trailer `rx_hdr` at offset 12 with
`pkt_cnt = 1` and `hdr_off = 8`; the 8 bytes before the header are zero. -/
def short_buffer : rx_desc where
  head := fun off =>
    if off = 10 then 0xEA else if off = 11 then 0x05
    else if off = 12 then 0x01 else if off = 14 then 0x08 else 0
  actual_length := 16

end ax88179_178a

/-! ## Theorems -/

/-- Claim C1.  Every frequency table declared by the camera, display and GPU
controllers, the sdm670 replacement tables included, is a list of entries of
non-zero rate followed by the zero terminator, and lists the rates of these
entries in strictly ascending order; so does the table every RCG points to, in
the sdm845 and in the sdm670 variant. -/
theorem C1_freq_tables_strictly_ascending :
    (∀ t ∈ camcc_sdm845.freq_tables ++ dispcc_sdm845.freq_tables ++ gpucc_sdm845.freq_tables,
        t = freq_tbl_entries t ++ [({ } : freq_tbl)] ∧ strictly_ascending (freq_tbl_rates t))
    ∧ (∀ (sdm670 : Bool) (r : camcc_sdm845.Rcg),
        strictly_ascending (freq_tbl_rates (active_freq_tbl ((camcc_sdm845.variant sdm670).rcg r))))
    ∧ (∀ (sdm670 : Bool) (r : dispcc_sdm845.Rcg),
        strictly_ascending (freq_tbl_rates (active_freq_tbl ((dispcc_sdm845.variant sdm670).rcg r))))
    ∧ (∀ (sdm670 : Bool) (r : gpucc_sdm845.Rcg),
        strictly_ascending (freq_tbl_rates (active_freq_tbl ((gpucc_sdm845.variant sdm670).rcg r)))) := by
  refine ⟨by decide, ?_, ?_, ?_⟩
  · intro sdm670 r; cases sdm670 <;> cases r <;> decide
  · intro sdm670 r; cases sdm670 <;> cases r <;> decide
  · intro sdm670 r; cases sdm670 <;> cases r <;> decide

/-- A write to index `i` is absorbed by a later write to the same index, whatever
is written in between. -/
theorem set_absorb (l : List Nat) (ws : List (Nat × Nat)) (i a b : Nat) :
    (ws.foldl (fun x p => x.set p.1 p.2) (l.set i a)).set i b
      = (ws.foldl (fun x p => x.set p.1 p.2) l).set i b := by
  induction ws generalizing l with
  | nil => simp [List.set_set]
  | cons w ws ih =>
    simp only [List.foldl_cons]
    by_cases h : w.1 = i
    · rw [h, List.set_set]
    · have h' : i ≠ w.1 := fun e => h e.symm
      rw [List.set_comm _ _ _ h', ih]

/-- Running a sequence of array writes twice leaves what running it once leaves. -/
theorem writes_idem (ws : List (Nat × Nat)) (l : List Nat) :
    ws.foldl (fun x p => x.set p.1 p.2) (ws.foldl (fun x p => x.set p.1 p.2) l)
      = ws.foldl (fun x p => x.set p.1 p.2) l := by
  induction ws using List.reverseRecOn generalizing l with
  | nil => rfl
  | append_singleton ws w ih =>
    simp only [List.foldl_append, List.foldl_cons, List.foldl_nil]
    rw [set_absorb, ih]

/-- The camera fixup is idempotent on every state of the clock structures. -/
theorem cam_fixup_idem (s : camcc_sdm845.clocks) :
    camcc_sdm845.cam_cc_sdm845_fixup_sdm670 (camcc_sdm845.cam_cc_sdm845_fixup_sdm670 s)
      = camcc_sdm845.cam_cc_sdm845_fixup_sdm670 s := by
  simp only [camcc_sdm845.cam_cc_sdm845_fixup_sdm670, camcc_sdm845.set_rate_max,
    camcc_sdm845.set_freq_tbl]
  congr 1
  funext r
  cases r <;> simp [rcg2_assign_rate_max, rcg2_assign_freq_tbl]
  all_goals
    apply List.ext_getElem?
    intro k
    simp only [List.getElem?_set, List.length_set]
    split_ifs <;> rfl

/-- The display fixup is idempotent on every state of the clock structures. -/
theorem disp_fixup_idem (s : dispcc_sdm845.clocks) :
    dispcc_sdm845.disp_cc_sdm845_fixup_sdm670 (dispcc_sdm845.disp_cc_sdm845_fixup_sdm670 s)
      = dispcc_sdm845.disp_cc_sdm845_fixup_sdm670 s := by
  simp only [dispcc_sdm845.disp_cc_sdm845_fixup_sdm670, dispcc_sdm845.set_rate_max,
    dispcc_sdm845.set_freq_tbl]
  congr 1
  funext r
  cases r <;> simp [rcg2_assign_rate_max, rcg2_assign_freq_tbl]
  all_goals
    apply List.ext_getElem?
    intro k
    simp only [List.getElem?_set, List.length_set]
    split_ifs <;> rfl

/-- The GPU fixup is idempotent on every state of the clock structures. -/
theorem gpu_fixup_idem (s : gpucc_sdm845.clocks) :
    gpucc_sdm845.gpu_cc_sdm845_fixup_sdm670 (gpucc_sdm845.gpu_cc_sdm845_fixup_sdm670 s)
      = gpucc_sdm845.gpu_cc_sdm845_fixup_sdm670 s := by
  simp only [gpucc_sdm845.gpu_cc_sdm845_fixup_sdm670, gpucc_sdm845.set_rate_max,
    gpucc_sdm845.set_freq_tbl]
  congr 1
  funext r
  cases r <;> simp [rcg2_assign_rate_max, rcg2_assign_freq_tbl]
  simpa only [List.foldl_cons, List.foldl_nil] using
    writes_idem [(VDD_GX_MIN, 180000000), (VDD_GX_LOWER, 267000000), (VDD_GX_LOW, 355000000),
      (VDD_GX_LOW_L1, 430000000), (VDD_GX_NOMINAL, 565000000), (VDD_GX_NOMINAL_L1, 650000000),
      (VDD_GX_HIGH, 750000000), (VDD_GX_HIGH_L1, 780000000)]
      (s.rcg gpucc_sdm845.Rcg.gpu_cc_gx_gfx3d_clk_src).clkr.vdd_data.rate_max

/-- Claim C2.  Each of the camera, display and GPU sdm670 fixups, applied twice
to any state of the controller's clock structures, leaves exactly the state that
applying it once leaves: the same frequency-table selections and corner
ceilings, and the same everything else. -/
theorem C2_fixup_idempotent :
    (∀ s : camcc_sdm845.clocks,
        camcc_sdm845.cam_cc_sdm845_fixup_sdm670 (camcc_sdm845.cam_cc_sdm845_fixup_sdm670 s)
          = camcc_sdm845.cam_cc_sdm845_fixup_sdm670 s)
    ∧ (∀ s : dispcc_sdm845.clocks,
        dispcc_sdm845.disp_cc_sdm845_fixup_sdm670 (dispcc_sdm845.disp_cc_sdm845_fixup_sdm670 s)
          = dispcc_sdm845.disp_cc_sdm845_fixup_sdm670 s)
    ∧ (∀ s : gpucc_sdm845.clocks,
        gpucc_sdm845.gpu_cc_sdm845_fixup_sdm670 (gpucc_sdm845.gpu_cc_sdm845_fixup_sdm670 s)
          = gpucc_sdm845.gpu_cc_sdm845_fixup_sdm670 s) :=
  ⟨cam_fixup_idem, disp_fixup_idem, gpu_fixup_idem⟩

/-- Claim C3.  Each sdm670 fixup, on any state of the clock structures, leaves
the PLLs, post-dividers, fixed factors, dividers and branches as they were,
leaves every RCG it does not name as it was, and changes in an RCG it names at
most the frequency-table pointer and the values of `rate_max` entries: parent
map, register offset, widths, flags, registration data, regulator class and the
size of `rate_max` stay. -/
theorem C3_fixup_frame :
    (∀ s : camcc_sdm845.clocks,
        (camcc_sdm845.cam_cc_sdm845_fixup_sdm670 s).pll = s.pll
        ∧ (camcc_sdm845.cam_cc_sdm845_fixup_sdm670 s).postdiv = s.postdiv
        ∧ (camcc_sdm845.cam_cc_sdm845_fixup_sdm670 s).branch = s.branch
        ∧ (∀ r, r ∉ camcc_sdm845.fixup_rcgs →
            (camcc_sdm845.cam_cc_sdm845_fixup_sdm670 s).rcg r = s.rcg r)
        ∧ (∀ r, same_but_tables (s.rcg r) ((camcc_sdm845.cam_cc_sdm845_fixup_sdm670 s).rcg r)))
    ∧ (∀ s : dispcc_sdm845.clocks,
        (dispcc_sdm845.disp_cc_sdm845_fixup_sdm670 s).pll = s.pll
        ∧ (dispcc_sdm845.disp_cc_sdm845_fixup_sdm670 s).div = s.div
        ∧ (dispcc_sdm845.disp_cc_sdm845_fixup_sdm670 s).branch = s.branch
        ∧ (∀ r, r ∉ dispcc_sdm845.fixup_rcgs →
            (dispcc_sdm845.disp_cc_sdm845_fixup_sdm670 s).rcg r = s.rcg r)
        ∧ (∀ r, same_but_tables (s.rcg r) ((dispcc_sdm845.disp_cc_sdm845_fixup_sdm670 s).rcg r)))
    ∧ (∀ s : gpucc_sdm845.clocks,
        (gpucc_sdm845.gpu_cc_sdm845_fixup_sdm670 s).pll = s.pll
        ∧ (gpucc_sdm845.gpu_cc_sdm845_fixup_sdm670 s).postdiv = s.postdiv
        ∧ (gpucc_sdm845.gpu_cc_sdm845_fixup_sdm670 s).fixed_factor = s.fixed_factor
        ∧ (gpucc_sdm845.gpu_cc_sdm845_fixup_sdm670 s).branch = s.branch
        ∧ (∀ r, r ∉ gpucc_sdm845.fixup_rcgs →
            (gpucc_sdm845.gpu_cc_sdm845_fixup_sdm670 s).rcg r = s.rcg r)
        ∧ (∀ r, same_but_tables (s.rcg r) ((gpucc_sdm845.gpu_cc_sdm845_fixup_sdm670 s).rcg r))) := by
  refine ⟨fun s => ?_, fun s => ?_, fun s => ?_⟩
  · simp only [camcc_sdm845.cam_cc_sdm845_fixup_sdm670, camcc_sdm845.set_rate_max,
      camcc_sdm845.set_freq_tbl]
    refine ⟨trivial, trivial, trivial, ?_, ?_⟩
    · intro r hr
      cases r <;> first
        | exact absurd (by decide) hr
        | simp
    · intro r
      cases r <;> simp [same_but_tables, rcg2_assign_rate_max, rcg2_assign_freq_tbl]
  · simp only [dispcc_sdm845.disp_cc_sdm845_fixup_sdm670, dispcc_sdm845.set_rate_max,
      dispcc_sdm845.set_freq_tbl]
    refine ⟨trivial, trivial, trivial, ?_, ?_⟩
    · intro r hr
      cases r <;> first
        | exact absurd (by decide) hr
        | simp
    · intro r
      cases r <;> simp [same_but_tables, rcg2_assign_rate_max, rcg2_assign_freq_tbl]
  · simp only [gpucc_sdm845.gpu_cc_sdm845_fixup_sdm670, gpucc_sdm845.set_rate_max,
      gpucc_sdm845.set_freq_tbl]
    refine ⟨trivial, trivial, trivial, trivial, ?_, ?_⟩
    · intro r hr
      cases r <;> exact absurd (by decide) hr
    · intro r
      cases r <;> simp [same_but_tables, rcg2_assign_rate_max, rcg2_assign_freq_tbl]

/-- Witness for C3: on the static tables the camera fixup leaves
cam_cc_bps_clk_src, which it does not name, as it was, and changes in
cam_cc_icp_clk_src, which it names, the frequency table and nothing but tables. -/
theorem C3_witness :
    camcc_sdm845.Rcg.cam_cc_bps_clk_src ∉ camcc_sdm845.fixup_rcgs
    ∧ (camcc_sdm845.cam_cc_sdm845_fixup_sdm670 camcc_sdm845.initial).rcg .cam_cc_bps_clk_src
        = camcc_sdm845.initial.rcg .cam_cc_bps_clk_src
    ∧ same_but_tables (camcc_sdm845.initial.rcg .cam_cc_icp_clk_src)
        ((camcc_sdm845.cam_cc_sdm845_fixup_sdm670 camcc_sdm845.initial).rcg .cam_cc_icp_clk_src)
    ∧ ((camcc_sdm845.cam_cc_sdm845_fixup_sdm670 camcc_sdm845.initial).rcg
        .cam_cc_icp_clk_src).freq_tbl ≠ (camcc_sdm845.initial.rcg .cam_cc_icp_clk_src).freq_tbl :=
  ⟨by decide, (C3_fixup_frame.1 camcc_sdm845.initial).2.2.2.1 _ (by decide),
    (C3_fixup_frame.1 camcc_sdm845.initial).2.2.2.2 _, by decide⟩

/-- Claim C4.  In the sdm845 and in the sdm670 variant, every rate listed in the
frequency table an RCG points to is at most some entry of that RCG's `rate_max`
array, so a lookup of the lowest corner whose ceiling covers a table rate finds
one. -/
theorem C4_table_rates_have_ceiling :
    (∀ (sdm670 : Bool) (r : camcc_sdm845.Rcg),
        rates_have_ceiling
          (freq_tbl_rates (active_freq_tbl ((camcc_sdm845.variant sdm670).rcg r)))
          ((camcc_sdm845.variant sdm670).rcg r).clkr.vdd_data.rate_max)
    ∧ (∀ (sdm670 : Bool) (r : dispcc_sdm845.Rcg),
        rates_have_ceiling
          (freq_tbl_rates (active_freq_tbl ((dispcc_sdm845.variant sdm670).rcg r)))
          ((dispcc_sdm845.variant sdm670).rcg r).clkr.vdd_data.rate_max)
    ∧ (∀ (sdm670 : Bool) (r : gpucc_sdm845.Rcg),
        rates_have_ceiling
          (freq_tbl_rates (active_freq_tbl ((gpucc_sdm845.variant sdm670).rcg r)))
          ((gpucc_sdm845.variant sdm670).rcg r).clkr.vdd_data.rate_max) := by
  refine ⟨?_, ?_, ?_⟩
  · intro sdm670 r; cases sdm670 <;> cases r <;> decide
  · intro sdm670 r; cases sdm670 <;> cases r <;> decide
  · intro sdm670 r; cases sdm670 <;> cases r <;> decide

/-- Claim C5.  In the sdm845 and in the sdm670 variant, the `rate_max` array of
every clock of the three controllers, read in corner order with the undefined
(zero) entries skipped, never decreases: a higher corner never has a lower rate
ceiling than a lower corner. -/
theorem C5_ceilings_nondecreasing :
    (∀ (sdm670 : Bool) (c : camcc_sdm845.Hw),
        ceilings_nondecreasing (camcc_sdm845.rate_max_of (camcc_sdm845.variant sdm670) c))
    ∧ (∀ (sdm670 : Bool) (c : dispcc_sdm845.Hw),
        ceilings_nondecreasing (dispcc_sdm845.rate_max_of (dispcc_sdm845.variant sdm670) c))
    ∧ (∀ (sdm670 : Bool) (c : gpucc_sdm845.Hw),
        ceilings_nondecreasing (gpucc_sdm845.rate_max_of (gpucc_sdm845.variant sdm670) c)) := by
  refine ⟨?_, ?_, ?_⟩
  · intro sdm670 c; cases sdm670 <;> cases c <;> rename_i x <;> cases x <;> decide
  · intro sdm670 c; cases sdm670 <;> cases c <;> rename_i x <;> cases x <;> decide
  · intro sdm670 c; cases sdm670 <;> cases c <;> rename_i x <;> cases x <;> decide

/-- Where every clock passes `parents_descend`, a possible parent inside the
controller lies on a strictly lower level and has parents itself. -/
theorem parent_lower {H : Type} {init : H → clk_init_data H} {level : H → Nat}
    (h : ∀ c, parents_descend init level c = true) {c p : H} (hp : is_parent_of init c p) :
    level p < level c ∧ possible_parents (init p) ≠ [] := by
  obtain ⟨e, he, hw⟩ := hp
  have hc := h c
  simp only [parents_descend, List.all_eq_true] at hc
  have := hc e he
  rw [hw] at this
  simp only [Bool.and_eq_true, decide_eq_true_eq, Bool.not_eq_true',
    List.isEmpty_eq_false] at this
  exact this

/-- Where every clock passes `parents_descend`, an outside parent is named. -/
theorem parent_named {H : Type} {init : H → clk_init_data H} {level : H → Nat}
    (h : ∀ c, parents_descend init level c = true) {c : H} {e : clk_parent_data H}
    (he : e ∈ possible_parents (init c)) (hw : e.hw = none) : e.fw_name.isSome = true := by
  have hc := h c
  simp only [parents_descend, List.all_eq_true] at hc
  have := hc e he
  rw [hw] at this
  exact this

/-- Where every clock passes `parents_descend`, the level drops along every
non-empty chain of possible parents. -/
theorem ancestor_lower {H : Type} {init : H → clk_init_data H} {level : H → Nat}
    (h : ∀ c, parents_descend init level c = true) {c p : H}
    (hp : Relation.TransGen (is_parent_of init) c p) : level p < level c := by
  induction hp with
  | single hcp => exact (parent_lower h hcp).1
  | tail _ hbp ih => exact lt_trans (parent_lower h hbp).1 ih

/-- Where every clock passes `parents_descend`, no clock is its own ancestor. -/
theorem acyclic_of_parents_descend {H : Type} {init : H → clk_init_data H} {level : H → Nat}
    (h : ∀ c, parents_descend init level c = true) (c : H) :
    ¬ Relation.TransGen (is_parent_of init) c c :=
  fun hc => lt_irrefl _ (ancestor_lower h hc)

/-- Where every clock passes `parents_descend`, every upward chain from a clock
that has parents ends outside the controller. -/
theorem chains_end_outside_of_parents_descend {H : Type} {init : H → clk_init_data H}
    {level : H → Nat} (h : ∀ c, parents_descend init level c = true) :
    ∀ (n : Nat) (c : H), level c < n → possible_parents (init c) ≠ [] →
      chains_end_outside init c := by
  intro n
  induction n with
  | zero => intro c hc; exact absurd hc (Nat.not_lt_zero _)
  | succ n ih =>
    intro c hc hne
    refine chains_end_outside.step c hne (fun e he hw => parent_named h he hw) ?_
    intro p hp
    have hl := parent_lower h hp
    exact ih p (by omega) hl.2

/-- Every clock of the camera controller passes `parents_descend`. -/
theorem cam_parents_descend (c : camcc_sdm845.Hw) :
    parents_descend (camcc_sdm845.hw_init camcc_sdm845.initial) camcc_sdm845.level c = true := by
  cases c <;> rename_i x <;> cases x <;> decide

/-- Every clock of the display controller passes `parents_descend`. -/
theorem disp_parents_descend (c : dispcc_sdm845.Hw) :
    parents_descend (dispcc_sdm845.hw_init dispcc_sdm845.initial) dispcc_sdm845.level c = true := by
  cases c <;> rename_i x <;> cases x <;> decide

/-- Every clock of the GPU controller passes `parents_descend`. -/
theorem gpu_parents_descend (c : gpucc_sdm845.Hw) :
    parents_descend (gpucc_sdm845.hw_init gpucc_sdm845.initial) gpucc_sdm845.level c = true := by
  cases c <;> rename_i x <;> cases x <;> decide

/-- Claim C6.  In each of the three controllers the possible-parent relation
among the declared clocks has no cycle, and from every clock that has parents
every upward chain ends at a clock named to the firmware (bi_tcxo or another
outside clock). -/
theorem C6_parent_graph_acyclic_and_rooted_outside :
    ((∀ c, ¬ Relation.TransGen (is_parent_of (camcc_sdm845.hw_init camcc_sdm845.initial)) c c)
      ∧ (∀ c, possible_parents (camcc_sdm845.hw_init camcc_sdm845.initial c) ≠ [] →
          chains_end_outside (camcc_sdm845.hw_init camcc_sdm845.initial) c))
    ∧ ((∀ c, ¬ Relation.TransGen (is_parent_of (dispcc_sdm845.hw_init dispcc_sdm845.initial)) c c)
      ∧ (∀ c, possible_parents (dispcc_sdm845.hw_init dispcc_sdm845.initial c) ≠ [] →
          chains_end_outside (dispcc_sdm845.hw_init dispcc_sdm845.initial) c))
    ∧ ((∀ c, ¬ Relation.TransGen (is_parent_of (gpucc_sdm845.hw_init gpucc_sdm845.initial)) c c)
      ∧ (∀ c, possible_parents (gpucc_sdm845.hw_init gpucc_sdm845.initial c) ≠ [] →
          chains_end_outside (gpucc_sdm845.hw_init gpucc_sdm845.initial) c)) :=
  ⟨⟨acyclic_of_parents_descend cam_parents_descend,
      fun c => chains_end_outside_of_parents_descend cam_parents_descend _ c (Nat.lt_succ_self _)⟩,
    ⟨acyclic_of_parents_descend disp_parents_descend,
      fun c => chains_end_outside_of_parents_descend disp_parents_descend _ c (Nat.lt_succ_self _)⟩,
    ⟨acyclic_of_parents_descend gpu_parents_descend,
      fun c => chains_end_outside_of_parents_descend gpu_parents_descend _ c (Nat.lt_succ_self _)⟩⟩

/-- Witness for C6: the GPU branch gpu_cc_cx_gfx3d_clk has a parent, and every
upward chain from it (through gpu_cc_gx_gfx3d_clk_src, crc_div,
gpu_cc_pll0_out_even and the PLLs) ends outside the controller. -/
theorem C6_witness :
    possible_parents (gpucc_sdm845.hw_init gpucc_sdm845.initial
        (.branch .gpu_cc_cx_gfx3d_clk)) ≠ []
    ∧ chains_end_outside (gpucc_sdm845.hw_init gpucc_sdm845.initial)
        (.branch .gpu_cc_cx_gfx3d_clk) :=
  ⟨by decide, C6_parent_graph_acyclic_and_rooted_outside.2.2.2 _ (by decide)⟩

/-- Claim C7.  Entry 0 of every parent map of the three controllers is the
always-on reference, source P_BI_TCXO with mux code 0, and entry 0 of the
parent list of the same number is the clock named bi_tcxo; the same holds for
the parent map and parent list of every RCG. -/
theorem C7_parent_map_entry_zero_is_bi_tcxo :
    ((∀ t ∈ camcc_sdm845.parent_tables,
          t.1[0]? = some { src := camcc_sdm845.P_BI_TCXO, cfg := 0 }
          ∧ t.2[0]? = some { fw_name := some "bi_tcxo" })
      ∧ (∀ r : camcc_sdm845.Rcg,
          (camcc_sdm845.initial.rcg r).parent_map[0]?
            = some { src := camcc_sdm845.P_BI_TCXO, cfg := 0 }
          ∧ (camcc_sdm845.initial.rcg r).clkr.hw_init.parent_data[0]?
            = some { fw_name := some "bi_tcxo" }))
    ∧ ((∀ t ∈ dispcc_sdm845.parent_tables,
          t.1[0]? = some { src := dispcc_sdm845.P_BI_TCXO, cfg := 0 }
          ∧ t.2[0]? = some { fw_name := some "bi_tcxo" })
      ∧ (∀ r : dispcc_sdm845.Rcg,
          (dispcc_sdm845.initial.rcg r).parent_map[0]?
            = some { src := dispcc_sdm845.P_BI_TCXO, cfg := 0 }
          ∧ (dispcc_sdm845.initial.rcg r).clkr.hw_init.parent_data[0]?
            = some { fw_name := some "bi_tcxo" }))
    ∧ ((∀ t ∈ gpucc_sdm845.parent_tables,
          t.1[0]? = some { src := gpucc_sdm845.P_BI_TCXO, cfg := 0 }
          ∧ t.2[0]? = some { fw_name := some "bi_tcxo" })
      ∧ (∀ r : gpucc_sdm845.Rcg,
          (gpucc_sdm845.initial.rcg r).parent_map[0]?
            = some { src := gpucc_sdm845.P_BI_TCXO, cfg := 0 }
          ∧ (gpucc_sdm845.initial.rcg r).clkr.hw_init.parent_data[0]?
            = some { fw_name := some "bi_tcxo" })) := by
  refine ⟨⟨by decide, ?_⟩, ⟨by decide, ?_⟩, ⟨by decide, ?_⟩⟩
  · intro r; cases r <;> decide
  · intro r; cases r <;> decide
  · intro r; cases r <;> decide

/-- Counterexample to C8 as stated: the parent list of gpu_cc_gx_gfx3d_clk_src
names gpu_cc_pll1 twice, at entries 3 and 4 (mux codes 3 and 4, sources
P_GPU_CC_PLL1_OUT_EVEN and P_GPU_CC_PLL1_OUT_ODD), so its entries do not name
pairwise distinct parent clocks. -/
theorem C8_counterexample_gfx3d_parent_listed_twice :
    (gpucc_sdm845.initial.rcg .gpu_cc_gx_gfx3d_clk_src).clkr.hw_init.parent_data[3]?
        = some { hw := some (.pll .gpu_cc_pll1) }
    ∧ (gpucc_sdm845.initial.rcg .gpu_cc_gx_gfx3d_clk_src).clkr.hw_init.parent_data[4]?
        = some { hw := some (.pll .gpu_cc_pll1) }
    ∧ (gpucc_sdm845.initial.rcg .gpu_cc_gx_gfx3d_clk_src).parent_map[3]?
        = some { src := gpucc_sdm845.P_GPU_CC_PLL1_OUT_EVEN, cfg := 3 }
    ∧ (gpucc_sdm845.initial.rcg .gpu_cc_gx_gfx3d_clk_src).parent_map[4]?
        = some { src := gpucc_sdm845.P_GPU_CC_PLL1_OUT_ODD, cfg := 4 }
    ∧ ¬ parents_distinct (gpucc_sdm845.initial.rcg .gpu_cc_gx_gfx3d_clk_src) := by
  decide

/-- Claim C8, amended.  For every RCG of the three controllers the parent map
and the parent list have the same number of entries and no two entries of the
parent map share a mux code.  No two entries of the parent list name the same
parent clock in any camera or display RCG, nor in gpu_cc_gmu_clk_src; in
gpu_cc_gx_gfx3d_clk_src the entries other than entry 4 name pairwise distinct
clocks. -/
theorem C8_parent_pairing :
    (∀ r : camcc_sdm845.Rcg,
        parents_paired (camcc_sdm845.initial.rcg r)
        ∧ mux_codes_distinct (camcc_sdm845.initial.rcg r)
        ∧ parents_distinct (camcc_sdm845.initial.rcg r))
    ∧ (∀ r : dispcc_sdm845.Rcg,
        parents_paired (dispcc_sdm845.initial.rcg r)
        ∧ mux_codes_distinct (dispcc_sdm845.initial.rcg r)
        ∧ parents_distinct (dispcc_sdm845.initial.rcg r))
    ∧ (∀ r : gpucc_sdm845.Rcg,
        parents_paired (gpucc_sdm845.initial.rcg r)
        ∧ mux_codes_distinct (gpucc_sdm845.initial.rcg r))
    ∧ parents_distinct (gpucc_sdm845.initial.rcg .gpu_cc_gmu_clk_src)
    ∧ (((gpucc_sdm845.initial.rcg .gpu_cc_gx_gfx3d_clk_src).clkr.hw_init.parent_data.eraseIdx 4).map
        parent_key).Nodup := by
  refine ⟨?_, ?_, ?_, by decide, by decide⟩
  · intro r; cases r <;> decide
  · intro r; cases r <;> decide
  · intro r; cases r <;> decide

/-- Counterexample to C9 as stated: in the VCO table of each controller the
first band (249.6 MHz to 2 GHz) lies above the second (125 MHz to 1 GHz), so the
bands are not in ascending order but in descending order of both range ends,
and the two ranges overlap, both containing 500 MHz. -/
theorem C9_counterexample_fabia_vco :
    ¬ vco_bands_ascending camcc_sdm845.fabia_vco
    ∧ ¬ vco_bands_disjoint camcc_sdm845.fabia_vco
    ∧ ¬ vco_bands_ascending dispcc_sdm845.fabia_vco
    ∧ ¬ vco_bands_disjoint dispcc_sdm845.fabia_vco
    ∧ ¬ vco_bands_ascending gpucc_sdm845.fabia_vco
    ∧ ¬ vco_bands_disjoint gpucc_sdm845.fabia_vco
    ∧ vco_bands_descending camcc_sdm845.fabia_vco
    ∧ (∀ b ∈ camcc_sdm845.fabia_vco, b.min_freq ≤ 500000000 ∧ 500000000 ≤ b.max_freq) := by
  decide

/-- Claim C9, amended.  Every PLL of the three controllers uses the VCO table
fabia_vco of its file, with both of its bands; the three tables are the same;
the table lists its bands in descending rate order, band 0 from 249.6 MHz to
2 GHz and then band 1 from 125 MHz to 1 GHz; each band has min_freq < max_freq
and its own band value. -/
theorem C9_fabia_vco_bands :
    (∀ p : camcc_sdm845.Pll, (camcc_sdm845.initial.pll p).vco_table = camcc_sdm845.fabia_vco
        ∧ (camcc_sdm845.initial.pll p).num_vco = 2)
    ∧ (∀ p : dispcc_sdm845.Pll, (dispcc_sdm845.initial.pll p).vco_table = dispcc_sdm845.fabia_vco
        ∧ (dispcc_sdm845.initial.pll p).num_vco = 2)
    ∧ (∀ p : gpucc_sdm845.Pll, (gpucc_sdm845.initial.pll p).vco_table = gpucc_sdm845.fabia_vco
        ∧ (gpucc_sdm845.initial.pll p).num_vco = 2)
    ∧ dispcc_sdm845.fabia_vco = camcc_sdm845.fabia_vco
    ∧ gpucc_sdm845.fabia_vco = camcc_sdm845.fabia_vco
    ∧ camcc_sdm845.fabia_vco
        = [{ min_freq := 249600000, max_freq := 2000000000, val := 0 },
           { min_freq := 125000000, max_freq := 1000000000, val := 1 }]
    ∧ vco_bands_descending camcc_sdm845.fabia_vco
    ∧ (∀ b ∈ camcc_sdm845.fabia_vco, b.min_freq < b.max_freq)
    ∧ (camcc_sdm845.fabia_vco.map (fun b => b.val)).Nodup := by
  refine ⟨?_, ?_, ?_, by decide, by decide, by decide, by decide, by decide, by decide⟩
  · intro p; cases p <;> decide
  · intro p; cases p; decide
  · intro p; cases p <;> decide

/-- The PLL configurations the camera probe writes. -/
theorem cam_probe_pll_configs (env : probe_env) :
    pll_configs (camcc_sdm845.cam_cc_sdm845_probe env camcc_sdm845.initial
        camcc_sdm845.cam_cc_sdm845_desc).calls
      = if env.map_err = none then
          [(.cam_cc_pll0, { l := 0x1f, alpha := 0x4000 }),
           (.cam_cc_pll1, { l := 0x2a, alpha := 0x1555 }),
           (.cam_cc_pll2, { l := 0x32, alpha := 0x0 }),
           (.cam_cc_pll3, { l := 0x14, alpha := 0x0 })]
        else [] := by
  obtain ⟨sdm670, map_err, register_ret, really_probe_ret⟩ := env
  cases map_err <;> cases sdm670 <;> rfl

/-- The PLL configuration the display probe writes. -/
theorem disp_probe_pll_configs (env : probe_env) :
    pll_configs (dispcc_sdm845.disp_cc_sdm845_probe env dispcc_sdm845.initial
        dispcc_sdm845.disp_cc_sdm845_desc).calls
      = if env.map_err = none then [(.disp_cc_pll0, { l := 0x2c, alpha := 0xcaaa })] else [] := by
  obtain ⟨sdm670, map_err, register_ret, really_probe_ret⟩ := env
  cases map_err <;> cases sdm670 <;> rfl

/-- The PLL configurations the GPU probe writes. -/
theorem gpu_probe_pll_configs (env : probe_env) :
    pll_configs (gpucc_sdm845.gpu_cc_sdm845_probe env gpucc_sdm845.initial
        gpucc_sdm845.gpu_cc_sdm845_desc).calls
      = if env.map_err = none ∧ env.register_ret = 0 then
          [(.gpu_cc_pll0, { l := 0x1d, alpha := 0x2aaa }),
           (.gpu_cc_pll1, { l := 0x1a, alpha := 0xaaaa })]
        else [] := by
  obtain ⟨sdm670, map_err, register_ret, really_probe_ret⟩ := env
  cases map_err with
  | some e => rfl
  | none =>
    by_cases h : register_ret = 0
    · subst h; cases sdm670 <;> rfl
    · simp [gpucc_sdm845.gpu_cc_sdm845_probe, h, pll_configs]

/-- Claim C10.  Whatever the environment answers, every PLL configuration a
probe writes gives a rate 19.2 MHz x (l + alpha / 2^16) inside the
[min_freq, max_freq] range of a band of that PLL's VCO table; and a probe that
gets its register map (and, for the GPU, registers crc_div) configures exactly
cam_cc_pll0..3, disp_cc_pll0, and gpu_cc_pll0..1, with the values of the source. -/
theorem C10_probe_pll_rates_in_vco_band (env : probe_env) :
    ((∀ pc ∈ pll_configs (camcc_sdm845.cam_cc_sdm845_probe env camcc_sdm845.initial
          camcc_sdm845.cam_cc_sdm845_desc).calls,
        ∃ b ∈ (camcc_sdm845.initial.pll pc.1).vco_table, in_vco_band b (alpha_pll_rate pc.2))
      ∧ (env.map_err = none →
          pll_configs (camcc_sdm845.cam_cc_sdm845_probe env camcc_sdm845.initial
            camcc_sdm845.cam_cc_sdm845_desc).calls
          = [(.cam_cc_pll0, { l := 0x1f, alpha := 0x4000 }),
             (.cam_cc_pll1, { l := 0x2a, alpha := 0x1555 }),
             (.cam_cc_pll2, { l := 0x32, alpha := 0x0 }),
             (.cam_cc_pll3, { l := 0x14, alpha := 0x0 })]))
    ∧ ((∀ pc ∈ pll_configs (dispcc_sdm845.disp_cc_sdm845_probe env dispcc_sdm845.initial
          dispcc_sdm845.disp_cc_sdm845_desc).calls,
        ∃ b ∈ (dispcc_sdm845.initial.pll pc.1).vco_table, in_vco_band b (alpha_pll_rate pc.2))
      ∧ (env.map_err = none →
          pll_configs (dispcc_sdm845.disp_cc_sdm845_probe env dispcc_sdm845.initial
            dispcc_sdm845.disp_cc_sdm845_desc).calls
          = [(.disp_cc_pll0, { l := 0x2c, alpha := 0xcaaa })]))
    ∧ ((∀ pc ∈ pll_configs (gpucc_sdm845.gpu_cc_sdm845_probe env gpucc_sdm845.initial
          gpucc_sdm845.gpu_cc_sdm845_desc).calls,
        ∃ b ∈ (gpucc_sdm845.initial.pll pc.1).vco_table, in_vco_band b (alpha_pll_rate pc.2))
      ∧ (env.map_err = none → env.register_ret = 0 →
          pll_configs (gpucc_sdm845.gpu_cc_sdm845_probe env gpucc_sdm845.initial
            gpucc_sdm845.gpu_cc_sdm845_desc).calls
          = [(.gpu_cc_pll0, { l := 0x1d, alpha := 0x2aaa }),
             (.gpu_cc_pll1, { l := 0x1a, alpha := 0xaaaa })])) := by
  refine ⟨⟨?_, ?_⟩, ⟨?_, ?_⟩, ⟨?_, ?_⟩⟩
  · rw [cam_probe_pll_configs]
    split
    · intro pc hpc
      simp only [List.mem_cons, List.mem_singleton, List.not_mem_nil, or_false] at hpc
      refine ⟨{ min_freq := 249600000, max_freq := 2000000000, val := 0 }, by
        rcases hpc with rfl | rfl | rfl | rfl <;> decide, ?_⟩
      rcases hpc with rfl | rfl | rfl | rfl <;>
        norm_num [in_vco_band, alpha_pll_rate, BI_TCXO_RATE, ALPHA_WIDTH]
    · intro pc hpc; exact absurd hpc (List.not_mem_nil _)
  · intro h; rw [cam_probe_pll_configs, if_pos h]
  · rw [disp_probe_pll_configs]
    split
    · intro pc hpc
      simp only [List.mem_singleton] at hpc
      subst hpc
      exact ⟨{ min_freq := 249600000, max_freq := 2000000000, val := 0 }, by decide, by
        norm_num [in_vco_band, alpha_pll_rate, BI_TCXO_RATE, ALPHA_WIDTH]⟩
    · intro pc hpc; exact absurd hpc (List.not_mem_nil _)
  · intro h; rw [disp_probe_pll_configs, if_pos h]
  · rw [gpu_probe_pll_configs]
    split
    · intro pc hpc
      simp only [List.mem_cons, List.mem_singleton, List.not_mem_nil, or_false] at hpc
      refine ⟨{ min_freq := 249600000, max_freq := 2000000000, val := 0 }, by
        rcases hpc with rfl | rfl <;> decide, ?_⟩
      rcases hpc with rfl | rfl <;>
        norm_num [in_vco_band, alpha_pll_rate, BI_TCXO_RATE, ALPHA_WIDTH]
    · intro pc hpc; exact absurd hpc (List.not_mem_nil _)
  · intro h1 h2; rw [gpu_probe_pll_configs, if_pos ⟨h1, h2⟩]

/-- Witness for C10: the probes of an sdm670 device whose calls all succeed
configure the seven PLLs, and the first camera configuration, l = 0x1f with
alpha = 0x4000, lies in band 0 of cam_cc_pll0. -/
theorem C10_witness :
    (pll_configs (camcc_sdm845.cam_cc_sdm845_probe ⟨true, none, 0, 0⟩ camcc_sdm845.initial
        camcc_sdm845.cam_cc_sdm845_desc).calls).length
      + (pll_configs (dispcc_sdm845.disp_cc_sdm845_probe ⟨true, none, 0, 0⟩ dispcc_sdm845.initial
        dispcc_sdm845.disp_cc_sdm845_desc).calls).length
      + (pll_configs (gpucc_sdm845.gpu_cc_sdm845_probe ⟨true, none, 0, 0⟩ gpucc_sdm845.initial
        gpucc_sdm845.gpu_cc_sdm845_desc).calls).length = 7
    ∧ ∃ b ∈ (camcc_sdm845.initial.pll .cam_cc_pll0).vco_table,
        in_vco_band b (alpha_pll_rate { l := 0x1f, alpha := 0x4000 }) := by
  have h := C10_probe_pll_rates_in_vco_band ⟨true, none, 0, 0⟩
  refine ⟨?_, ?_⟩
  · rw [h.1.2 rfl, h.2.1.2 rfl, h.2.2.2 rfl rfl]; rfl
  · exact h.1.1 (.cam_cc_pll0, { l := 0x1f, alpha := 0x4000 }) (by rw [h.1.2 rfl]; decide)
/-- Claim C11.  The camera probe configures cam_cc_pll0 first, with l = 0x1f and
alpha = 0x4000, and with a 19.2 MHz reference and a 16-bit alpha field this
configuration solves rate = parent_rate x (l + alpha / 2^16) to exactly
600,000,000 Hz. -/
theorem C11_cam_pll0_is_600_mhz :
    (∀ env : probe_env, env.map_err = none →
        (pll_configs (camcc_sdm845.cam_cc_sdm845_probe env camcc_sdm845.initial
          camcc_sdm845.cam_cc_sdm845_desc).calls).head?
          = some (.cam_cc_pll0, { l := 0x1f, alpha := 0x4000 }))
    ∧ BI_TCXO_RATE = 19200000
    ∧ ALPHA_WIDTH = 16
    ∧ alpha_pll_rate { l := 0x1f, alpha := 0x4000 } = 600000000 := by
  refine ⟨?_, rfl, rfl, ?_⟩
  · intro env h
    rw [cam_probe_pll_configs, if_pos h]
    rfl
  · norm_num [alpha_pll_rate, BI_TCXO_RATE, ALPHA_WIDTH]

/-- Claim C12.  Up to its terminator the even post-divider table offers the
divisors 1, 2, 4, 8 and the odd table the divisors 1, 3, 5, 7, each once; every
post-divider of the camera and GPU controllers uses one of the two tables with
a field of 4 bits, and every register value of its table fits that field. -/
theorem C12_post_div_tables :
    div_table_divisors camcc_sdm845.post_div_table_fabia_even = [1, 2, 4, 8]
    ∧ div_table_divisors camcc_sdm845.post_div_table_fabia_odd = [1, 3, 5, 7]
    ∧ div_table_divisors gpucc_sdm845.post_div_table_fabia_even = [1, 2, 4, 8]
    ∧ camcc_sdm845.post_div_table_fabia_even
        = div_table_entries camcc_sdm845.post_div_table_fabia_even ++ [({ } : clk_div_table)]
    ∧ camcc_sdm845.post_div_table_fabia_odd
        = div_table_entries camcc_sdm845.post_div_table_fabia_odd ++ [({ } : clk_div_table)]
    ∧ gpucc_sdm845.post_div_table_fabia_even
        = div_table_entries gpucc_sdm845.post_div_table_fabia_even ++ [({ } : clk_div_table)]
    ∧ (∀ p : camcc_sdm845.Postdiv,
        ((camcc_sdm845.initial.postdiv p).post_div_table = camcc_sdm845.post_div_table_fabia_even
          ∨ (camcc_sdm845.initial.postdiv p).post_div_table
              = camcc_sdm845.post_div_table_fabia_odd)
        ∧ (camcc_sdm845.initial.postdiv p).width = 4
        ∧ div_table_fits (camcc_sdm845.initial.postdiv p).post_div_table
            (camcc_sdm845.initial.postdiv p).width)
    ∧ (∀ p : gpucc_sdm845.Postdiv,
        (gpucc_sdm845.initial.postdiv p).post_div_table = gpucc_sdm845.post_div_table_fabia_even
        ∧ (gpucc_sdm845.initial.postdiv p).width = 4
        ∧ div_table_fits (gpucc_sdm845.initial.postdiv p).post_div_table
            (gpucc_sdm845.initial.postdiv p).width) := by
  refine ⟨by decide, by decide, by decide, by decide, by decide, by decide, ?_, ?_⟩
  · intro p; cases p <;> decide
  · intro p; cases p; decide

/-- Counterexample to C13 as stated: the camera branch cam_cc_bps_axi_clk names
no parent at all, `num_parents` is 0 and both parent lists are empty. -/
theorem C13_counterexample_branch_without_parent :
    (camcc_sdm845.initial.branch .cam_cc_bps_axi_clk).clkr.hw_init.num_parents = 0
    ∧ possible_parents (camcc_sdm845.initial.branch .cam_cc_bps_axi_clk).clkr.hw_init = [] := by
  decide

/-- Claim C13, amended.  Every branch of the three controllers has at most one
parent: its `parent_data` is empty, `num_parents` is the number of entries of
`parent_hws`, and that number is 0 or 1.  Both occur: cam_cc_bps_clk has the one
parent cam_cc_bps_clk_src, cam_cc_bps_axi_clk has none. -/
theorem C13_branch_at_most_one_parent :
    (camcc_sdm845.initial.branch .cam_cc_bps_clk).clkr.hw_init.parent_hws
      = [.rcg .cam_cc_bps_clk_src]
    ∧ (camcc_sdm845.initial.branch .cam_cc_bps_axi_clk).clkr.hw_init.parent_hws = []
    ∧
    (∀ b : camcc_sdm845.Branch,
        (camcc_sdm845.initial.branch b).clkr.hw_init.parent_data = []
        ∧ (camcc_sdm845.initial.branch b).clkr.hw_init.num_parents
            = (camcc_sdm845.initial.branch b).clkr.hw_init.parent_hws.length
        ∧ (camcc_sdm845.initial.branch b).clkr.hw_init.parent_hws.length ≤ 1)
    ∧ (∀ b : dispcc_sdm845.Branch,
        (dispcc_sdm845.initial.branch b).clkr.hw_init.parent_data = []
        ∧ (dispcc_sdm845.initial.branch b).clkr.hw_init.num_parents
            = (dispcc_sdm845.initial.branch b).clkr.hw_init.parent_hws.length
        ∧ (dispcc_sdm845.initial.branch b).clkr.hw_init.parent_hws.length ≤ 1)
    ∧ (∀ b : gpucc_sdm845.Branch,
        (gpucc_sdm845.initial.branch b).clkr.hw_init.parent_data = []
        ∧ (gpucc_sdm845.initial.branch b).clkr.hw_init.num_parents
            = (gpucc_sdm845.initial.branch b).clkr.hw_init.parent_hws.length
        ∧ (gpucc_sdm845.initial.branch b).clkr.hw_init.parent_hws.length ≤ 1) := by
  refine ⟨by decide, by decide, ?_, ?_, ?_⟩
  · intro b; cases b <;> decide
  · intro b; cases b <;> decide
  · intro b; cases b <;> decide

/-- The descriptions the camera probe hands to `qcom_cc_really_probe`. -/
theorem cam_probe_registered_descs (env : probe_env) :
    registered_descs (camcc_sdm845.cam_cc_sdm845_probe env camcc_sdm845.initial
        camcc_sdm845.cam_cc_sdm845_desc).calls
      = if env.map_err = none then
          [{ camcc_sdm845.cam_cc_sdm845_desc with gdscs := none, num_gdscs := 0 }]
        else [] := by
  obtain ⟨sdm670, map_err, register_ret, really_probe_ret⟩ := env
  cases map_err <;> cases sdm670 <;> rfl

/-- The descriptions the display probe hands to `qcom_cc_really_probe`. -/
theorem disp_probe_registered_descs (env : probe_env) :
    registered_descs (dispcc_sdm845.disp_cc_sdm845_probe env dispcc_sdm845.initial
        dispcc_sdm845.disp_cc_sdm845_desc).calls
      = if env.map_err = none then
          [{ dispcc_sdm845.disp_cc_sdm845_desc with gdscs := none, num_gdscs := 0 }]
        else [] := by
  obtain ⟨sdm670, map_err, register_ret, really_probe_ret⟩ := env
  cases map_err <;> cases sdm670 <;> rfl

/-- The descriptions the GPU probe hands to `qcom_cc_really_probe`. -/
theorem gpu_probe_registered_descs (env : probe_env) :
    registered_descs (gpucc_sdm845.gpu_cc_sdm845_probe env gpucc_sdm845.initial
        gpucc_sdm845.gpu_cc_sdm845_desc).calls
      = if env.map_err = none ∧ env.register_ret = 0 then
          [{ gpucc_sdm845.gpu_cc_sdm845_desc with gdscs := none, num_gdscs := 0 }]
        else [] := by
  obtain ⟨sdm670, map_err, register_ret, really_probe_ret⟩ := env
  cases map_err with
  | some e => rfl
  | none =>
    by_cases h : register_ret = 0
    · subst h; cases sdm670 <;> rfl
    · simp [gpucc_sdm845.gpu_cc_sdm845_probe, h, registered_descs]

/-- Counterexample to C14 as stated: on an sdm845 device whose calls all
succeed, the description each probe hands to `qcom_cc_really_probe` has a NULL
`gdscs` pointer and `num_gdscs` 0, not the 6, 1 and 2 power domains declared. -/
theorem C14_counterexample_no_gdscs_at_registration :
    (registered_descs (camcc_sdm845.cam_cc_sdm845_probe ⟨false, none, 0, 0⟩ camcc_sdm845.initial
        camcc_sdm845.cam_cc_sdm845_desc).calls).map (fun d => (d.gdscs, d.num_gdscs))
      = [(none, 0)]
    ∧ (registered_descs (dispcc_sdm845.disp_cc_sdm845_probe ⟨false, none, 0, 0⟩
        dispcc_sdm845.initial dispcc_sdm845.disp_cc_sdm845_desc).calls).map
          (fun d => (d.gdscs, d.num_gdscs))
      = [(none, 0)]
    ∧ (registered_descs (gpucc_sdm845.gpu_cc_sdm845_probe ⟨false, none, 0, 0⟩ gpucc_sdm845.initial
        gpucc_sdm845.gpu_cc_sdm845_desc).calls).map (fun d => (d.gdscs, d.num_gdscs))
      = [(none, 0)] := by
  decide

/-- Claim C14, amended.  The static descriptions declare 6 power domains for
the camera controller, 1 for the display controller and 2 for the GPU
controller, but each probe sets `gdscs` to NULL and `num_gdscs` to 0 before the
handover: every description a probe hands to `qcom_cc_really_probe` has no
power domains, and a probe that reaches the handover hands over the static
description with exactly these two fields cleared. -/
theorem C14_gdscs_cleared_before_registration :
    (camcc_sdm845.cam_cc_sdm845_desc.gdscs = some camcc_sdm845.cam_cc_sdm845_gdscs
      ∧ camcc_sdm845.cam_cc_sdm845_gdscs.length = 6
      ∧ camcc_sdm845.cam_cc_sdm845_desc.num_gdscs = 6)
    ∧ (dispcc_sdm845.disp_cc_sdm845_desc.gdscs = some dispcc_sdm845.disp_cc_sdm845_gdscs
      ∧ dispcc_sdm845.disp_cc_sdm845_gdscs.length = 1
      ∧ dispcc_sdm845.disp_cc_sdm845_desc.num_gdscs = 1)
    ∧ (gpucc_sdm845.gpu_cc_sdm845_desc.gdscs = some gpucc_sdm845.gpu_cc_sdm845_gdscs
      ∧ gpucc_sdm845.gpu_cc_sdm845_gdscs.length = 2
      ∧ gpucc_sdm845.gpu_cc_sdm845_desc.num_gdscs = 2)
    ∧ (∀ env : probe_env,
        (∀ d ∈ registered_descs (camcc_sdm845.cam_cc_sdm845_probe env camcc_sdm845.initial
            camcc_sdm845.cam_cc_sdm845_desc).calls, d.gdscs = none ∧ d.num_gdscs = 0)
        ∧ (env.map_err = none →
            registered_descs (camcc_sdm845.cam_cc_sdm845_probe env camcc_sdm845.initial
              camcc_sdm845.cam_cc_sdm845_desc).calls
            = [{ camcc_sdm845.cam_cc_sdm845_desc with gdscs := none, num_gdscs := 0 }]))
    ∧ (∀ env : probe_env,
        (∀ d ∈ registered_descs (dispcc_sdm845.disp_cc_sdm845_probe env dispcc_sdm845.initial
            dispcc_sdm845.disp_cc_sdm845_desc).calls, d.gdscs = none ∧ d.num_gdscs = 0)
        ∧ (env.map_err = none →
            registered_descs (dispcc_sdm845.disp_cc_sdm845_probe env dispcc_sdm845.initial
              dispcc_sdm845.disp_cc_sdm845_desc).calls
            = [{ dispcc_sdm845.disp_cc_sdm845_desc with gdscs := none, num_gdscs := 0 }]))
    ∧ (∀ env : probe_env,
        (∀ d ∈ registered_descs (gpucc_sdm845.gpu_cc_sdm845_probe env gpucc_sdm845.initial
            gpucc_sdm845.gpu_cc_sdm845_desc).calls, d.gdscs = none ∧ d.num_gdscs = 0)
        ∧ (env.map_err = none → env.register_ret = 0 →
            registered_descs (gpucc_sdm845.gpu_cc_sdm845_probe env gpucc_sdm845.initial
              gpucc_sdm845.gpu_cc_sdm845_desc).calls
            = [{ gpucc_sdm845.gpu_cc_sdm845_desc with gdscs := none, num_gdscs := 0 }])) := by
  refine ⟨by decide, by decide, by decide, fun env => ⟨?_, ?_⟩, fun env => ⟨?_, ?_⟩,
    fun env => ⟨?_, ?_⟩⟩
  · rw [cam_probe_registered_descs]
    split
    · intro d hd; rw [List.mem_singleton] at hd; subst hd; exact ⟨rfl, rfl⟩
    · intro d hd; exact absurd hd (List.not_mem_nil _)
  · intro h; rw [cam_probe_registered_descs, if_pos h]
  · rw [disp_probe_registered_descs]
    split
    · intro d hd; rw [List.mem_singleton] at hd; subst hd; exact ⟨rfl, rfl⟩
    · intro d hd; exact absurd hd (List.not_mem_nil _)
  · intro h; rw [disp_probe_registered_descs, if_pos h]
  · rw [gpu_probe_registered_descs]
    split
    · intro d hd; rw [List.mem_singleton] at hd; subst hd; exact ⟨rfl, rfl⟩
    · intro d hd; exact absurd hd (List.not_mem_nil _)
  · intro h1 h2; rw [gpu_probe_registered_descs, if_pos ⟨h1, h2⟩]

/-- Witness for C14: the camera probe of an sdm670 device whose calls all
succeed hands over one description, and it has no power domains. -/
theorem C14_witness :
    (registered_descs (camcc_sdm845.cam_cc_sdm845_probe ⟨true, none, 0, 0⟩ camcc_sdm845.initial
        camcc_sdm845.cam_cc_sdm845_desc).calls).map (fun d => d.num_gdscs) = [0] := by
  rw [(C14_gdscs_cleared_before_registration.2.2.2.1 ⟨true, none, 0, 0⟩).2 rfl]
  rfl

/-- The registers the display probe writes directly. -/
theorem disp_probe_written_regs (env : probe_env) :
    probe_written_regs (dispcc_sdm845.disp_cc_sdm845_probe env dispcc_sdm845.initial
        dispcc_sdm845.disp_cc_sdm845_desc).calls
      = if env.map_err = none then [0x8000] else [] := by
  obtain ⟨sdm670, map_err, register_ret, really_probe_ret⟩ := env
  cases map_err <;> cases sdm670 <;> rfl

/-- The camera probe writes no register directly. -/
theorem cam_probe_written_regs (env : probe_env) :
    probe_written_regs (camcc_sdm845.cam_cc_sdm845_probe env camcc_sdm845.initial
        camcc_sdm845.cam_cc_sdm845_desc).calls = [] := by
  obtain ⟨sdm670, map_err, register_ret, really_probe_ret⟩ := env
  cases map_err <;> cases sdm670 <;> rfl

/-- The registers the GPU probe writes directly. -/
theorem gpu_probe_written_regs (env : probe_env) :
    probe_written_regs (gpucc_sdm845.gpu_cc_sdm845_probe env gpucc_sdm845.initial
        gpucc_sdm845.gpu_cc_sdm845_desc).calls
      = if env.map_err = none ∧ env.register_ret = 0 then [0x1098, 0x106c] else [] := by
  obtain ⟨sdm670, map_err, register_ret, really_probe_ret⟩ := env
  cases map_err with
  | some e => rfl
  | none =>
    by_cases h : register_ret = 0
    · subst h; cases sdm670 <;> rfl
    · simp [gpucc_sdm845.gpu_cc_sdm845_probe, h, probe_written_regs]

/-- Claim C15.  Every register offset a controller uses is a multiple of 4
inside the window `[0, max_register]` of its register map: the base offsets of
the PLLs and post-dividers, the command registers of the RCGs, the registers
of the display dividers, the enable and halt registers of the branches, the
registers of the power domains, the reset registers, and the registers the
probe writes directly. -/
theorem C15_register_offsets_in_window :
    ((∀ p, reg_ok camcc_sdm845.cam_cc_sdm845_regmap_config (camcc_sdm845.initial.pll p).offset)
      ∧ (∀ p, reg_ok camcc_sdm845.cam_cc_sdm845_regmap_config
          (camcc_sdm845.initial.postdiv p).offset)
      ∧ (∀ r, reg_ok camcc_sdm845.cam_cc_sdm845_regmap_config
          (camcc_sdm845.initial.rcg r).cmd_rcgr)
      ∧ (∀ b, reg_ok camcc_sdm845.cam_cc_sdm845_regmap_config
            (camcc_sdm845.initial.branch b).clkr.enable_reg
          ∧ reg_ok camcc_sdm845.cam_cc_sdm845_regmap_config
            (camcc_sdm845.initial.branch b).halt_reg)
      ∧ (∀ g, reg_ok camcc_sdm845.cam_cc_sdm845_regmap_config (camcc_sdm845.gdsc_of g).gdscr
          ∧ reg_ok camcc_sdm845.cam_cc_sdm845_regmap_config (camcc_sdm845.gdsc_of g).gds_hw_ctrl
          ∧ reg_ok camcc_sdm845.cam_cc_sdm845_regmap_config
            (camcc_sdm845.gdsc_of g).clamp_io_ctrl)
      ∧ (∀ x ∈ camcc_sdm845.cam_cc_sdm845_resets,
          reg_ok camcc_sdm845.cam_cc_sdm845_regmap_config x.reg)
      ∧ (∀ env, ∀ reg ∈ probe_written_regs (camcc_sdm845.cam_cc_sdm845_probe env
            camcc_sdm845.initial camcc_sdm845.cam_cc_sdm845_desc).calls,
          reg_ok camcc_sdm845.cam_cc_sdm845_regmap_config reg)
      ∧ camcc_sdm845.cam_cc_sdm845_desc.config = camcc_sdm845.cam_cc_sdm845_regmap_config)
    ∧ ((∀ p, reg_ok dispcc_sdm845.disp_cc_sdm845_regmap_config
          (dispcc_sdm845.initial.pll p).offset)
      ∧ (∀ r, reg_ok dispcc_sdm845.disp_cc_sdm845_regmap_config
          (dispcc_sdm845.initial.rcg r).cmd_rcgr)
      ∧ (∀ d, reg_ok dispcc_sdm845.disp_cc_sdm845_regmap_config (dispcc_sdm845.initial.div d).reg)
      ∧ (∀ b, reg_ok dispcc_sdm845.disp_cc_sdm845_regmap_config
            (dispcc_sdm845.initial.branch b).clkr.enable_reg
          ∧ reg_ok dispcc_sdm845.disp_cc_sdm845_regmap_config
            (dispcc_sdm845.initial.branch b).halt_reg)
      ∧ (∀ g, reg_ok dispcc_sdm845.disp_cc_sdm845_regmap_config (dispcc_sdm845.gdsc_of g).gdscr
          ∧ reg_ok dispcc_sdm845.disp_cc_sdm845_regmap_config
            (dispcc_sdm845.gdsc_of g).gds_hw_ctrl
          ∧ reg_ok dispcc_sdm845.disp_cc_sdm845_regmap_config
            (dispcc_sdm845.gdsc_of g).clamp_io_ctrl)
      ∧ (∀ x ∈ dispcc_sdm845.disp_cc_sdm845_resets,
          reg_ok dispcc_sdm845.disp_cc_sdm845_regmap_config x.reg)
      ∧ (∀ env, ∀ reg ∈ probe_written_regs (dispcc_sdm845.disp_cc_sdm845_probe env
            dispcc_sdm845.initial dispcc_sdm845.disp_cc_sdm845_desc).calls,
          reg_ok dispcc_sdm845.disp_cc_sdm845_regmap_config reg)
      ∧ dispcc_sdm845.disp_cc_sdm845_desc.config = dispcc_sdm845.disp_cc_sdm845_regmap_config)
    ∧ ((∀ p, reg_ok gpucc_sdm845.gpu_cc_sdm845_regmap_config (gpucc_sdm845.initial.pll p).offset)
      ∧ (∀ p, reg_ok gpucc_sdm845.gpu_cc_sdm845_regmap_config
          (gpucc_sdm845.initial.postdiv p).offset)
      ∧ (∀ r, reg_ok gpucc_sdm845.gpu_cc_sdm845_regmap_config
          (gpucc_sdm845.initial.rcg r).cmd_rcgr)
      ∧ (∀ b, reg_ok gpucc_sdm845.gpu_cc_sdm845_regmap_config
            (gpucc_sdm845.initial.branch b).clkr.enable_reg
          ∧ reg_ok gpucc_sdm845.gpu_cc_sdm845_regmap_config
            (gpucc_sdm845.initial.branch b).halt_reg)
      ∧ (∀ g, reg_ok gpucc_sdm845.gpu_cc_sdm845_regmap_config (gpucc_sdm845.gdsc_of g).gdscr
          ∧ reg_ok gpucc_sdm845.gpu_cc_sdm845_regmap_config (gpucc_sdm845.gdsc_of g).gds_hw_ctrl
          ∧ reg_ok gpucc_sdm845.gpu_cc_sdm845_regmap_config
            (gpucc_sdm845.gdsc_of g).clamp_io_ctrl)
      ∧ (∀ x ∈ gpucc_sdm845.gpu_cc_sdm845_resets,
          reg_ok gpucc_sdm845.gpu_cc_sdm845_regmap_config x.reg)
      ∧ (∀ env, ∀ reg ∈ probe_written_regs (gpucc_sdm845.gpu_cc_sdm845_probe env
            gpucc_sdm845.initial gpucc_sdm845.gpu_cc_sdm845_desc).calls,
          reg_ok gpucc_sdm845.gpu_cc_sdm845_regmap_config reg)
      ∧ gpucc_sdm845.gpu_cc_sdm845_desc.config = gpucc_sdm845.gpu_cc_sdm845_regmap_config) := by
  refine ⟨⟨?_, ?_, ?_, ?_, ?_, by decide, ?_, rfl⟩, ⟨?_, ?_, ?_, ?_, ?_, by decide, ?_, rfl⟩,
    ⟨?_, ?_, ?_, ?_, ?_, by decide, ?_, rfl⟩⟩
  · intro p; cases p <;> decide
  · intro p; cases p <;> decide
  · intro r; cases r <;> decide
  · intro b; cases b <;> decide
  · intro g; cases g <;> decide
  · intro env reg h; rw [cam_probe_written_regs] at h; exact absurd h (List.not_mem_nil _)
  · intro p; cases p; decide
  · intro r; cases r <;> decide
  · intro d; cases d <;> decide
  · intro b; cases b <;> decide
  · intro g; cases g; decide
  · intro env reg h
    rw [disp_probe_written_regs] at h
    split at h
    · rw [List.mem_singleton] at h; subst h; decide
    · exact absurd h (List.not_mem_nil _)
  · intro p; cases p <;> decide
  · intro p; cases p; decide
  · intro r; cases r <;> decide
  · intro b; cases b <;> decide
  · intro g; cases g <;> decide
  · intro env reg h
    rw [gpu_probe_written_regs] at h
    split at h
    · simp only [List.mem_cons, List.mem_singleton, List.not_mem_nil, or_false] at h
      rcases h with rfl | rfl <;> decide
    · exact absurd h (List.not_mem_nil _)

/-- Claim C16.  In the GPU controller, in both variants, every entry of the
frequency table of gpu_cc_gx_gfx3d_clk_src selects the source P_CRC_DIV, which
the parent map gives mux code 1 and the parent list the clock crc_div, with
divider 1 and no M/N fraction; crc_div has factor 1/1 and the single parent
gpu_cc_pll0_out_even; the RCG, crc_div and gpu_cc_pll0_out_even all carry
CLK_SET_RATE_PARENT; so the rate the RCG asks of crc_div for a table entry, and
the rate crc_div then asks of gpu_cc_pll0_out_even, is the table rate itself. -/
theorem C16_gfx3d_request_reaches_post_divider :
    ∀ sdm670 : Bool,
      (∀ f ∈ freq_tbl_entries
          (active_freq_tbl ((gpucc_sdm845.variant sdm670).rcg .gpu_cc_gx_gfx3d_clk_src)),
        f.src = gpucc_sdm845.P_CRC_DIV
        ∧ freq_tbl_divider f = 1
        ∧ f.m = 0 ∧ f.n = 0
        ∧ rcg2_parent_request f = (f.freq : ℚ)
        ∧ fixed_factor_parent_request ((gpucc_sdm845.variant sdm670).fixed_factor .crc_div)
            (rcg2_parent_request f) = (f.freq : ℚ))
      ∧ freq_tbl_entries
          (active_freq_tbl ((gpucc_sdm845.variant sdm670).rcg .gpu_cc_gx_gfx3d_clk_src)) ≠ []
      ∧ ((gpucc_sdm845.variant sdm670).rcg .gpu_cc_gx_gfx3d_clk_src).parent_map[1]?
          = some { src := gpucc_sdm845.P_CRC_DIV, cfg := 1 }
      ∧ ((gpucc_sdm845.variant sdm670).rcg .gpu_cc_gx_gfx3d_clk_src).clkr.hw_init.parent_data[1]?
          = some { hw := some (.fixed_factor .crc_div) }
      ∧ ((gpucc_sdm845.variant sdm670).fixed_factor .crc_div).mult = 1
      ∧ ((gpucc_sdm845.variant sdm670).fixed_factor .crc_div).div = 1
      ∧ ((gpucc_sdm845.variant sdm670).fixed_factor .crc_div).hw_init.parent_hws
          = [.postdiv .gpu_cc_pll0_out_even]
      ∧ clk_flag.CLK_SET_RATE_PARENT
          ∈ ((gpucc_sdm845.variant sdm670).rcg .gpu_cc_gx_gfx3d_clk_src).clkr.hw_init.flags
      ∧ clk_flag.CLK_SET_RATE_PARENT
          ∈ ((gpucc_sdm845.variant sdm670).fixed_factor .crc_div).hw_init.flags
      ∧ clk_flag.CLK_SET_RATE_PARENT
          ∈ ((gpucc_sdm845.variant sdm670).postdiv .gpu_cc_pll0_out_even).clkr.hw_init.flags := by
  intro sdm670
  have key : ∀ f ∈ freq_tbl_entries
      (active_freq_tbl ((gpucc_sdm845.variant sdm670).rcg .gpu_cc_gx_gfx3d_clk_src)),
      f.src = gpucc_sdm845.P_CRC_DIV ∧ f.pre_div = 1 ∧ f.m = 0 ∧ f.n = 0 := by
    cases sdm670 <;> decide
  have hm : ((gpucc_sdm845.variant sdm670).fixed_factor .crc_div).mult = 1 := by
    cases sdm670 <;> decide
  have hd : ((gpucc_sdm845.variant sdm670).fixed_factor .crc_div).div = 1 := by
    cases sdm670 <;> decide
  refine ⟨?_, by cases sdm670 <;> decide, by cases sdm670 <;> decide,
    by cases sdm670 <;> decide, hm, hd, by cases sdm670 <;> decide,
    by cases sdm670 <;> decide, by cases sdm670 <;> decide, by cases sdm670 <;> decide⟩
  intro f hf
  obtain ⟨hs, hp, hm0, hn0⟩ := key f hf
  have hdiv : freq_tbl_divider f = 1 := by
    rw [freq_tbl_divider, hp]; norm_num
  have hreq : rcg2_parent_request f = (f.freq : ℚ) := by
    rw [rcg2_parent_request, hdiv, if_pos hn0]; ring
  refine ⟨hs, hdiv, hm0, hn0, hreq, ?_⟩
  rw [fixed_factor_parent_request, hreq, hm, hd]; norm_num

/-- Every rate of a list is at most its `table_max`. -/
theorem le_table_max {l : List Nat} {x : Nat} (h : x ∈ l) : x ≤ table_max l := by
  induction l with
  | nil => exact absurd h (List.not_mem_nil _)
  | cons a l ih =>
    simp only [table_max, List.foldr_cons]
    rcases List.mem_cons.mp h with rfl | h'
    · exact le_max_left _ _
    · exact le_trans (ih h') (le_max_right _ _)

/-- The `table_max` of a non-empty list is one of its rates. -/
theorem table_max_mem {l : List Nat} (h : l ≠ []) : table_max l ∈ l := by
  induction l with
  | nil => exact absurd rfl h
  | cons a l ih =>
    simp only [table_max, List.foldr_cons]
    by_cases hl : l = []
    · subst hl; simp
    · rcases max_choice a (List.foldr max 0 l) with hm | hm
      · rw [hm]; exact List.mem_cons_self _ _
      · rw [hm]; exact List.mem_cons_of_mem _ (ih hl)

/-- In a strictly ascending table the lookup follows the round-up rule of the
spec. -/
theorem find_freq_round_up (t : List freq_tbl) (hs : strictly_ascending (freq_tbl_rates t))
    (hne : freq_tbl_rates t ≠ []) (req : Nat) :
    ∃ f, find_freq t req = some f ∧ is_round_up_choice (freq_tbl_rates t) req f.freq := by
  have hs' : (freq_tbl_entries t).Pairwise (fun a b => a.freq < b.freq) := by
    rw [strictly_ascending, freq_tbl_rates, List.pairwise_map] at hs; exact hs
  have hne' : freq_tbl_entries t ≠ [] := by
    intro h; apply hne; rw [freq_tbl_rates, h]; rfl
  have hmem : ∀ g ∈ freq_tbl_entries t, g.freq ∈ freq_tbl_rates t :=
    fun g hg => List.mem_map_of_mem _ hg
  cases hfind : (freq_tbl_entries t).find? (fun f => decide (req ≤ f.freq)) with
  | some f =>
    refine ⟨f, by rw [find_freq, hfind], hmem f (List.mem_of_find?_eq_some hfind), ?_, ?_⟩
    · intro _
      obtain ⟨hp, front, back, hsplit, hfront⟩ := List.find?_eq_some.mp hfind
      have hreq : req ≤ f.freq := of_decide_eq_true hp
      refine ⟨hreq, ?_⟩
      intro u hu hru
      obtain ⟨g, hg, rfl⟩ := List.mem_map.mp hu
      rw [hsplit] at hg hs'
      rcases List.mem_append.mp hg with hgf | hgb
      · have := hfront g hgf
        simp only [Bool.not_eq_true', decide_eq_false_iff_not] at this
        exact absurd hru this
      · rcases List.mem_cons.mp hgb with rfl | hgb'
        · exact le_refl _
        · have h2 := (List.pairwise_append.mp hs').2.1
          exact le_of_lt ((List.pairwise_cons.mp h2).1 g hgb')
    · intro hlt
      have hreq : req ≤ f.freq := of_decide_eq_true (List.find?_eq_some.mp hfind).1
      have := le_table_max (hmem f (List.mem_of_find?_eq_some hfind))
      omega
  | none =>
    have hall : ∀ g ∈ freq_tbl_entries t, g.freq < req := by
      intro g hg
      have := List.find?_eq_none.mp hfind g hg
      simp only [decide_eq_true_eq] at this
      omega
    have hlast : ∀ g ∈ freq_tbl_entries t, g.freq ≤ ((freq_tbl_entries t).getLast hne').freq := by
      intro g hg
      have hd := List.dropLast_append_getLast hne'
      rw [← hd] at hg hs'
      rcases List.mem_append.mp hg with hgd | hgl
      · exact le_of_lt ((List.pairwise_append.mp hs').2.2 g hgd _ (List.mem_singleton.mpr rfl))
      · rw [List.mem_singleton.mp hgl]
    have hmaxlt : table_max (freq_tbl_rates t) < req := by
      obtain ⟨g, hg, hgeq⟩ := List.mem_map.mp (table_max_mem hne)
      have := hall g hg
      change g.freq = table_max (freq_tbl_rates t) at hgeq
      omega
    refine ⟨(freq_tbl_entries t).getLast hne', ?_, hmem _ (List.getLast_mem hne'), ?_, ?_⟩
    · rw [find_freq, hfind, List.getLast?_eq_getLast _ hne']
    · intro h; omega
    · intro _
      apply le_antisymm
      · exact le_table_max (hmem _ (List.getLast_mem hne'))
      · obtain ⟨g, hg, hgeq⟩ := List.mem_map.mp (table_max_mem hne)
        have := hlast g hg
        change g.freq = table_max (freq_tbl_rates t) at hgeq
        omega

/-- The table every camera RCG points to is strictly ascending, in both variants. -/
theorem cam_active_tables_ascending (sdm670 : Bool) (r : camcc_sdm845.Rcg) :
    strictly_ascending (freq_tbl_rates (active_freq_tbl ((camcc_sdm845.variant sdm670).rcg r))) := by
  cases sdm670 <;> cases r <;> decide

/-- The table every display RCG points to is strictly ascending, in both variants. -/
theorem disp_active_tables_ascending (sdm670 : Bool) (r : dispcc_sdm845.Rcg) :
    strictly_ascending
      (freq_tbl_rates (active_freq_tbl ((dispcc_sdm845.variant sdm670).rcg r))) := by
  cases sdm670 <;> cases r <;> decide

/-- The table every GPU RCG points to is strictly ascending, in both variants. -/
theorem gpu_active_tables_ascending (sdm670 : Bool) (r : gpucc_sdm845.Rcg) :
    strictly_ascending (freq_tbl_rates (active_freq_tbl ((gpucc_sdm845.variant sdm670).rcg r))) := by
  cases sdm670 <;> cases r <;> decide

/-- Claim C17.  For every RCG of the three controllers, in both variants, whose
frequency table `T` is not empty, and every requested rate (positive or not),
the table lookup of the rate engine selects an entry of `T`: the one with the
smallest rate that is at least the request when the request is at most
`max(T)`, and the one with the rate `max(T)` when the request exceeds it. -/
theorem C17_set_rate_rounds_up :
    (∀ (sdm670 : Bool) (r : camcc_sdm845.Rcg) (req : Nat),
        freq_tbl_rates (active_freq_tbl ((camcc_sdm845.variant sdm670).rcg r)) ≠ [] →
        ∃ f, find_freq (active_freq_tbl ((camcc_sdm845.variant sdm670).rcg r)) req = some f
          ∧ is_round_up_choice
              (freq_tbl_rates (active_freq_tbl ((camcc_sdm845.variant sdm670).rcg r))) req f.freq)
    ∧ (∀ (sdm670 : Bool) (r : dispcc_sdm845.Rcg) (req : Nat),
        freq_tbl_rates (active_freq_tbl ((dispcc_sdm845.variant sdm670).rcg r)) ≠ [] →
        ∃ f, find_freq (active_freq_tbl ((dispcc_sdm845.variant sdm670).rcg r)) req = some f
          ∧ is_round_up_choice
              (freq_tbl_rates (active_freq_tbl ((dispcc_sdm845.variant sdm670).rcg r))) req f.freq)
    ∧ (∀ (sdm670 : Bool) (r : gpucc_sdm845.Rcg) (req : Nat),
        freq_tbl_rates (active_freq_tbl ((gpucc_sdm845.variant sdm670).rcg r)) ≠ [] →
        ∃ f, find_freq (active_freq_tbl ((gpucc_sdm845.variant sdm670).rcg r)) req = some f
          ∧ is_round_up_choice
              (freq_tbl_rates (active_freq_tbl ((gpucc_sdm845.variant sdm670).rcg r))) req f.freq) :=
  ⟨fun sdm670 r req hne => find_freq_round_up _ (cam_active_tables_ascending sdm670 r) hne req,
    fun sdm670 r req hne => find_freq_round_up _ (disp_active_tables_ascending sdm670 r) hne req,
    fun sdm670 r req hne => find_freq_round_up _ (gpu_active_tables_ascending sdm670 r) hne req⟩

/-- Witness for C17: on the table of cam_cc_bps_clk_src (19.2, 100, 200, 404,
480, 600 MHz) a request of 150 MHz selects 200 MHz and a request of 700 MHz
selects 600 MHz, as the rule says. -/
theorem C17_witness :
    freq_tbl_rates (active_freq_tbl ((camcc_sdm845.variant false).rcg .cam_cc_bps_clk_src)) ≠ []
    ∧ (find_freq (active_freq_tbl ((camcc_sdm845.variant false).rcg .cam_cc_bps_clk_src))
        150000000).map (fun f => f.freq) = some 200000000
    ∧ (find_freq (active_freq_tbl ((camcc_sdm845.variant false).rcg .cam_cc_bps_clk_src))
        700000000).map (fun f => f.freq) = some 600000000
    ∧ (∃ f, find_freq (active_freq_tbl ((camcc_sdm845.variant false).rcg .cam_cc_bps_clk_src))
          150000000 = some f
        ∧ is_round_up_choice
            (freq_tbl_rates (active_freq_tbl ((camcc_sdm845.variant false).rcg
              .cam_cc_bps_clk_src))) 150000000 f.freq) :=
  ⟨by decide, by decide, by decide,
    C17_set_rate_rounds_up.1 false .cam_cc_bps_clk_src 150000000 (by decide)⟩

/-- Counterexample to C18 as stated: the GPU probe of an sdm670 device whose
calls all succeed registers crc_div with `devm_clk_hw_register` before it
applies the fixup; and a camera probe of an sdm670 device that fails to map its
registers returns without applying the fixup at all. -/
theorem C18_counterexample_registration_before_fixup :
    registrations_before_fixup (gpucc_sdm845.gpu_cc_sdm845_probe ⟨true, none, 0, 0⟩
        gpucc_sdm845.initial gpucc_sdm845.gpu_cc_sdm845_desc).calls
      = [.devm_clk_hw_register (.fixed_factor .crc_div)]
    ∧ fixup_count (gpucc_sdm845.gpu_cc_sdm845_probe ⟨true, none, 0, 0⟩
        gpucc_sdm845.initial gpucc_sdm845.gpu_cc_sdm845_desc).calls = 1
    ∧ fixup_count (camcc_sdm845.cam_cc_sdm845_probe ⟨true, some (-22), 0, 0⟩
        camcc_sdm845.initial camcc_sdm845.cam_cc_sdm845_desc).calls = 0 := by
  decide

/-- Claim C18, amended.  A probe that gets its register map (and, for the GPU,
has registered crc_div) applies the fixup exactly once when the device is the
sdm670 variant, and then hands the fixed tables to its one call of
`qcom_cc_really_probe`, which comes after the fixup.  In the camera and display
probes no registration call comes before the fixup; in the GPU probe the one
registration before it is `devm_clk_hw_register` of crc_div, a fixed factor the
fixup does not change.  A probe that returns earlier on an error, and every
probe of a device that is not the sdm670 variant, never applies the fixup and
leaves the tables as they were. -/
theorem C18_fixup_once_before_really_probe :
    (∀ env : probe_env,
        (env.sdm670 = true → env.map_err = none →
          fixup_count (camcc_sdm845.cam_cc_sdm845_probe env camcc_sdm845.initial
              camcc_sdm845.cam_cc_sdm845_desc).calls = 1
          ∧ registrations_before_fixup (camcc_sdm845.cam_cc_sdm845_probe env
              camcc_sdm845.initial camcc_sdm845.cam_cc_sdm845_desc).calls = []
          ∧ (registrations_after_fixup (camcc_sdm845.cam_cc_sdm845_probe env
              camcc_sdm845.initial camcc_sdm845.cam_cc_sdm845_desc).calls).length = 1
          ∧ (camcc_sdm845.cam_cc_sdm845_probe env camcc_sdm845.initial
              camcc_sdm845.cam_cc_sdm845_desc).clks
            = camcc_sdm845.cam_cc_sdm845_fixup_sdm670 camcc_sdm845.initial)
        ∧ ((env.sdm670 = false ∨ env.map_err ≠ none) →
          fixup_count (camcc_sdm845.cam_cc_sdm845_probe env camcc_sdm845.initial
              camcc_sdm845.cam_cc_sdm845_desc).calls = 0
          ∧ (camcc_sdm845.cam_cc_sdm845_probe env camcc_sdm845.initial
              camcc_sdm845.cam_cc_sdm845_desc).clks = camcc_sdm845.initial))
    ∧ (∀ env : probe_env,
        (env.sdm670 = true → env.map_err = none →
          fixup_count (dispcc_sdm845.disp_cc_sdm845_probe env dispcc_sdm845.initial
              dispcc_sdm845.disp_cc_sdm845_desc).calls = 1
          ∧ registrations_before_fixup (dispcc_sdm845.disp_cc_sdm845_probe env
              dispcc_sdm845.initial dispcc_sdm845.disp_cc_sdm845_desc).calls = []
          ∧ (registrations_after_fixup (dispcc_sdm845.disp_cc_sdm845_probe env
              dispcc_sdm845.initial dispcc_sdm845.disp_cc_sdm845_desc).calls).length = 1
          ∧ (dispcc_sdm845.disp_cc_sdm845_probe env dispcc_sdm845.initial
              dispcc_sdm845.disp_cc_sdm845_desc).clks
            = dispcc_sdm845.disp_cc_sdm845_fixup_sdm670 dispcc_sdm845.initial)
        ∧ ((env.sdm670 = false ∨ env.map_err ≠ none) →
          fixup_count (dispcc_sdm845.disp_cc_sdm845_probe env dispcc_sdm845.initial
              dispcc_sdm845.disp_cc_sdm845_desc).calls = 0
          ∧ (dispcc_sdm845.disp_cc_sdm845_probe env dispcc_sdm845.initial
              dispcc_sdm845.disp_cc_sdm845_desc).clks = dispcc_sdm845.initial))
    ∧ (∀ env : probe_env,
        (env.sdm670 = true → env.map_err = none → env.register_ret = 0 →
          fixup_count (gpucc_sdm845.gpu_cc_sdm845_probe env gpucc_sdm845.initial
              gpucc_sdm845.gpu_cc_sdm845_desc).calls = 1
          ∧ registrations_before_fixup (gpucc_sdm845.gpu_cc_sdm845_probe env
              gpucc_sdm845.initial gpucc_sdm845.gpu_cc_sdm845_desc).calls
            = [.devm_clk_hw_register (.fixed_factor .crc_div)]
          ∧ (registrations_after_fixup (gpucc_sdm845.gpu_cc_sdm845_probe env
              gpucc_sdm845.initial gpucc_sdm845.gpu_cc_sdm845_desc).calls).length = 1
          ∧ (gpucc_sdm845.gpu_cc_sdm845_probe env gpucc_sdm845.initial
              gpucc_sdm845.gpu_cc_sdm845_desc).clks
            = gpucc_sdm845.gpu_cc_sdm845_fixup_sdm670 gpucc_sdm845.initial
          ∧ (gpucc_sdm845.gpu_cc_sdm845_fixup_sdm670 gpucc_sdm845.initial).fixed_factor
            = gpucc_sdm845.initial.fixed_factor)
        ∧ ((env.sdm670 = false ∨ env.map_err ≠ none ∨ env.register_ret ≠ 0) →
          fixup_count (gpucc_sdm845.gpu_cc_sdm845_probe env gpucc_sdm845.initial
              gpucc_sdm845.gpu_cc_sdm845_desc).calls = 0
          ∧ (gpucc_sdm845.gpu_cc_sdm845_probe env gpucc_sdm845.initial
              gpucc_sdm845.gpu_cc_sdm845_desc).clks = gpucc_sdm845.initial)) := by
  refine ⟨fun env => ?_, fun env => ?_, fun env => ?_⟩
  · obtain ⟨sdm670, map_err, register_ret, really_probe_ret⟩ := env
    refine ⟨?_, ?_⟩
    · rintro ⟨⟩ ⟨⟩
      exact ⟨rfl, rfl, rfl, rfl⟩
    · intro h
      cases map_err with
      | some e => exact ⟨rfl, rfl⟩
      | none =>
        cases sdm670 with
        | false => exact ⟨rfl, rfl⟩
        | true => simp at h
  · obtain ⟨sdm670, map_err, register_ret, really_probe_ret⟩ := env
    refine ⟨?_, ?_⟩
    · rintro ⟨⟩ ⟨⟩
      exact ⟨rfl, rfl, rfl, rfl⟩
    · intro h
      cases map_err with
      | some e => exact ⟨rfl, rfl⟩
      | none =>
        cases sdm670 with
        | false => exact ⟨rfl, rfl⟩
        | true => simp at h
  · obtain ⟨sdm670, map_err, register_ret, really_probe_ret⟩ := env
    refine ⟨?_, ?_⟩
    · rintro ⟨⟩ ⟨⟩ ⟨⟩
      refine ⟨rfl, rfl, rfl, rfl, ?_⟩
      simp only [gpucc_sdm845.gpu_cc_sdm845_fixup_sdm670, gpucc_sdm845.set_rate_max,
        gpucc_sdm845.set_freq_tbl]
    · intro h
      cases map_err with
      | some e => exact ⟨rfl, rfl⟩
      | none =>
        by_cases hr : register_ret = 0
        · subst hr
          cases sdm670 with
          | false => exact ⟨rfl, rfl⟩
          | true => simp at h
        · simp [gpucc_sdm845.gpu_cc_sdm845_probe, hr, fixup_count, is_fixup]

/-- Witness for C18: the display probe of an sdm670 device whose calls all
succeed applies the fixup once, registers nothing before it, and hands over
the fixed tables. -/
theorem C18_witness :
    (⟨true, none, 0, 0⟩ : probe_env).sdm670 = true
    ∧ fixup_count (dispcc_sdm845.disp_cc_sdm845_probe ⟨true, none, 0, 0⟩ dispcc_sdm845.initial
        dispcc_sdm845.disp_cc_sdm845_desc).calls = 1
    ∧ registrations_before_fixup (dispcc_sdm845.disp_cc_sdm845_probe ⟨true, none, 0, 0⟩
        dispcc_sdm845.initial dispcc_sdm845.disp_cc_sdm845_desc).calls = [] :=
  ⟨rfl, ((C18_fixup_once_before_really_probe.2.1 ⟨true, none, 0, 0⟩).1 rfl rfl).1,
    ((C18_fixup_once_before_really_probe.2.1 ⟨true, none, 0, 0⟩).1 rfl rfl).2.1⟩

/-- Claim C19, the code at the failing input.  The display probe configures
disp_cc_pll0 with l = 0x2c and alpha = 0xcaaa, which with a 19.2 MHz reference
and a 16-bit alpha field is 859,999,804.6875 Hz: 860 MHz to the nearest MHz,
not the 960 MHz of its comment.  The configuration that is 960 MHz is the one
the camera probe writes to cam_cc_pll2 under the same comment, l = 0x32 with
alpha = 0. -/
theorem C19_disp_pll0_is_860_mhz :
    (∀ env : probe_env, env.map_err = none →
        pll_configs (dispcc_sdm845.disp_cc_sdm845_probe env dispcc_sdm845.initial
          dispcc_sdm845.disp_cc_sdm845_desc).calls
        = [(.disp_cc_pll0, { l := 0x2c, alpha := 0xcaaa })])
    ∧ alpha_pll_rate { l := 0x2c, alpha := 0xcaaa } = 13759996875 / 16
    ∧ nearest_mhz (alpha_pll_rate { l := 0x2c, alpha := 0xcaaa }) = 860
    ∧ nearest_mhz (alpha_pll_rate { l := 0x2c, alpha := 0xcaaa }) ≠ 960
    ∧ nearest_mhz (alpha_pll_rate { l := 0x32, alpha := 0x0 }) = 960 := by
  have h1 : alpha_pll_rate { l := 0x2c, alpha := 0xcaaa } = 13759996875 / 16 := by
    norm_num [alpha_pll_rate, BI_TCXO_RATE, ALPHA_WIDTH]
  have h2 : alpha_pll_rate { l := 0x32, alpha := 0x0 } = 960000000 := by
    norm_num [alpha_pll_rate, BI_TCXO_RATE, ALPHA_WIDTH]
  have h3 : nearest_mhz (alpha_pll_rate { l := 0x2c, alpha := 0xcaaa }) = 860 := by
    rw [h1, nearest_mhz, Int.floor_eq_iff]; constructor <;> norm_num
  refine ⟨?_, h1, h3, ?_, ?_⟩
  · intro env h; rw [disp_probe_pll_configs, if_pos h]
  · rw [h3]; decide
  · rw [h2, nearest_mhz, Int.floor_eq_iff]; constructor <;> norm_num

/-- Claim C20.  The camera and GPU probes configure cam_cc_pll0..3 and
gpu_cc_pll0..1 with the values of the source (cam_cc_pll3 with the alpha 0x0
left from the assignment before), and with a 19.2 MHz reference and a 16-bit
alpha field each configuration gives a rate within 1 kHz of the rate its
comment names: 600, 808, 960, 384, 560 and 512 MHz. -/
theorem C20_pll_configs_match_comments :
    (∀ env : probe_env, env.map_err = none →
        pll_configs (camcc_sdm845.cam_cc_sdm845_probe env camcc_sdm845.initial
          camcc_sdm845.cam_cc_sdm845_desc).calls
        = [(.cam_cc_pll0, { l := 0x1f, alpha := 0x4000 }),
           (.cam_cc_pll1, { l := 0x2a, alpha := 0x1555 }),
           (.cam_cc_pll2, { l := 0x32, alpha := 0x0 }),
           (.cam_cc_pll3, { l := 0x14, alpha := 0x0 })])
    ∧ (∀ env : probe_env, env.map_err = none → env.register_ret = 0 →
        pll_configs (gpucc_sdm845.gpu_cc_sdm845_probe env gpucc_sdm845.initial
          gpucc_sdm845.gpu_cc_sdm845_desc).calls
        = [(.gpu_cc_pll0, { l := 0x1d, alpha := 0x2aaa }),
           (.gpu_cc_pll1, { l := 0x1a, alpha := 0xaaaa })])
    ∧ rate_within 1000 (alpha_pll_rate { l := 0x1f, alpha := 0x4000 }) 600000000
    ∧ rate_within 1000 (alpha_pll_rate { l := 0x2a, alpha := 0x1555 }) 808000000
    ∧ rate_within 1000 (alpha_pll_rate { l := 0x32, alpha := 0x0 }) 960000000
    ∧ rate_within 1000 (alpha_pll_rate { l := 0x14, alpha := 0x0 }) 384000000
    ∧ rate_within 1000 (alpha_pll_rate { l := 0x1d, alpha := 0x2aaa }) 560000000
    ∧ rate_within 1000 (alpha_pll_rate { l := 0x1a, alpha := 0xaaaa }) 512000000 := by
  refine ⟨?_, ?_, ?_, ?_, ?_, ?_, ?_, ?_⟩
  · intro env h; rw [cam_probe_pll_configs, if_pos h]
  · intro env h1 h2; rw [gpu_probe_pll_configs, if_pos ⟨h1, h2⟩]
  all_goals
    rw [rate_within, abs_le]
    constructor <;> norm_num [alpha_pll_rate, BI_TCXO_RATE, ALPHA_WIDTH]

/-- Bit `i` of a masked update of a 32-bit value: the bit of `val` inside the
mask, the old bit outside. -/
theorem masked_update_testBit (old mask val i : Nat) (hold : old < 2 ^ 32)
    (hmask : mask < 2 ^ 32) :
    ((old &&& (0xffffffff ^^^ mask)) ||| (val &&& mask)).testBit i
      = if mask.testBit i then val.testBit i else old.testBit i := by
  have h1 : (0xffffffff : Nat) = 2 ^ 32 - 1 := by norm_num
  rw [Nat.testBit_or, Nat.testBit_and, Nat.testBit_and, Nat.testBit_xor, h1,
    Nat.testBit_two_pow_sub_one]
  by_cases hi : i < 32
  · cases hm : mask.testBit i <;> simp [hi]
  · have hle : 2 ^ 32 ≤ 2 ^ i := Nat.pow_le_pow_right (by norm_num) (by omega)
    have ho : old.testBit i = false := Nat.testBit_eq_false_of_lt (by omega)
    have hm : mask.testBit i = false := Nat.testBit_eq_false_of_lt (by omega)
    simp [hi, ho, hm]

/-- The register map the GPU probe leaves after its two masked updates. -/
theorem gpu_probe_masked_updates (env : probe_env) (h1 : env.map_err = none)
    (h2 : env.register_ret = 0) (map : Nat → Nat) :
    probe_masked_updates (gpucc_sdm845.gpu_cc_sdm845_probe env gpucc_sdm845.initial
        gpucc_sdm845.gpu_cc_sdm845_desc).calls map
      = regmap_update_bits (regmap_update_bits map 0x1098 0xff0 0xff0) 0x106c 0xf000 0x8000 := by
  obtain ⟨sdm670, map_err, register_ret, really_probe_ret⟩ := env
  simp only at h1 h2
  subst h1 h2
  cases sdm670 <;> rfl

/-- The mask `0xff0` covers bits 4 to 11. -/
theorem mask_ff0_bits (i : Nat) : (0xff0 : Nat).testBit i = decide (4 ≤ i ∧ i < 12) := by
  by_cases h : i < 12
  · interval_cases i <;> decide
  · have : (0xff0 : Nat).testBit i = false :=
      Nat.testBit_eq_false_of_lt (lt_of_lt_of_le (by norm_num) (Nat.pow_le_pow_right (by norm_num) (by omega : 12 ≤ i)))
    simp [this, h]

/-- The mask `0xf000` covers bits 12 to 15. -/
theorem mask_f000_bits (i : Nat) : (0xf000 : Nat).testBit i = decide (12 ≤ i ∧ i < 16) := by
  by_cases h : i < 16
  · interval_cases i <;> decide
  · have : (0xf000 : Nat).testBit i = false :=
      Nat.testBit_eq_false_of_lt (lt_of_lt_of_le (by norm_num) (Nat.pow_le_pow_right (by norm_num) (by omega : 16 ≤ i)))
    simp [this, h]

/-- The value `0x8000` has bit 15 only. -/
theorem val_8000_bits (i : Nat) : (0x8000 : Nat).testBit i = decide (i = 15) := by
  have : (0x8000 : Nat) = 2 ^ 15 := by norm_num
  rw [this, Nat.testBit_two_pow]
  by_cases h : i = 15 <;> simp [h, eq_comm]

/-- Claim C21.  On a register map of 32-bit values, the two masked updates of
a GPU probe that gets past its registrations change only the bits inside their
masks.  Register 0x1098, the control register of gpu_cc_cx_gmu_clk, whose
enable bit is bit 0, gets 0xf in its wake field (bits 8-11) and in its sleep
field (bits 4-7) and keeps every other bit, bit 0 among them; register 0x106c,
the GDSCR of gpu_cx_gdsc, gets 8 in its clk_dis_wait field (bits 12-15) and
keeps every other bit; no other register changes. -/
theorem C21_masked_updates_change_only_masked_bits (env : probe_env)
    (hmap : env.map_err = none) (hreg : env.register_ret = 0)
    (map : Nat → Nat) (h32 : ∀ r, map r < 2 ^ 32) :
    (gpucc_sdm845.initial.branch gpucc_sdm845.Branch.gpu_cc_cx_gmu_clk).clkr.enable_reg = 0x1098
    ∧ (gpucc_sdm845.initial.branch gpucc_sdm845.Branch.gpu_cc_cx_gmu_clk).clkr.enable_mask = BIT 0
    ∧ gpucc_sdm845.gpu_cx_gdsc.gdscr = 0x106c
    ∧ reg_field (probe_masked_updates (gpucc_sdm845.gpu_cc_sdm845_probe env
          gpucc_sdm845.initial gpucc_sdm845.gpu_cc_sdm845_desc).calls map 0x1098) 8 4 = 0xf
    ∧ reg_field (probe_masked_updates (gpucc_sdm845.gpu_cc_sdm845_probe env
          gpucc_sdm845.initial gpucc_sdm845.gpu_cc_sdm845_desc).calls map 0x1098) 4 4 = 0xf
    ∧ (∀ i, ¬ (4 ≤ i ∧ i < 12) →
        (probe_masked_updates (gpucc_sdm845.gpu_cc_sdm845_probe env
          gpucc_sdm845.initial gpucc_sdm845.gpu_cc_sdm845_desc).calls map 0x1098).testBit i
          = (map 0x1098).testBit i)
    ∧ (probe_masked_updates (gpucc_sdm845.gpu_cc_sdm845_probe env
          gpucc_sdm845.initial gpucc_sdm845.gpu_cc_sdm845_desc).calls map 0x1098).testBit 0
          = (map 0x1098).testBit 0
    ∧ reg_field (probe_masked_updates (gpucc_sdm845.gpu_cc_sdm845_probe env
          gpucc_sdm845.initial gpucc_sdm845.gpu_cc_sdm845_desc).calls map 0x106c) 12 4 = 8
    ∧ (∀ i, ¬ (12 ≤ i ∧ i < 16) →
        (probe_masked_updates (gpucc_sdm845.gpu_cc_sdm845_probe env
          gpucc_sdm845.initial gpucc_sdm845.gpu_cc_sdm845_desc).calls map 0x106c).testBit i
          = (map 0x106c).testBit i)
    ∧ (∀ r, r ≠ 0x1098 → r ≠ 0x106c →
        probe_masked_updates (gpucc_sdm845.gpu_cc_sdm845_probe env
          gpucc_sdm845.initial gpucc_sdm845.gpu_cc_sdm845_desc).calls map r = map r) := by
  rw [gpu_probe_masked_updates env hmap hreg map]
  have hA : ∀ i, (regmap_update_bits (regmap_update_bits map 0x1098 0xff0 0xff0) 0x106c 0xf000
      0x8000 0x1098).testBit i = if 4 ≤ i ∧ i < 12 then true else (map 0x1098).testBit i := by
    intro i
    have : regmap_update_bits (regmap_update_bits map 0x1098 0xff0 0xff0) 0x106c 0xf000
      0x8000 0x1098 = (map 0x1098 &&& (0xffffffff ^^^ 0xff0)) ||| (0xff0 &&& 0xff0) := by
      simp [regmap_update_bits]
    rw [this, masked_update_testBit _ _ _ _ (h32 _) (by norm_num), mask_ff0_bits]
    by_cases h : 4 ≤ i ∧ i < 12 <;> simp [h]
  have hB : ∀ i, (regmap_update_bits (regmap_update_bits map 0x1098 0xff0 0xff0) 0x106c 0xf000
      0x8000 0x106c).testBit i
        = if 12 ≤ i ∧ i < 16 then decide (i = 15) else (map 0x106c).testBit i := by
    intro i
    have : regmap_update_bits (regmap_update_bits map 0x1098 0xff0 0xff0) 0x106c 0xf000
      0x8000 0x106c = (map 0x106c &&& (0xffffffff ^^^ 0xf000)) ||| (0x8000 &&& 0xf000) := by
      simp [regmap_update_bits]
    rw [this, masked_update_testBit _ _ _ _ (h32 _) (by norm_num), mask_f000_bits, val_8000_bits]
    by_cases h : 12 ≤ i ∧ i < 16 <;> simp [h]
  refine ⟨by decide, by decide, by decide, ?_, ?_, ?_, ?_, ?_, ?_, ?_⟩
  · apply Nat.eq_of_testBit_eq
    intro j
    have h15 : (0xf : Nat) = 2 ^ 4 - 1 := by norm_num
    rw [reg_field, Nat.testBit_mod_two_pow, Nat.testBit_shiftRight, hA, h15,
      Nat.testBit_two_pow_sub_one]
    by_cases hj : j < 4
    · have : 4 ≤ 8 + j ∧ 8 + j < 12 := by omega
      simp [hj, this]
    · simp [hj]
  · apply Nat.eq_of_testBit_eq
    intro j
    have h15 : (0xf : Nat) = 2 ^ 4 - 1 := by norm_num
    rw [reg_field, Nat.testBit_mod_two_pow, Nat.testBit_shiftRight, hA, h15,
      Nat.testBit_two_pow_sub_one]
    by_cases hj : j < 4
    · have : 4 ≤ 4 + j ∧ 4 + j < 12 := by omega
      simp [hj, this]
    · simp [hj]
  · intro i hi
    rw [hA, if_neg hi]
  · rw [hA, if_neg (by omega)]
  · apply Nat.eq_of_testBit_eq
    intro j
    have h8 : (8 : Nat) = 2 ^ 3 := by norm_num
    rw [reg_field, Nat.testBit_mod_two_pow, Nat.testBit_shiftRight, hB, h8, Nat.testBit_two_pow]
    by_cases hj : j < 4
    · have : 12 ≤ 12 + j ∧ 12 + j < 16 := by omega
      simp only [hj, this, and_self, if_true, decide_True, Bool.true_and]
      congr 1
      apply propext
      constructor <;> intro h <;> omega
    · have : ¬ (3 = j) := by omega
      simp [hj, this]
  · intro i hi
    rw [hB, if_neg hi]
  · intro r h1 h2
    simp [regmap_update_bits, h1, h2]

/-- Claim C21 on a register map whose registers all hold `0x80000001`. -/
theorem C21_witness :
    (∀ r : Nat, (fun _ => 0x80000001 : Nat → Nat) r < 2 ^ 32)
    ∧ reg_field (probe_masked_updates (gpucc_sdm845.gpu_cc_sdm845_probe
        { sdm670 := false, map_err := none, register_ret := 0, really_probe_ret := 0 }
        gpucc_sdm845.initial gpucc_sdm845.gpu_cc_sdm845_desc).calls
        (fun _ => 0x80000001) 0x1098) 8 4 = 0xf :=
  ⟨fun _ => by norm_num,
    (C21_masked_updates_change_only_masked_bits
      { sdm670 := false, map_err := none, register_ret := 0, really_probe_ret := 0 } rfl rfl
      (fun _ => 0x80000001) (fun _ => by norm_num)).2.2.2.1⟩

/-- Claim C22.  For both variants of the three controllers, every entry of the
active frequency table of every RCG names a source that appears in the parent
map of the RCG, so the lookup of the mux code of the entry finds an entry of
the map. -/
theorem C22_table_sources_in_parent_map :
    (∀ (sdm670 : Bool) (r : camcc_sdm845.Rcg),
        table_sources_in_parent_map ((camcc_sdm845.variant sdm670).rcg r)
        ∧ table_sources_found ((camcc_sdm845.variant sdm670).rcg r))
    ∧ (∀ (sdm670 : Bool) (r : dispcc_sdm845.Rcg),
        table_sources_in_parent_map ((dispcc_sdm845.variant sdm670).rcg r)
        ∧ table_sources_found ((dispcc_sdm845.variant sdm670).rcg r))
    ∧ (∀ (sdm670 : Bool) (r : gpucc_sdm845.Rcg),
        table_sources_in_parent_map ((gpucc_sdm845.variant sdm670).rcg r)
        ∧ table_sources_found ((gpucc_sdm845.variant sdm670).rcg r)) := by
  refine ⟨?_, ?_, ?_⟩
  · intro sdm670 r; cases sdm670 <;> cases r <;> decide
  · intro sdm670 r; cases sdm670 <;> cases r <;> decide
  · intro sdm670 r; cases sdm670 <;> cases r <;> decide

/-- The whole-number check gives the bound on the rates. -/
theorem within_of_cross (tol a b c d : Nat) (h : within_cross tol a b c d) :
    rate_within (tol : ℚ) ((a : ℚ) / (b : ℚ)) ((c : ℚ) / (d : ℚ)) := by
  obtain ⟨hb, hd, h1, h2⟩ := h
  have hb' : (0 : ℚ) < b := by exact_mod_cast hb
  have hd' : (0 : ℚ) < d := by exact_mod_cast hd
  have h1' : (a : ℚ) * d ≤ c * b + tol * b * d := by exact_mod_cast h1
  have h2' : (c : ℚ) * b ≤ a * d + tol * b * d := by exact_mod_cast h2
  have e : (a : ℚ) / b - c / d = (a * d - c * b) / (b * d) := by
    field_simp
    ring
  rw [rate_within, e, abs_le]
  have hbd : (0 : ℚ) < b * d := mul_pos hb' hd'
  constructor
  · rw [le_div_iff₀ hbd]; nlinarith
  · rw [div_le_iff₀ hbd]; nlinarith

/-- The fraction `parent_request_frac` is the rate the entry asks of its parent. -/
theorem parent_request_eq_frac (f : freq_tbl) (h : 0 < (parent_request_frac f).2) :
    rcg2_parent_request f
      = ((parent_request_frac f).1 : ℚ) / ((parent_request_frac f).2 : ℚ) := by
  unfold parent_request_frac at *
  unfold rcg2_parent_request freq_tbl_divider
  by_cases hn : f.n = 0
  · simp [hn]; ring
  · simp only [hn, if_false] at h ⊢
    have hm : (f.m : ℚ) ≠ 0 := by
      have : 0 < f.m := by omega
      exact_mod_cast this.ne'
    push_cast
    field_simp

/-- The fraction `output_rate_frac` is the output rate where its denominator is
positive. -/
theorem output_rate_eq_frac (configs : List (camcc_sdm845.Pll × alpha_pll_config))
    (divisor : camcc_sdm845.Postdiv → Nat) (o : camcc_sdm845.rate_source)
    (h : 0 < (camcc_sdm845.output_rate_frac configs divisor o).2) :
    camcc_sdm845.output_rate configs divisor o
      = some (((camcc_sdm845.output_rate_frac configs divisor o).1 : ℚ)
          / ((camcc_sdm845.output_rate_frac configs divisor o).2 : ℚ)) := by
  cases o with
  | reference => simp [camcc_sdm845.output_rate, camcc_sdm845.output_rate_frac]
  | pll_output q p =>
    simp only [camcc_sdm845.output_rate_frac] at h ⊢
    simp only [camcc_sdm845.output_rate]
    cases hc : configured configs q with
    | none => rw [hc] at h; simp at h
    | some cfg =>
      rw [hc] at h
      simp only at h
      have hd : (divisor p : ℚ) ≠ 0 := by
        have : 0 < divisor p := Nat.pos_of_ne_zero (fun h0 => by simp [h0] at h)
        exact_mod_cast this.ne'
      simp only [Option.map_some', Option.some.injEq, alpha_pll_rate]
      push_cast
      field_simp

/-- An entry that passes the whole-number check names a source whose rate, the
fraction `frac` gives, is within `tol` Hz of the rate the entry asks of it. -/
theorem entry_agrees_rate (s : camcc_sdm845.clocks)
    (frac : camcc_sdm845.rate_source → Nat × Nat) (tol : Nat) (c : clk_rcg2 camcc_sdm845.Hw)
    (f : freq_tbl) (h : camcc_sdm845.entry_agrees s frac tol c f) :
    ∃ o, camcc_sdm845.source_of s c f.src = some o ∧ 0 < (frac o).2
      ∧ rate_within (tol : ℚ) (rcg2_parent_request f) (((frac o).1 : ℚ) / ((frac o).2 : ℚ)) := by
  unfold camcc_sdm845.entry_agrees at h
  cases ho : camcc_sdm845.source_of s c f.src with
  | none => rw [ho] at h; exact h.elim
  | some o =>
    rw [ho] at h
    simp only at h
    refine ⟨o, rfl, h.2.1, ?_⟩
    rw [parent_request_eq_frac f h.1]
    exact within_of_cross _ _ _ _ _ h

/-- The clock structures the camera probe leaves are those of the variant. -/
theorem cam_probe_clks (env : probe_env) (h : env.map_err = none) :
    (camcc_sdm845.cam_cc_sdm845_probe env camcc_sdm845.initial
      camcc_sdm845.cam_cc_sdm845_desc).clks = camcc_sdm845.variant env.sdm670 := by
  obtain ⟨sdm670, map_err, register_ret, really_probe_ret⟩ := env
  simp only at h
  subst h
  cases sdm670 <;> rfl

/-- Claim C23.  No camera post-divider passes rate requests on to its PLL, so
the PLL rates are those the probe configures.  With cam_cc_pll2_out_even at
divisor 2 and the other post-dividers at divisor 1, each a divisor of the
table of the post-divider, every entry (f, s, h, m/n) of every active camera
frequency table, in both variants, names a source whose output rate is within
100 Hz of `f * h * (n / m)` (`f * h` without fraction), both for the rate the
probe configures and for the rate listed: 19.2 MHz for the reference, 600 MHz
for PLL0_OUT_EVEN, 808 MHz for PLL1_OUT_EVEN, 480 MHz for PLL2_OUT_EVEN,
960 MHz for PLL2_OUT_ODD and 384 MHz for PLL3_OUT_EVEN.  The configured output
rates are the listed ones, but for PLL1_OUT_EVEN at 807999902.34375 Hz. -/
theorem C23_camera_tables_agree_with_pll_rates :
    (∀ (sdm670 : Bool) (p : camcc_sdm845.Postdiv),
        clk_flag.CLK_SET_RATE_PARENT ∉ ((camcc_sdm845.variant sdm670).postdiv p).clkr.hw_init.flags)
    ∧ (∀ p : camcc_sdm845.Postdiv,
        (if p = camcc_sdm845.Postdiv.cam_cc_pll2_out_even then 2 else 1)
          ∈ div_table_divisors (camcc_sdm845.initial.postdiv p).post_div_table)
    ∧ (∀ env : probe_env, env.map_err = none →
        ∀ (r : camcc_sdm845.Rcg),
        ∀ f ∈ freq_tbl_entries (active_freq_tbl
            ((camcc_sdm845.cam_cc_sdm845_probe env camcc_sdm845.initial
              camcc_sdm845.cam_cc_sdm845_desc).clks.rcg r)),
          ∃ o rate,
            camcc_sdm845.source_of
                (camcc_sdm845.cam_cc_sdm845_probe env camcc_sdm845.initial
                  camcc_sdm845.cam_cc_sdm845_desc).clks
                ((camcc_sdm845.cam_cc_sdm845_probe env camcc_sdm845.initial
                  camcc_sdm845.cam_cc_sdm845_desc).clks.rcg r) f.src = some o
            ∧ camcc_sdm845.output_rate
                (pll_configs (camcc_sdm845.cam_cc_sdm845_probe env camcc_sdm845.initial
                  camcc_sdm845.cam_cc_sdm845_desc).calls)
                (fun p => if p = camcc_sdm845.Postdiv.cam_cc_pll2_out_even then 2 else 1) o
                = some rate
            ∧ rate_within 100 (rcg2_parent_request f) rate
            ∧ rate_within 100 (rcg2_parent_request f)
                (if o = .reference then 19200000
                 else if o = .pll_output .cam_cc_pll0 .cam_cc_pll0_out_even then 600000000
                 else if o = .pll_output .cam_cc_pll1 .cam_cc_pll1_out_even then 808000000
                 else if o = .pll_output .cam_cc_pll2 .cam_cc_pll2_out_even then 480000000
                 else if o = .pll_output .cam_cc_pll2 .cam_cc_pll2_out_odd then 960000000
                 else if o = .pll_output .cam_cc_pll3 .cam_cc_pll3_out_even then 384000000
                 else 0))
    ∧ (∀ env : probe_env, env.map_err = none →
        ∀ x ∈ [(camcc_sdm845.rate_source.reference, (19200000 : ℚ)),
               (.pll_output .cam_cc_pll0 .cam_cc_pll0_out_even, 600000000),
               (.pll_output .cam_cc_pll1 .cam_cc_pll1_out_even, 807999902 + 11 / 32),
               (.pll_output .cam_cc_pll2 .cam_cc_pll2_out_even, 480000000),
               (.pll_output .cam_cc_pll2 .cam_cc_pll2_out_odd, 960000000),
               (.pll_output .cam_cc_pll3 .cam_cc_pll3_out_even, 384000000)],
          camcc_sdm845.output_rate
            (pll_configs (camcc_sdm845.cam_cc_sdm845_probe env camcc_sdm845.initial
              camcc_sdm845.cam_cc_sdm845_desc).calls)
            (fun p => if p = camcc_sdm845.Postdiv.cam_cc_pll2_out_even then 2 else 1) x.1
          = some x.2)
    := by
  have hfrac : ∀ (b : Bool) (r : camcc_sdm845.Rcg),
      camcc_sdm845.table_agrees (camcc_sdm845.variant b)
        (camcc_sdm845.output_rate_frac
          [(.cam_cc_pll0, { l := 0x1f, alpha := 0x4000 }),
           (.cam_cc_pll1, { l := 0x2a, alpha := 0x1555 }),
           (.cam_cc_pll2, { l := 0x32, alpha := 0x0 }),
           (.cam_cc_pll3, { l := 0x14, alpha := 0x0 })]
          (fun p => if p = camcc_sdm845.Postdiv.cam_cc_pll2_out_even then 2 else 1))
        100 ((camcc_sdm845.variant b).rcg r) := by
    intro b r; cases b <;> cases r <;> decide
  have hlisted : ∀ (b : Bool) (r : camcc_sdm845.Rcg),
      camcc_sdm845.table_agrees (camcc_sdm845.variant b)
        (fun o => (if o = .reference then 19200000
                 else if o = .pll_output .cam_cc_pll0 .cam_cc_pll0_out_even then 600000000
                 else if o = .pll_output .cam_cc_pll1 .cam_cc_pll1_out_even then 808000000
                 else if o = .pll_output .cam_cc_pll2 .cam_cc_pll2_out_even then 480000000
                 else if o = .pll_output .cam_cc_pll2 .cam_cc_pll2_out_odd then 960000000
                 else if o = .pll_output .cam_cc_pll3 .cam_cc_pll3_out_even then 384000000
                 else 0, 1))
        100 ((camcc_sdm845.variant b).rcg r) := by
    intro b r; cases b <;> cases r <;> decide
  refine ⟨?_, ?_, ?_, ?_⟩
  · intro b p; cases b <;> cases p <;> decide
  · intro p; cases p <;> decide
  · intro env henv r f hf
    rw [cam_probe_clks env henv] at hf ⊢
    rw [cam_probe_pll_configs, if_pos henv]
    obtain ⟨o, ho, hpos, hw⟩ := entry_agrees_rate _ _ _ _ _ (hfrac env.sdm670 r f hf)
    obtain ⟨o2, ho2, -, hw2⟩ := entry_agrees_rate _ _ _ _ _ (hlisted env.sdm670 r f hf)
    rw [ho] at ho2
    cases ho2
    refine ⟨o, _, ho, output_rate_eq_frac _ _ _ hpos, by exact_mod_cast hw, ?_⟩
    simp only [Nat.cast_one, div_one] at hw2
    convert hw2 using 1
    split_ifs <;> simp
  · intro env henv x hx
    rw [cam_probe_pll_configs, if_pos henv]
    simp only [List.mem_cons, List.mem_singleton, List.not_mem_nil, or_false] at hx
    have k0 : camcc_sdm845.output_rate_frac
        [(.cam_cc_pll0, { l := 0x1f, alpha := 0x4000 }), (.cam_cc_pll1, { l := 0x2a, alpha := 0x1555 }),
          (.cam_cc_pll2, { l := 0x32, alpha := 0x0 }), (.cam_cc_pll3, { l := 0x14, alpha := 0x0 })]
        (fun p => if p = camcc_sdm845.Postdiv.cam_cc_pll2_out_even then 2 else 1)
        (.pll_output .cam_cc_pll0 .cam_cc_pll0_out_even) = (39321600000000, 65536) := by decide
    have k1 : camcc_sdm845.output_rate_frac
        [(.cam_cc_pll0, { l := 0x1f, alpha := 0x4000 }), (.cam_cc_pll1, { l := 0x2a, alpha := 0x1555 }),
          (.cam_cc_pll2, { l := 0x32, alpha := 0x0 }), (.cam_cc_pll3, { l := 0x14, alpha := 0x0 })]
        (fun p => if p = camcc_sdm845.Postdiv.cam_cc_pll2_out_even then 2 else 1)
        (.pll_output .cam_cc_pll1 .cam_cc_pll1_out_even) = (52953081600000, 65536) := by decide
    have k2 : camcc_sdm845.output_rate_frac
        [(.cam_cc_pll0, { l := 0x1f, alpha := 0x4000 }), (.cam_cc_pll1, { l := 0x2a, alpha := 0x1555 }),
          (.cam_cc_pll2, { l := 0x32, alpha := 0x0 }), (.cam_cc_pll3, { l := 0x14, alpha := 0x0 })]
        (fun p => if p = camcc_sdm845.Postdiv.cam_cc_pll2_out_even then 2 else 1)
        (.pll_output .cam_cc_pll2 .cam_cc_pll2_out_even) = (62914560000000, 131072) := by decide
    have k3 : camcc_sdm845.output_rate_frac
        [(.cam_cc_pll0, { l := 0x1f, alpha := 0x4000 }), (.cam_cc_pll1, { l := 0x2a, alpha := 0x1555 }),
          (.cam_cc_pll2, { l := 0x32, alpha := 0x0 }), (.cam_cc_pll3, { l := 0x14, alpha := 0x0 })]
        (fun p => if p = camcc_sdm845.Postdiv.cam_cc_pll2_out_even then 2 else 1)
        (.pll_output .cam_cc_pll2 .cam_cc_pll2_out_odd) = (62914560000000, 65536) := by decide
    have k4 : camcc_sdm845.output_rate_frac
        [(.cam_cc_pll0, { l := 0x1f, alpha := 0x4000 }), (.cam_cc_pll1, { l := 0x2a, alpha := 0x1555 }),
          (.cam_cc_pll2, { l := 0x32, alpha := 0x0 }), (.cam_cc_pll3, { l := 0x14, alpha := 0x0 })]
        (fun p => if p = camcc_sdm845.Postdiv.cam_cc_pll2_out_even then 2 else 1)
        (.pll_output .cam_cc_pll3 .cam_cc_pll3_out_even) = (25165824000000, 65536) := by decide
    rcases hx with rfl | rfl | rfl | rfl | rfl | rfl
    · norm_num [camcc_sdm845.output_rate, BI_TCXO_RATE]
    · rw [output_rate_eq_frac _ _ _ (by decide), k0]; norm_num
    · rw [output_rate_eq_frac _ _ _ (by decide), k1]; norm_num
    · rw [output_rate_eq_frac _ _ _ (by decide), k2]; norm_num
    · rw [output_rate_eq_frac _ _ _ (by decide), k3]; norm_num
    · rw [output_rate_eq_frac _ _ _ (by decide), k4]; norm_num

/-- Claim C24.  For both variants of the three controllers, every RCG has a
divider field of 5 bits, and every entry of its active frequency table fits
its fields: the encoded divider `2h - 1` lies between 1 and 31, and an entry
with an M/N fraction belongs to an RCG with `mnd_width > 0` and has `m < n` and
`n < 2 ^ mnd_width`. -/
theorem C24_freq_tbl_entries_fit_fields :
    (∀ (sdm670 : Bool) (r : camcc_sdm845.Rcg), freq_tbl_fits ((camcc_sdm845.variant sdm670).rcg r))
    ∧ (∀ (sdm670 : Bool) (r : dispcc_sdm845.Rcg),
        freq_tbl_fits ((dispcc_sdm845.variant sdm670).rcg r))
    ∧ (∀ (sdm670 : Bool) (r : gpucc_sdm845.Rcg),
        freq_tbl_fits ((gpucc_sdm845.variant sdm670).rcg r)) := by
  refine ⟨?_, ?_, ?_⟩
  · intro sdm670 r; cases sdm670 <;> cases r <;> decide
  · intro sdm670 r; cases sdm670 <;> cases r <;> decide
  · intro sdm670 r; cases sdm670 <;> cases r <;> decide

/-- Claim C25.  In both variants every camera RCG has exactly one safe-parking
mechanism: it uses the shared operations with `enable_safe_config` unset, or
the plain RCG operations with `enable_safe_config` set, never both and never
neither. -/
theorem C25_camera_rcgs_one_safe_parking_mechanism :
    ∀ (sdm670 : Bool) (r : camcc_sdm845.Rcg),
      (parks_by_shared_ops ((camcc_sdm845.variant sdm670).rcg r)
        ∨ parks_by_safe_config ((camcc_sdm845.variant sdm670).rcg r))
      ∧ ¬ (parks_by_shared_ops ((camcc_sdm845.variant sdm670).rcg r)
        ∧ parks_by_safe_config ((camcc_sdm845.variant sdm670).rcg r))
      ∧ (((camcc_sdm845.variant sdm670).rcg r).clkr.hw_init.ops = clk_ops.clk_rcg2_shared_ops
          ↔ ((camcc_sdm845.variant sdm670).rcg r).enable_safe_config = false) := by
  intro sdm670 r; cases sdm670 <;> cases r <;> decide

/-- Claim C27, at a buffer the validation accepts.  On `short_buffer` the
trailer validation of `ax88179_rx_fixup` passes with header offset 8 and one
packet, and the function copies out the bytes `[0, 1514)`: the copy is neither
inside the first `hdr_off = 8` bytes nor inside the `actual_length = 16` bytes
received. -/
theorem C27_rx_fixup_copies_beyond_header_offset :
    ax88179_178a.trailer_valid ax88179_178a.short_buffer
    ∧ ax88179_178a.trailer_hdr_off ax88179_178a.short_buffer = 8
    ∧ ax88179_178a.trailer_pkt_cnt ax88179_178a.short_buffer = 1
    ∧ (ax88179_178a.ax88179_rx_fixup ax88179_178a.short_buffer (fun _ => true) { } 0 64).copied
        = [{ start := 0, len := 1514, ip_summed := ax88179_178a.ip_summed.CHECKSUM_NONE }]
    ∧ ¬ (∀ skb ∈ (ax88179_178a.ax88179_rx_fixup ax88179_178a.short_buffer (fun _ => true) { } 0 64).copied,
          ax88179_178a.copy_inside (ax88179_178a.trailer_hdr_off ax88179_178a.short_buffer) skb)
    ∧ ¬ (∀ skb ∈ (ax88179_178a.ax88179_rx_fixup ax88179_178a.short_buffer (fun _ => true) { } 0 64).copied,
          ax88179_178a.copy_inside ax88179_178a.short_buffer.actual_length skb) := by
  decide
